import Mathlib

/-! # rancher-operator: object graph generator, import handshake, kubeconfig manager

A shallow embedding of

* `pkg/controllers/rke/cluster/template.go` and the index functions of `controller.go`
  (namespace `Rke`),
* `pkg/controllers/cluster/import.go` (namespace `Import`),
* `pkg/kubeconfig/manager.go` (namespace `Kubeconfig`).

Go values `(x, err)` are kept as pairs or as `Except`; collaborators (caches, clients,
the dynamic controller, library functions) are fields of an environment or of the
world state, and every collaborator call is appended to a log so that "this call does
not happen" is a statement about the log.
-/

namespace RancherOperator

/-! ## Errors -/

/-- Go `error` values as they are told apart by the code: `apierror.IsNotFound`,
`generic.ErrSkip`, a run-time panic, and everything else. -/
inductive Error where
  | notFound (what : String)
  | alreadyExists (what : String)
  | errSkip
  | goPanic (msg : String)
  | other (msg : String)
  deriving DecidableEq, Repr

/-- The predicate `apierror.IsNotFound(err)` on a non-nil error. -/
def Error.isNotFound : Error → Bool
  | .notFound _ => true
  | _ => false

/-- The predicate `apierror.IsNotFound(err)`; a nil error is not a not-found. -/
def IsNotFound : Option Error → Bool
  | some e => e.isNotFound
  | none => false

/-! ## Go maps with string keys -/

/-- A Go `map[string]β`, kept as an association list. -/
abbrev GoMap (β : Type) := List (String × β)

namespace GoMap

variable {β : Type}

/-- The keys visited by `for k := range m`. -/
def keys (m : GoMap β) : List String := m.map (fun kv => kv.1)

/-- The comma-ok lookup `_, ok := m[k]`. -/
def contains (m : GoMap β) (k : String) : Bool := m.any (fun kv => kv.1 == k)

/-- The lookup `m[k]`, `none` when the key is absent. -/
def get (m : GoMap β) (k : String) : Option β :=
  match m.find? (fun kv => kv.1 == k) with
  | some kv => some kv.2
  | none => none

/-- The builtin `delete(m, k)`. -/
def delete (m : GoMap β) (k : String) : GoMap β := m.filter (fun kv => kv.1 != k)

/-- The assignment `m[k] = v`. -/
def set (m : GoMap β) (k : String) (v : β) : GoMap β := m.delete k ++ [(k, v)]

end GoMap

/-- A Go `interface{}` holding decoded JSON. -/
inductive Value where
  | null
  | bool (b : Bool)
  | num (n : Int)
  | str (s : String)
  | list (l : List Value)
  | map (m : List (String × Value))

/-! ## API types (`pkg/apis/...`, `k8s.io/api/core/v1`, cluster-api) -/

/-- The type `corev1.ObjectReference`, with the fields the code touches. -/
structure ObjectReference where
  Kind : String
  Namespace : String
  Name : String
  APIVersion : String
  deriving DecidableEq, Repr

/-- The type `corev1.Taint`. -/
structure Taint where
  Key : String
  Value : String
  Effect : String
  deriving DecidableEq, Repr

/-- The embedded `RKECommonNodeConfig` of a node pool. -/
structure RKECommonNodeConfig where
  Labels : GoMap String
  Taints : List Taint
  CloudCredentialSecretName : String
  deriving DecidableEq, Repr

/-- The rolling-update policy of a node pool (`*intstr.IntOrString` kept as text). -/
structure RKENodePoolRollingUpdate where
  MaxUnavailable : Option String
  MaxSurge : Option String
  deriving DecidableEq, Repr

/-- The type `rancherv1.RKENodePool`; pointers are `Option`. -/
structure RKENodePool where
  RKECommonNodeConfig : RKECommonNodeConfig
  Paused : Bool
  RollingUpdate : Option RKENodePoolRollingUpdate
  Name : String
  EtcdRole : Option Bool
  ControlPlaneRole : Option Bool
  Quantity : Option Int
  NodeConfig : Option ObjectReference
  deriving DecidableEq, Repr

/-- The type `rancherv1.RKEConfig`. -/
structure RKEConfig where
  NodePools : List RKENodePool
  deriving DecidableEq, Repr

/-- The type `rancherv1.ImportedConfig`. -/
structure ImportedConfig where
  KubeConfigSecretName : String
  deriving DecidableEq, Repr

/-- The type `rancherv1.ClusterAPIConfig`. -/
structure ClusterAPIConfig where
  ClusterName : String
  deriving DecidableEq, Repr

/-- The type `rancherv1.ClusterSpec`. -/
structure ClusterSpec where
  CloudCredentialSecretName : String
  KubernetesVersion : String
  RKEConfig : Option RKEConfig
  ImportedConfig : Option ImportedConfig
  ClusterAPIConfig : Option ClusterAPIConfig
  deriving DecidableEq, Repr

/-- The type `rancherv1.ClusterStatus`. -/
structure ClusterStatus where
  Ready : Bool
  ClusterName : String
  AgentDeployed : Bool
  deriving DecidableEq, Repr

/-- The type `rancherv1.Cluster`. -/
structure Cluster where
  Name : String
  Namespace : String
  Spec : ClusterSpec
  Status : ClusterStatus
  deriving DecidableEq, Repr

/-- The type `metav1.ObjectMeta`, name and namespace only. -/
structure ObjectMeta where
  Name : String
  Namespace : String
  deriving DecidableEq, Repr

/-- The type `schema.GroupVersionKind`. -/
structure GroupVersionKind where
  Group : String
  Version : String
  Kind : String
  deriving DecidableEq, Repr

/-- The spec of `rkev1.RKECluster`; `UpgradeStrategy` is the empty struct and is left out. -/
structure RKEClusterSpec where
  CloudCredentialSecretName : String
  KubernetesVersion : String
  ManagementClusterName : String
  deriving DecidableEq, Repr

/-- The type `rkev1.RKECluster`. -/
structure RKECluster where
  ObjectMeta : ObjectMeta
  Spec : RKEClusterSpec
  deriving DecidableEq, Repr

/-- The type `capi.Cluster`, with its infrastructure reference. -/
structure CapiCluster where
  ObjectMeta : ObjectMeta
  InfrastructureRef : Option ObjectReference
  deriving DecidableEq, Repr

/-- The type `rkev1.RKEBootstrapTemplate`. -/
structure RKEBootstrapTemplate where
  ObjectMeta : ObjectMeta
  deriving DecidableEq, Repr

/-- The type `capi.MachineRollingUpdateDeployment`. -/
structure MachineRollingUpdateDeployment where
  MaxUnavailable : Option String
  MaxSurge : Option String
  deriving DecidableEq, Repr

/-- The type `capi.MachineDeploymentStrategy`. -/
structure MachineDeploymentStrategy where
  StrategyType : String
  RollingUpdate : Option MachineRollingUpdateDeployment
  deriving DecidableEq, Repr

/-- The type `capi.MachineSpec`. -/
structure MachineSpec where
  ClusterName : String
  BootstrapConfigRef : Option ObjectReference
  InfrastructureRef : ObjectReference
  deriving DecidableEq, Repr

/-- The type `capi.MachineTemplateSpec`: template metadata and machine spec. -/
structure MachineTemplateSpec where
  Labels : GoMap String
  Annotations : GoMap String
  Spec : MachineSpec
  deriving DecidableEq, Repr

/-- The type `capi.MachineDeploymentSpec`. -/
structure MachineDeploymentSpec where
  ClusterName : String
  Replicas : Option Int
  Template : MachineTemplateSpec
  Strategy : Option MachineDeploymentStrategy
  Paused : Bool
  deriving DecidableEq, Repr

/-- The type `capi.MachineDeployment`. -/
structure MachineDeployment where
  ObjectMeta : ObjectMeta
  Spec : MachineDeploymentSpec
  deriving DecidableEq, Repr

/-- The type `unstructured.Unstructured`: a bare field map. -/
structure Unstructured where
  Object : GoMap Value

/-- A `runtime.Object` as produced by the generator. -/
inductive Object where
  | rkeCluster (o : RKECluster)
  | capiCluster (o : CapiCluster)
  | bootstrapTemplate (o : RKEBootstrapTemplate)
  | unstructured (o : Unstructured)
  | machineDeployment (o : MachineDeployment)

/-- The spec of a `v3.DynamicSchema`: only the key set of `ResourceFields` is read. -/
structure DynamicSchemaSpec where
  ResourceFields : GoMap Unit
  deriving DecidableEq, Repr

/-- The type `v3.DynamicSchema`. -/
structure DynamicSchema where
  Spec : DynamicSchemaSpec
  deriving DecidableEq, Repr

/-! ## Library functions used by the generator -/

/-- The function `name.SafeConcatName` of the wrangler library (a dependency): the parts
joined by `-`; a result of 64 bytes or more is cut and given a digest suffix, which is
kept abstract as `shorten`. -/
def SafeConcatName (shorten : String → String) (name : List String) : String :=
  let fullPath := String.intercalate "-" name
  if fullPath.utf8ByteSize < 64 then fullPath else shorten fullPath

/-- The shortening that `name.SafeConcatName` of the wrangler library applies to a joined
name of 64 bytes or more: `fullPath[0:57]` when the byte `fullPath[56]` is a lower-case
letter or a digit, `fullPath[0:56]` otherwise, followed by a dash and the first five
hexadecimal digits of the SHA-256 digest of the joined name. The digest is kept abstract
as `hex5`; bytes are read as characters, as they are in the ASCII names of Kubernetes
objects. -/
def cutWithDigest (hex5 : String → String) (fullPath : String) : String :=
  let c := fullPath.data.getD 56 ' '
  if ('a' ≤ c ∧ c ≤ 'z') ∨ ('0' ≤ c ∧ c ≤ '9') then
    String.mk (fullPath.data.take 57) ++ "-" ++ hex5 fullPath
  else
    String.mk (fullPath.data.take 56) ++ "-" ++ hex5 fullPath

/-- The function `strings.TrimSuffix`. -/
def TrimSuffix (s suffix : String) : String :=
  if suffix.data.isSuffixOf s.data then
    String.mk (s.data.take (s.data.length - suffix.data.length))
  else s

/-- The function `schema.ParseGroupVersion` of apimachinery: group and version of an
`apiVersion` string, an error when it holds more than one slash. -/
def ParseGroupVersion (gv : String) : Except Error (String × String) :=
  if gv.data.length = 0 ∨ gv = "/" then .ok ("", "")
  else
    match gv.data.count '/' with
    | 0 => .ok ("", gv)
    | 1 =>
      .ok (String.mk (gv.data.takeWhile (fun c => c != '/')),
           String.mk ((gv.data.dropWhile (fun c => c != '/')).drop 1))
    | _ => .error (.other ("unexpected GroupVersion string: " ++ gv))

/-- The function `schema.FromAPIVersionAndKind`. -/
def FromAPIVersionAndKind (apiVersion kind : String) : GroupVersionKind :=
  match ParseGroupVersion apiVersion with
  | .ok gv => { Group := gv.1, Version := gv.2, Kind := kind }
  | .error _ => { Group := "", Version := "", Kind := kind }

/-- The method `GroupVersionKind.ToAPIVersionAndKind`. -/
def GroupVersionKind.ToAPIVersionAndKind (gvk : GroupVersionKind) : String × String :=
  if gvk.Group.data.length = 0 ∧ gvk.Version.data.length = 0 ∧ gvk.Kind.data.length = 0 then
    ("", "")
  else if gvk.Group.data.length > 0 then (gvk.Group ++ "/" ++ gvk.Version, gvk.Kind)
  else (gvk.Version, gvk.Kind)

/-- The string stored under `key` of an unstructured object (`NestedString`), empty when
it is absent or not a string. -/
def Unstructured.getString (u : Unstructured) (key : String) : String :=
  match GoMap.get u.Object key with
  | some (.str s) => s
  | _ => ""

/-- The call `u.GetObjectKind().GroupVersionKind()` on an unstructured object. -/
def Unstructured.GroupVersionKind (u : Unstructured) : GroupVersionKind :=
  match ParseGroupVersion (u.getString "apiVersion") with
  | .error _ => { Group := "", Version := "", Kind := "" }
  | .ok gv => { Group := gv.1, Version := gv.2, Kind := u.getString "kind" }

namespace Rke

/-- A value handed to `json.Marshal` by `assign`. -/
inductive AssignValue where
  | labels (m : GoMap String)
  | taints (t : List Taint)
  deriving DecidableEq, Repr

/-- The collaborators of the generator: the dynamic controller, the schema cache, the
library encoders and the label constants of the `planner` and cluster-api packages. -/
structure Env where
  shorten : String → String
  ToLower : String → String
  dynamicGet : GroupVersionKind → String → String → Except Error Value
  ToMap : Value → Except Error (GoMap Value)
  dynamicSchemaGet : String → Except Error DynamicSchema
  EncodeToMap : RKECommonNodeConfig → Except Error (GoMap Value)
  jsonMarshal : AssignValue → Except Error String
  gvkGet : RKECluster → Except Error GroupVersionKind
  EtcdRoleLabel : String
  ControlPlaneRoleLabel : String
  MachineControlPlaneLabelName : String
  LabelsAnnotationKey : String
  TaintsAnnotationKey : String

/-- A collaborator call made by the generator. -/
inductive Call where
  | dynamicGet (gvk : GroupVersionKind) (namespace_ name : String)
  | dynamicSchemaGet (name : String)
  deriving DecidableEq, Repr

/-- The function `pruneBySchema`: the error returned and the field map as it is left. -/
def pruneBySchema (env : Env) (kind : String) (data : GoMap Value) (log : List Call) :
    (Option Error × GoMap Value) × List Call :=
  let log := log ++ [Call.dynamicSchemaGet (env.ToLower kind)]
  match env.dynamicSchemaGet (env.ToLower kind) with
  | .error err =>
    if IsNotFound (some err) then ((none, data), log) else ((some err, data), log)
  | .ok ds =>
    ((none, (GoMap.keys data).foldl
        (fun d k => if GoMap.contains ds.Spec.ResourceFields k then d else GoMap.delete d k)
        data), log)

/-- The function `toMachineTemplate`. -/
def toMachineTemplate (env : Env) (nodePoolName : String) (cluster : Cluster)
    (nodePool : RKENodePool) (log : List Call) : Except Error Unstructured × List Call :=
  match nodePool.NodeConfig with
  | none => (.error (.goPanic "nil pointer dereference"), log)
  | some nodeConfigRef =>
    let kind := nodeConfigRef.Kind
    let apiVersion :=
      if nodeConfigRef.APIVersion = "" then "rancher.cattle.io/v1" else nodeConfigRef.APIVersion
    let gvk := FromAPIVersionAndKind apiVersion kind
    let log := log ++ [Call.dynamicGet gvk cluster.Namespace nodeConfigRef.Name]
    match env.dynamicGet gvk cluster.Namespace nodeConfigRef.Name with
    | .error err => (.error err, log)
    | .ok nodeConfig =>
      match env.ToMap nodeConfig with
      | .error err => (.error err, log)
      | .ok nodePoolData =>
        match pruneBySchema env gvk.Kind nodePoolData log with
        | ((some err, _), log) => (.error err, log)
        | ((none, nodePoolData), log) =>
          match env.EncodeToMap nodePool.RKECommonNodeConfig with
          | .error err => (.error err, log)
          | .ok commonData =>
            let nodePoolData := GoMap.set nodePoolData "common" (Value.map commonData)
            (.ok { Object := [
              ("kind", Value.str (TrimSuffix kind "Config" ++ "MachineTemplate")),
              ("apiVersion", Value.str "rke-node.cattle.io/v1"),
              ("metadata", Value.map [
                ("name", Value.str nodePoolName),
                ("namespace", Value.str cluster.Namespace)]),
              ("spec", Value.map [
                ("template", Value.map [("spec", Value.map nodePoolData)])])] }, log)

/-- The function `defaultTrue`. -/
def defaultTrue (b : Option Bool) : Bool :=
  match b with
  | none => true
  | some v => v

/-- The function `assign`: the error returned and the map as it is left. -/
def assign (env : Env) (labels : GoMap String) (key : String) (value : AssignValue) :
    Option Error × GoMap String :=
  match env.jsonMarshal value with
  | .error err => (some err, labels)
  | .ok data => (none, GoMap.set labels key data)

/-- The function `rkeCluster`. -/
def rkeCluster (cluster : Cluster) : RKECluster :=
  { ObjectMeta := { Name := cluster.Name, Namespace := cluster.Namespace },
    Spec := {
      CloudCredentialSecretName := cluster.Spec.CloudCredentialSecretName,
      KubernetesVersion := cluster.Spec.KubernetesVersion,
      ManagementClusterName := cluster.Status.ClusterName } }

/-- The function `capiCluster`; its `panic(err)` is the error `goPanic`. -/
def capiCluster (env : Env) (cluster : Cluster) (rkeCluster : RKECluster) :
    Except Error CapiCluster :=
  match env.gvkGet rkeCluster with
  | .error _ => .error (.goPanic "gvk")
  | .ok gvk =>
    .ok { ObjectMeta := { Name := cluster.Name, Namespace := cluster.Namespace },
          InfrastructureRef := some {
            Kind := gvk.ToAPIVersionAndKind.2,
            Namespace := rkeCluster.ObjectMeta.Namespace,
            Name := rkeCluster.ObjectMeta.Name,
            APIVersion := gvk.ToAPIVersionAndKind.1 } }

/-- The loop guard of `machineDeployments`: the pool is passed over by `continue`. -/
def skipNodePool (nodePool : RKENodePool) : Bool :=
  nodePool.Name == "" ||
    (match nodePool.NodeConfig with
     | none => true
     | some nodeConfig => nodeConfig.Name == "" || nodeConfig.Kind == "")

/-- The machine deployment literal built in the loop of `machineDeployments`, before the
strategy, the role labels and the annotations are filled in. -/
def newMachineDeployment (cluster : Cluster) (capiCluster : CapiCluster)
    (bootstrapName nodePoolName : String) (nodePool : RKENodePool)
    (machineTemplate : Unstructured) : MachineDeployment :=
  { ObjectMeta := { Namespace := cluster.Namespace, Name := nodePoolName },
    Spec := {
      ClusterName := capiCluster.ObjectMeta.Name,
      Replicas := nodePool.Quantity,
      Template := {
        Labels := [],
        Annotations := [],
        Spec := {
          ClusterName := capiCluster.ObjectMeta.Name,
          BootstrapConfigRef := some {
            Kind := "RKEBootstrapTemplate",
            Namespace := cluster.Namespace,
            Name := bootstrapName,
            APIVersion := "rke.cattle.io/v1" },
          InfrastructureRef := {
            Kind := machineTemplate.GroupVersionKind.Kind,
            Namespace := cluster.Namespace,
            Name := nodePoolName,
            APIVersion := "rke-node.cattle.io/v1" } } },
      Strategy := none,
      Paused := nodePool.Paused } }

/-- The assignment `machineDeployment.Spec.Strategy = ...` under `RollingUpdate != nil`. -/
def withStrategy (md : MachineDeployment) (nodePool : RKENodePool) : MachineDeployment :=
  match nodePool.RollingUpdate with
  | none => md
  | some ru =>
    { md with Spec := { md.Spec with Strategy := some {
        StrategyType := "RollingUpdate",
        RollingUpdate := some { MaxUnavailable := ru.MaxUnavailable, MaxSurge := ru.MaxSurge } } } }

/-- The assignment `machineDeployment.Spec.Template.Labels[key] = value`. -/
def setLabel (md : MachineDeployment) (key value : String) : MachineDeployment :=
  { md with Spec := { md.Spec with Template := { md.Spec.Template with
      Labels := GoMap.set md.Spec.Template.Labels key value } } }

/-- The two role-label statements of the loop of `machineDeployments`. -/
def withRoleLabels (env : Env) (md : MachineDeployment) (nodePool : RKENodePool) :
    MachineDeployment :=
  let md := if defaultTrue nodePool.EtcdRole then setLabel md env.EtcdRoleLabel "true" else md
  if defaultTrue nodePool.ControlPlaneRole then
    setLabel (setLabel md env.ControlPlaneRoleLabel "true") env.MachineControlPlaneLabelName "true"
  else md

/-- Replaces the template annotations, which `assign` updates in place. -/
def setAnnotations (md : MachineDeployment) (annotations : GoMap String) : MachineDeployment :=
  { md with Spec := { md.Spec with Template := { md.Spec.Template with
      Annotations := annotations } } }

/-- The two `assign` statements of the loop of `machineDeployments`: labels, then taints. -/
def withAnnotations (env : Env) (md : MachineDeployment) (nodePool : RKENodePool) :
    Except Error MachineDeployment :=
  let step1 : Option Error × GoMap String :=
    if nodePool.RKECommonNodeConfig.Labels.length > 0 then
      assign env md.Spec.Template.Annotations env.LabelsAnnotationKey
        (AssignValue.labels nodePool.RKECommonNodeConfig.Labels)
    else (none, md.Spec.Template.Annotations)
  match step1 with
  | (some err, _) => .error err
  | (none, annotations) =>
    let step2 : Option Error × GoMap String :=
      if nodePool.RKECommonNodeConfig.Taints.length > 0 then
        assign env annotations env.TaintsAnnotationKey
          (AssignValue.taints nodePool.RKECommonNodeConfig.Taints)
      else (none, annotations)
    match step2 with
    | (some err, _) => .error err
    | (none, annotations) => .ok (setAnnotations md annotations)

/-- The `for _, nodePool := range ...NodePools` loop of `machineDeployments`, with the
result slice built so far. -/
def machineDeploymentsLoop (env : Env) (cluster : Cluster) (capiCluster : CapiCluster)
    (bootstrapName : String) :
    List RKENodePool → List Object → List Call → Except Error (List Object) × List Call
  | [], result, log => (.ok result, log)
  | nodePool :: rest, result, log =>
    if skipNodePool nodePool then
      machineDeploymentsLoop env cluster capiCluster bootstrapName rest result log
    else
      let nodePoolName := SafeConcatName env.shorten [cluster.Name, "nodepool", nodePool.Name]
      match toMachineTemplate env nodePoolName cluster nodePool log with
      | (.error err, log) => (.error err, log)
      | (.ok machineTemplate, log) =>
        let result := result ++ [Object.unstructured machineTemplate]
        let machineDeployment :=
          newMachineDeployment cluster capiCluster bootstrapName nodePoolName nodePool
            machineTemplate
        let machineDeployment := withStrategy machineDeployment nodePool
        let machineDeployment := withRoleLabels env machineDeployment nodePool
        match withAnnotations env machineDeployment nodePool with
        | .error err => (.error err, log)
        | .ok machineDeployment =>
          machineDeploymentsLoop env cluster capiCluster bootstrapName rest
            (result ++ [Object.machineDeployment machineDeployment]) log

/-- The function `machineDeployments`; a nil `RKEConfig` is a nil-pointer panic. -/
def machineDeployments (env : Env) (cluster : Cluster) (capiCluster : CapiCluster)
    (log : List Call) : Except Error (List Object) × List Call :=
  let bootstrapName := SafeConcatName env.shorten [cluster.Name, "bootstrap", "template"]
  match cluster.Spec.RKEConfig with
  | none => (.error (.goPanic "nil pointer dereference"), log)
  | some rkeConfig =>
    let result : List Object :=
      if rkeConfig.NodePools.length > 0 then
        [Object.bootstrapTemplate
          { ObjectMeta := { Namespace := cluster.Namespace, Name := bootstrapName } }]
      else []
    machineDeploymentsLoop env cluster capiCluster bootstrapName rkeConfig.NodePools result log

/-- The function `objects`. -/
def objects (env : Env) (cluster : Cluster) (log : List Call) :
    Except Error (List Object) × List Call :=
  let rkeCluster := rkeCluster cluster
  let result : List Object := [Object.rkeCluster rkeCluster]
  match capiCluster env cluster rkeCluster with
  | .error err => (.error err, log)
  | .ok capiCluster =>
    let result := result ++ [Object.capiCluster capiCluster]
    match machineDeployments env cluster capiCluster log with
    | (.error err, log) => (.error err, log)
    | (.ok machineDeployments, log) => (.ok (result ++ machineDeployments), log)

/-- The function `toInfraRefKey` of `controller.go`. -/
def toInfraRefKey (ref : ObjectReference) (namespace_ : String) : String :=
  let apiVersion := if ref.APIVersion = "" then "rancher.cattle.io/v1" else ref.APIVersion
  apiVersion ++ "/" ++ ref.Kind ++ "/" ++ namespace_ ++ "/" ++ ref.Name

/-- The function `byNodeInfraIndex` of `controller.go`; it never returns an error. -/
def byNodeInfraIndex (obj : Cluster) : List String :=
  if obj.Status.ClusterName = "" then []
  else
    match obj.Spec.RKEConfig with
    | none => []
    | some rkeConfig =>
      rkeConfig.NodePools.filterMap (fun np =>
        match np.NodeConfig with
        | none => none
        | some nodeConfig => some (toInfraRefKey nodeConfig obj.Namespace))

/-- The function `matchRKENodeGroup` of `controller.go`. -/
def matchRKENodeGroup (gvk : GroupVersionKind) : Bool :=
  gvk.Group == "rancher.cattle.io" && "Config".data.isSuffixOf gvk.Kind.data

/-- The method `OnRancherClusterChange` of `controller.go`: the objects, nil when the
cluster has no node-pool configuration or no managed-cluster id, and the error; the
status is returned as it came. -/
def OnRancherClusterChange (env : Env) (obj : Cluster) (log : List Call) :
    (List Object × Option Error) × List Call :=
  match obj.Spec.RKEConfig with
  | none => (([], none), log)
  | some _ =>
    if obj.Status.ClusterName = "" then (([], none), log)
    else
      match objects env obj log with
      | (.ok objs, log) => ((objs, none), log)
      | (.error err, log) => (([], some err), log)

/-- The constant `byNodeInfra`. -/
def byNodeInfra : String := "by-node-infra"

/-- What `meta.TypeAccessor` gives for an object: its kind and API version. -/
structure TypeInfo where
  Kind : String
  APIVersion : String
  deriving DecidableEq, Repr

/-- A `runtime.Object` as `infraWatch` reads it: the results of `meta.TypeAccessor` and
of `meta.Accessor`, each of which can be an error. -/
structure RuntimeObject where
  TypeAccessor : Except Error TypeInfo
  Accessor : Except Error ObjectMeta

/-- A call made by `infraWatch` on the cluster cache or the cluster controller. -/
inductive WatchCall where
  | getByIndex (indexName key : String)
  | enqueue (namespace_ name : String)
  deriving DecidableEq, Repr

/-- The cluster cache of the handler, as far as `infraWatch` uses it. -/
structure WatchEnv where
  GetByIndex : String → String → Except Error (List Cluster)

/-- The method `infraWatch` of `controller.go`: the object and the error returned, with
the calls made; a nil object is `none`. -/
def infraWatch (h : WatchEnv) (obj : Option RuntimeObject) (log : List WatchCall) :
    (Option RuntimeObject × Option Error) × List WatchCall :=
  match obj with
  | none => ((none, none), log)
  | some o =>
    match o.TypeAccessor with
    | .error err => ((none, some err), log)
    | .ok typeInfo =>
      match o.Accessor with
      | .error err => ((none, some err), log)
      | .ok meta =>
        let indexKey := toInfraRefKey
          { Kind := typeInfo.Kind,
            Namespace := meta.Namespace,
            Name := meta.Name,
            APIVersion := typeInfo.APIVersion } meta.Namespace
        let log := log ++ [WatchCall.getByIndex byNodeInfra indexKey]
        match h.GetByIndex byNodeInfra indexKey with
        | .error err => ((none, some err), log)
        | .ok clusters =>
          ((some o, none),
            log ++ clusters.map (fun cluster => WatchCall.enqueue cluster.Namespace cluster.Name))

end Rke

/-! ## The world of the import handshake and of the kubeconfig manager -/

/-- The type `corev1.Secret`; the byte values of `Data` are kept as text. -/
structure Secret where
  Namespace : String
  Name : String
  Data : GoMap String
  deriving DecidableEq, Repr

/-- The type `v3.User`. -/
structure User where
  Name : String
  Labels : GoMap String
  PrincipalIDs : List String
  deriving DecidableEq, Repr

set_option linter.dupNamespace false in
/-- The type `v3.Token`. -/
structure Token where
  Name : String
  Labels : GoMap String
  Annotations : GoMap String
  UserID : String
  AuthProvider : String
  IsDerived : Bool
  Token : String
  deriving DecidableEq, Repr

/-- The type `appsv1.Deployment`: its replica count. -/
structure Deployment where
  Replicas : Option Int
  deriving DecidableEq, Repr

/-- The type `v3.ClusterRegistrationToken`. -/
structure ClusterRegistrationToken where
  GenerateName : String
  Namespace : String
  SpecClusterName : String
  StatusToken : String
  deriving DecidableEq, Repr

/-- The type `v3.ClusterSpec` as `importCluster` builds it. -/
structure V3ClusterSpec where
  ImportedConfig : Option Unit
  deriving DecidableEq, Repr

/-- The HTTP client chosen by `httpClientForCA`. -/
inductive HttpClient where
  | default
  | withRootCAs (pem : String)
  deriving DecidableEq, Repr

/-- A call to a collaborator that reads or changes state outside the process. -/
inductive Event where
  | secretCacheGet (namespace_ name : String)
  | secretsGet (namespace_ name : String)
  | userCacheGet (name : String)
  | usersCreate (user : User)
  | tokensGet (name : String)
  | tokensDelete (name : String)
  | tokensCreate (token : Token)
  | randomtokenGenerate
  | randRead
  | settingsBool (key : String)
  | settingsGetServerURLAndCA
  | deploymentCacheGet (namespace_ name : String)
  | daemonsetCacheGet (namespace_ name : String)
  | mgmtClusterCacheGet (name : String)
  | clusterTokenCacheList (namespace_ : String)
  | clusterTokensCreate (token : ClusterRegistrationToken)
  | enqueueAfter (namespace_ name : String) (seconds : Nat)
  | httpGet (client : HttpClient) (url : String)
  | applyObjects (config setID : String) (objs : List String)
  deriving DecidableEq, Repr

/-- The state the handlers run against. Caches and read-only clients are functions giving
the outcome of a read; the token, user and registration-token stores are lists changed
by the writes, with an outcome that can be forced to an error; `draws` counts the random
draws made so far; `log` records the collaborator calls in order. -/
structure World where
  secretCache : String → String → Except Error Secret
  secrets : String → String → Except Error Secret
  userCache : String → Except Error User
  users : List User
  usersCreateErr : User → Option Error
  tokens : List Token
  tokensGetErr : String → Option Error
  tokensDeleteErr : String → Option Error
  tokensCreateErr : Token → Option Error
  randomToken : Nat → Except Error String
  randReadErr : Nat → Option Error
  randByte : Nat → Nat → UInt8
  draws : Nat
  settingsBool : String → Except Error Bool
  settingsServerURLAndCA : Except Error (String × String)
  deploymentCache : String → String → Except Error Deployment
  daemonsetCache : String → String → Except Error Unit
  mgmtClusterCache : String → Except Error Unit
  clusterTokenCache : String → Except Error (List ClusterRegistrationToken)
  clusterTokens : List ClusterRegistrationToken
  clusterTokensCreateErr : ClusterRegistrationToken → Option Error
  httpGet : HttpClient → String → Except Error String
  applyObjects : String → String → List String → Option Error
  log : List Event

/-- Appends a call to the log. -/
def World.record (w : World) (e : Event) : World := { w with log := w.log ++ [e] }

/-- The call `secretCache.Get`. -/
def World.secretCacheGet (w : World) (namespace_ name : String) : Except Error Secret × World :=
  (w.secretCache namespace_ name, w.record (.secretCacheGet namespace_ name))

/-- The call `secrets.Get`, which reads past the cache. -/
def World.secretsGet (w : World) (namespace_ name : String) : Except Error Secret × World :=
  (w.secrets namespace_ name, w.record (.secretsGet namespace_ name))

/-- The call `userCache.Get`. -/
def World.userCacheGet (w : World) (name : String) : Except Error User × World :=
  (w.userCache name, w.record (.userCacheGet name))

/-- The call `users.Create`: refused when forced to fail or when the name is taken. -/
def World.usersCreate (w : World) (user : User) : Option Error × World :=
  let w := w.record (.usersCreate user)
  match w.usersCreateErr user with
  | some err => (some err, w)
  | none =>
    if w.users.any (fun u => u.Name == user.Name) then (some (.alreadyExists user.Name), w)
    else (none, { w with users := w.users ++ [user] })

/-- The call `tokens.Get`. -/
def World.tokensGet (w : World) (name : String) : Except Error Token × World :=
  let w := w.record (.tokensGet name)
  match w.tokensGetErr name with
  | some err => (.error err, w)
  | none =>
    match w.tokens.find? (fun t => t.Name == name) with
    | some t => (.ok t, w)
    | none => (.error (.notFound name), w)

/-- The call `tokens.Delete`. -/
def World.tokensDelete (w : World) (name : String) : Option Error × World :=
  let w := w.record (.tokensDelete name)
  match w.tokensDeleteErr name with
  | some err => (some err, w)
  | none =>
    if w.tokens.any (fun t => t.Name == name) then
      (none, { w with tokens := w.tokens.filter (fun t => t.Name != name) })
    else (some (.notFound name), w)

/-- The call `tokens.Create`: refused when forced to fail or when the name is taken. -/
def World.tokensCreate (w : World) (token : Token) : Option Error × World :=
  let w := w.record (.tokensCreate token)
  match w.tokensCreateErr token with
  | some err => (some err, w)
  | none =>
    if w.tokens.any (fun t => t.Name == token.Name) then
      (some (.alreadyExists token.Name), w)
    else (none, { w with tokens := w.tokens ++ [token] })

/-- The call `randomtoken.Generate`: the next draw of the generator. -/
def World.randomtokenGenerate (w : World) : Except Error String × World :=
  (w.randomToken w.draws, { w.record .randomtokenGenerate with draws := w.draws + 1 })

/-- The call `rand.Read(salt)` on a slice of `n` bytes. -/
def World.randRead (w : World) (n : Nat) : Except Error (List UInt8) × World :=
  let w2 := { w.record .randRead with draws := w.draws + 1 }
  match w.randReadErr w.draws with
  | some err => (.error err, w2)
  | none => (.ok ((List.range n).map (w.randByte w.draws)), w2)

/-- The call `settings.Bool(m.settings, key)`. -/
def World.settingsBoolGet (w : World) (key : String) : Except Error Bool × World :=
  (w.settingsBool key, w.record (.settingsBool key))

/-- The call `settings.GetServerURLAndCA(m.settings)`. -/
def World.settingsGetServerURLAndCA (w : World) : Except Error (String × String) × World :=
  (w.settingsServerURLAndCA, w.record .settingsGetServerURLAndCA)

/-- The call `deploymentCache.Get`. -/
def World.deploymentCacheGet (w : World) (namespace_ name : String) :
    Except Error Deployment × World :=
  (w.deploymentCache namespace_ name, w.record (.deploymentCacheGet namespace_ name))

/-- The call `daemonsetCache.Get`. -/
def World.daemonsetCacheGet (w : World) (namespace_ name : String) :
    Except Error Unit × World :=
  (w.daemonsetCache namespace_ name, w.record (.daemonsetCacheGet namespace_ name))

/-- The call `mgmtClusterCache.Get`. -/
def World.mgmtClusterCacheGet (w : World) (name : String) : Except Error Unit × World :=
  (w.mgmtClusterCache name, w.record (.mgmtClusterCacheGet name))

/-- The call `clusterTokenCache.List(namespace, labels.Everything())`. -/
def World.clusterTokenCacheList (w : World) (namespace_ : String) :
    Except Error (List ClusterRegistrationToken) × World :=
  (w.clusterTokenCache namespace_, w.record (.clusterTokenCacheList namespace_))

/-- The call `httpClient.Get(url)`: the response body. -/
def World.httpClientGet (w : World) (client : HttpClient) (url : String) :
    Except Error String × World :=
  (w.httpGet client url, w.record (.httpGet client url))

/-- The call `apply.WithDynamicLookup().WithSetID(setID).ApplyObjects(objs...)`. -/
def World.applyObjectsCall (w : World) (config setID : String) (objs : List String) :
    Option Error × World :=
  (w.applyObjects config setID objs, w.record (.applyObjects config setID objs))

/-- The call `clusters.EnqueueAfter(namespace, name, seconds * time.Second)`. -/
def World.enqueueAfter (w : World) (namespace_ name : String) (seconds : Nat) : World :=
  w.record (.enqueueAfter namespace_ name seconds)

/-- The call `clusterTokens.Create`. -/
def World.clusterTokensCreate (w : World) (token : ClusterRegistrationToken) :
    Option Error × World :=
  let w := w.record (.clusterTokensCreate token)
  match w.clusterTokensCreateErr token with
  | some err => (some err, w)
  | none => (none, { w with clusterTokens := w.clusterTokens ++ [token] })

/-- The library functions of the kubeconfig manager and of the import handler: digests
and encodings of the Go standard library, the kubeconfig reader and writer of client-go,
the YAML reader and the apply constructor of wrangler. -/
structure Lib where
  sha256 : List UInt8 → List UInt8
  base32Std : List UInt8 → String
  base32Hex : List UInt8 → String
  base64RawStd : List UInt8 → String
  ToLower : String → String
  TrimSpace : String → String
  clientcmdWrite : String → String → String → Except Error String
  RESTConfigFromKubeConfig : Option String → Except Error String
  yamlToObjects : String → Except Error (List String)
  applyNewForConfig : String → Except Error String

/-- The bytes of a Go string. -/
def bytesOf (s : String) : List UInt8 := s.toUTF8.data.toList

/-! ## The kubeconfig manager (`pkg/kubeconfig/manager.go`) -/

namespace Kubeconfig

/-- The constant `userIDLabel`. -/
def userIDLabel : String := "authn.management.cattle.io/token-userId"

/-- The constant `tokenKindLabel`. -/
def tokenKindLabel : String := "authn.management.cattle.io/kind"

/-- The constant `tokenHashedAnno`. -/
def tokenHashedAnno : String := "authn.management.cattle.io/token-hashed"

/-- The constant `systemNamespace`. -/
def systemNamespace : String := "cattle-system"

/-- The constant `Version` of the hash format. -/
def Version : Nat := 2

/-- The format `hashFormat` applied by `fmt.Sprintf`: `$version:salt:hash`. -/
def hashFormat (version : Nat) (salt hash : String) : String :=
  "$" ++ toString version ++ ":" ++ salt ++ ":" ++ hash

/-- The function `GetKubeConfigSecretName`. -/
def GetKubeConfigSecretName (clusterName : String) : String :=
  clusterName ++ "-kubeconfig"

/-- The function `getUserNameForPrincipal`; the slice `[:10]` takes the first ten
characters of the encoded digest. -/
def getUserNameForPrincipal (lib : Lib) (principal : String) : String :=
  let sha := String.mk ((lib.base32Std (lib.sha256 (bytesOf principal))).data.take 10)
  "u-" ++ lib.ToLower sha

/-- The function `labelsForUser`. -/
def labelsForUser (lib : Lib) (principalID : String) : GoMap String :=
  let encodedPrincipalID := lib.base32Hex (bytesOf principalID)
  let encodedPrincipalID :=
    if encodedPrincipalID.utf8ByteSize > 63 then String.mk (encodedPrincipalID.data.take 63)
    else encodedPrincipalID
  [(encodedPrincipalID, "hashed-principal-name")]

/-- The method `getSavedToken`. -/
def getSavedToken (w : World) (kubeConfigNamespace kubeConfigName : String) :
    (String × Option Error) × World :=
  match w.secretCacheGet kubeConfigNamespace kubeConfigName with
  | (.error err, w) =>
    if IsNotFound (some err) then (("", none), w) else (("", some err), w)
  | (.ok secret, w) => (((GoMap.get secret.Data "token").getD "", none), w)

/-- The method `getSavedTokenNoCache`. -/
def getSavedTokenNoCache (w : World) (kubeConfigNamespace kubeConfigName : String) :
    (String × Option Error) × World :=
  match w.secretsGet kubeConfigNamespace kubeConfigName with
  | (.error err, w) =>
    if IsNotFound (some err) then (("", none), w) else (("", some err), w)
  | (.ok secret, w) => (((GoMap.get secret.Data "token").getD "", none), w)

/-- The function `getPrincipalID`. -/
def getPrincipalID (clusterNamespace clusterName : String) : String :=
  "system://provisioning/" ++ clusterNamespace ++ "/" ++ clusterName

/-- The method `createUser`. -/
def createUser (lib : Lib) (w : World) (principalID userName : String) :
    Option Error × World :=
  match w.userCacheGet userName with
  | (.error err, w) =>
    if IsNotFound (some err) then
      w.usersCreate
        { Name := userName,
          Labels := labelsForUser lib principalID,
          PrincipalIDs := [principalID] }
    else (some err, w)
  | (.ok _, w) => (none, w)

/-- The method `EnsureUser`. -/
def EnsureUser (lib : Lib) (w : World) (clusterNamespace clusterName : String) :
    (String × Option Error) × World :=
  let principalID := getPrincipalID clusterNamespace clusterName
  let userName := getUserNameForPrincipal lib principalID
  match createUser lib w principalID userName with
  | (err, w) => ((userName, err), w)

/-- The function `createSHA256Hash`. -/
def createSHA256Hash (lib : Lib) (w : World) (secretKey : String) :
    (String × Option Error) × World :=
  match w.randRead 8 with
  | (.error err, w) => (("", some err), w)
  | (.ok salt, w) =>
    let hash := lib.sha256 (salt ++ bytesOf secretKey)
    let encSalt := lib.base64RawStd salt
    let encKey := lib.base64RawStd hash
    ((hashFormat Version encSalt encKey, none), w)

/-- The token object that `createUserToken` fills in before the hashing step. -/
def newToken (userName tokenValue : String) : Token :=
  { Name := userName,
    Labels := [(userIDLabel, userName), (tokenKindLabel, "provisioning")],
    Annotations := [],
    UserID := userName,
    AuthProvider := "local",
    IsDerived := true,
    Token := tokenValue }

/-- The first statements of `createUserToken`: look the user's token up and, when it is
there, delete it. The error is the one tested next. -/
def revokeToken (w : World) (userName : String) : Option Error × World :=
  match w.tokensGet userName with
  | (.ok _, w) => w.tokensDelete userName
  | (.error err, w) => (some err, w)

/-- The remaining statements of `createUserToken`: generate the value, build the token,
hash it when the `token-hashing` setting is on, create it, return the cleartext pair. -/
def issueToken (lib : Lib) (w : World) (userName : String) :
    (String × Option Error) × World :=
  match w.randomtokenGenerate with
  | (.error _, w) => (("", some (.other "failed to generate token key")), w)
  | (.ok tokenValue, w) =>
    let token := newToken userName tokenValue
    match w.settingsBoolGet "token-hashing" with
    | (.error err, w) => (("", some err), w)
    | (.ok ok, w) =>
      let hashed : Except Error Token × World :=
        if ok then
          match createSHA256Hash lib w tokenValue with
          | ((_, some err), w) => (.error err, w)
          | ((tokenHash, none), w) =>
            (.ok { token with
              Token := tokenHash,
              Annotations := GoMap.set token.Annotations tokenHashedAnno "true" }, w)
        else (.ok token, w)
      match hashed with
      | (.error err, w) => (("", some err), w)
      | (.ok token, w) =>
        match w.tokensCreate token with
        | (err, w) => ((userName ++ ":" ++ tokenValue, err), w)

/-- The method `createUserToken`. -/
def createUserToken (lib : Lib) (w : World) (userName : String) :
    (String × Option Error) × World :=
  match revokeToken w userName with
  | (err, w) =>
    if err ≠ none ∧ !IsNotFound err then (("", err), w)
    else issueToken lib w userName

/-- The method `GetToken`. -/
def GetToken (lib : Lib) (w : World) (clusterNamespace clusterName : String) :
    (String × Option Error) × World :=
  let kubeConfigSecretName := GetKubeConfigSecretName clusterName
  match getSavedToken w clusterNamespace kubeConfigSecretName with
  | ((token, err), w) =>
    if err ≠ none ∨ token ≠ "" then ((token, err), w)
    else
      match getSavedTokenNoCache w clusterNamespace kubeConfigSecretName with
      | ((token, err), w) =>
        if err ≠ none ∨ token ≠ "" then ((token, err), w)
        else
          match EnsureUser lib w clusterNamespace clusterName with
          | ((_, some err), w) => (("", some err), w)
          | ((userName, none), w) => createUserToken lib w userName

/-- The method `GetServerURLAndCA`: server URL, CA and error. -/
def GetServerURLAndCA (w : World) : (String × String × Option Error) × World :=
  match w.settingsGetServerURLAndCA with
  | (.error err, w) => (("", "", some err), w)
  | (.ok (serverURL, ca), w) =>
    match w.secretCacheGet systemNamespace "tls-rancher-internal-ca" with
    | (.error err, w) => (("", "", some err), w)
    | (.ok tlsSecret, w) =>
      let internalCA := (GoMap.get tlsSecret.Data "tls.crt").getD ""
      match w.deploymentCacheGet systemNamespace "rancher" with
      | (dp, w) =>
        let scaled : Bool :=
          match dp with
          | .ok dp =>
            (match dp.Replicas with
             | some replicas => replicas != 0
             | none => false)
          | .error _ => false
        if scaled then (("https://rancher." ++ systemNamespace, internalCA, none), w)
        else
          match w.daemonsetCacheGet systemNamespace "rancher" with
          | (.ok _, w) => (("https://rancher." ++ systemNamespace, internalCA, none), w)
          | (.error _, w) => ((serverURL, ca, none), w)

/-- The method `GetKubeConfig`: the secret, nil when nothing is to be produced. -/
def GetKubeConfig (lib : Lib) (w : World) (cluster : Cluster) (status : ClusterStatus) :
    (Option Secret × Option Error) × World :=
  let name := GetKubeConfigSecretName cluster.Name
  let imported : Bool :=
    match cluster.Spec.ImportedConfig with
    | some importedConfig => importedConfig.KubeConfigSecretName == name
    | none => false
  if imported then ((none, none), w)
  else
    match GetToken lib w cluster.Namespace cluster.Name with
    | ((_, some err), w) => ((none, some err), w)
    | ((tokenValue, none), w) =>
      match GetServerURLAndCA w with
      | ((_, _, some err), w) => ((none, some err), w)
      | ((serverURL, cacert, none), w) =>
        match lib.clientcmdWrite (serverURL ++ "/k8s/clusters/" ++ status.ClusterName)
            (lib.TrimSpace cacert) tokenValue with
        | .error err => ((none, some err), w)
        | .ok data =>
          ((some { Namespace := cluster.Namespace, Name := name,
                   Data := [("value", data), ("token", tokenValue)] }, none), w)

end Kubeconfig

/-! ## The import handshake (`pkg/controllers/cluster/import.go`) -/

namespace Import

/-- The sibling method `createCluster` of the handler, which is outside the files
embedded here: the objects, the status and the error it returns, and the world it
leaves. -/
abbrev CreateCluster :=
  Cluster → ClusterStatus → V3ClusterSpec → World →
    (List String × ClusterStatus × Option Error) × World

/-- The method `httpClientForCA`. -/
def httpClientForCA (cacert : String) : HttpClient × Option Error :=
  if cacert = "" then (HttpClient.default, none)
  else (HttpClient.withRootCAs cacert, none)

/-- The method `deploy`. -/
def deploy (lib : Lib) (w : World) (cluster : Cluster) (secretNamespace secretName : String)
    (token : String) : Option Error × World :=
  match w.secretCacheGet secretNamespace secretName with
  | (.error err, w) =>
    if IsNotFound (some err) then
      (some .errSkip, w.enqueueAfter cluster.Namespace cluster.Name 2)
    else (some err, w)
  | (.ok secret, w) =>
    if secret.Data.length = 0 then
      (some .errSkip, w.enqueueAfter cluster.Namespace cluster.Name 2)
    else
      match lib.RESTConfigFromKubeConfig (GoMap.get secret.Data "value") with
      | .error err => (some err, w)
      | .ok cfg =>
        match Kubeconfig.GetServerURLAndCA w with
        | ((_, _, some err), w) => (some err, w)
        | ((serverURL, cacert, none), w) =>
          match httpClientForCA cacert with
          | (_, some err) => (some err, w)
          | (httpClient, none) =>
            match w.httpClientGet httpClient (serverURL ++ "/v3/import/" ++ token ++ ".yaml") with
            | (.error err, w) => (some err, w)
            | (.ok body, w) =>
              match lib.yamlToObjects body with
              | .error err => (some err, w)
              | .ok objs =>
                match lib.applyNewForConfig cfg with
                | .error err => (some err, w)
                | .ok apply => w.applyObjectsCall apply "cluster-agent-setup" objs

/-- The method `deployAgent`; a nil `ImportedConfig` at the last line is a nil-pointer
panic. -/
def deployAgent (lib : Lib) (w : World) (cluster : Cluster) (status : ClusterStatus) :
    (Bool × Option Error) × World :=
  match w.mgmtClusterCacheGet status.ClusterName with
  | (.error err, w) =>
    if IsNotFound (some err) then
      ((false, none), w.enqueueAfter cluster.Namespace cluster.Name 2)
    else ((false, some err), w)
  | (.ok _, w) =>
    match w.clusterTokenCacheList status.ClusterName with
    | (.error err, w) => ((false, some err), w)
    | (.ok tokens, w) =>
      match tokens with
      | [] =>
        match w.clusterTokensCreate
            { GenerateName := "import-",
              Namespace := status.ClusterName,
              SpecClusterName := status.ClusterName,
              StatusToken := "" } with
        | (err, w) => ((false, err), w.enqueueAfter cluster.Namespace cluster.Name 2)
      | first :: _ =>
        let tokenValue := first.StatusToken
        if tokenValue = "" then
          ((false, none), w.enqueueAfter cluster.Namespace cluster.Name 2)
        else
          match cluster.Spec.ImportedConfig with
          | none => ((false, some (.goPanic "nil pointer dereference")), w)
          | some importedConfig =>
            match deploy lib w cluster cluster.Namespace importedConfig.KubeConfigSecretName
                tokenValue with
            | (err, w) => ((true, err), w)

/-- The method `importCluster`. -/
def importCluster (lib : Lib) (createCluster : CreateCluster) (w : World) (cluster : Cluster)
    (status : ClusterStatus) : (List String × ClusterStatus × Option Error) × World :=
  match createCluster cluster status { ImportedConfig := some () } w with
  | ((_, status, some err), w) => (([], status, some err), w)
  | ((objs, status, none), w) =>
    if status.AgentDeployed || status.ClusterName == "" then ((objs, status, none), w)
    else
      match deployAgent lib w cluster status with
      | ((_, some err), w) => ((objs, status, some err), w)
      | ((ok, none), w) => ((objs, { status with AgentDeployed := ok }, none), w)

/-- The method `capiCluster` of the import handler; a nil `ClusterAPIConfig` is a
nil-pointer panic. -/
def capiCluster (lib : Lib) (createCluster : CreateCluster) (w : World) (cluster : Cluster)
    (status : ClusterStatus) : (List String × ClusterStatus × Option Error) × World :=
  match cluster.Spec.ClusterAPIConfig with
  | none => (([], status, some (.goPanic "nil pointer dereference")), w)
  | some clusterAPIConfig =>
    importCluster lib createCluster w
      { cluster with Spec := { cluster.Spec with
          ImportedConfig := some
            { KubeConfigSecretName := clusterAPIConfig.ClusterName ++ "-kubeconfig" },
          ClusterAPIConfig := none } }
      status

end Import

/-! ## Vocabulary of the statements about the world -/

/-- The world with further calls appended to its log and nothing else changed. -/
def World.appendLog (w : World) (evs : List Event) : World := { w with log := w.log ++ evs }

/-- The world `w2` is `w` after calls that all satisfy `p`, with no store changed. -/
def Frame (p : Event → Bool) (w w2 : World) : Prop :=
  ∃ evs, w2 = w.appendLog evs ∧ ∀ e ∈ evs, p e = true

/-- The call creates a registration token. -/
def Event.isClusterTokensCreate : Event → Bool
  | .clusterTokensCreate _ => true
  | _ => false

/-- The call is one that only `deploy` makes among the steps of the handshake: reading
the kubeconfig secret, resolving the server URL, fetching the manifest, applying it. -/
def Event.isDeployStep : Event → Bool
  | .secretCacheGet _ _ => true
  | .settingsGetServerURLAndCA => true
  | .deploymentCacheGet _ _ => true
  | .daemonsetCacheGet _ _ => true
  | .httpGet _ _ => true
  | .applyObjects _ _ _ => true
  | _ => false

/-- The world `w2` is `w` after calls that all satisfy `p`; stores may have changed. -/
def Steps (p : Event → Bool) (w w2 : World) : Prop :=
  ∃ evs, w2.log = w.log ++ evs ∧ ∀ e ∈ evs, p e = true

/-- The call is one made by the issuing part of `createUserToken`. -/
def Event.isIssueStep : Event → Bool
  | .tokensCreate _ => true
  | .randomtokenGenerate => true
  | .randRead => true
  | .settingsBool _ => true
  | _ => false

/-- A secret read yields no token without error: the secret is not found, or its token
entry is missing or empty. -/
def noToken (r : Except Error Secret) : Prop :=
  (∃ err, r = .error err ∧ err.isNotFound = true) ∨
    ∃ secret, r = .ok secret ∧ (GoMap.get secret.Data "token").getD "" = ""

/-- The call creates a user or reads, deletes or creates a bearer token. -/
def Event.isMinting : Event → Bool
  | .usersCreate _ => true
  | .userCacheGet _ => true
  | .tokensGet _ => true
  | .tokensDelete _ => true
  | .tokensCreate _ => true
  | .randomtokenGenerate => true
  | .randRead => true
  | .settingsBool _ => true
  | _ => false

namespace Import

/-- The registration token that `deployAgent` asks to create for a managed cluster. -/
def importToken (clusterName : String) : ClusterRegistrationToken :=
  { GenerateName := "import-",
    Namespace := clusterName,
    SpecClusterName := clusterName,
    StatusToken := "" }

end Import

/-! ## Vocabulary of the statements about the generator -/

namespace Rke

/-- A valid node pool in the words of the specification: a non-empty name and an
infrastructure-config reference that is present and has a non-empty name and kind. -/
def isValidPool (nodePool : RKENodePool) : Bool :=
  nodePool.Name != "" &&
    (match nodePool.NodeConfig with
     | none => false
     | some nodeConfig => nodeConfig.Name != "" && nodeConfig.Kind != "")

/-- The group, version and kind under which the infra config of a reference is fetched. -/
def nodeConfigGVK (ref : ObjectReference) : GroupVersionKind :=
  FromAPIVersionAndKind (if ref.APIVersion = "" then "rancher.cattle.io/v1" else ref.APIVersion)
    ref.Kind

/-- The generated name of a node pool of a cluster. -/
def nodePoolName (env : Env) (cluster : Cluster) (nodePool : RKENodePool) : String :=
  SafeConcatName env.shorten [cluster.Name, "nodepool", nodePool.Name]

/-- The generated name of the bootstrap template of a cluster. -/
def bootstrapName (env : Env) (cluster : Cluster) : String :=
  SafeConcatName env.shorten [cluster.Name, "bootstrap", "template"]

/-- The call is the infra-config lookup of the node pool. -/
def isLookupOf (cluster : Cluster) (nodePool : RKENodePool) (c : Call) : Prop :=
  ∃ ref, nodePool.NodeConfig = some ref ∧
    c = Call.dynamicGet (nodeConfigGVK ref) cluster.Namespace ref.Name

end Rke

/-- The object is a bootstrap template. -/
def Object.isBootstrapTemplate : Object → Bool
  | .bootstrapTemplate _ => true
  | _ => false

/-- The object is a machine template (the only unstructured object generated). -/
def Object.isMachineTemplate : Object → Bool
  | .unstructured _ => true
  | _ => false

/-- The machine deployment held by the object, if it is one. -/
def Object.machineDeployment? : Object → Option MachineDeployment
  | .machineDeployment md => some md
  | _ => none

/-- The bootstrap template held by the object, if it is one. -/
def Object.bootstrapTemplate? : Object → Option RKEBootstrapTemplate
  | .bootstrapTemplate b => some b
  | _ => none

/-- The objects a Go caller holds after a generator call: the slice on success, nil on
an error. -/
def resultObjects (r : Except Error (List Object)) : List Object :=
  match r with
  | .ok objs => objs
  | .error _ => []

/-- The `metadata.name` of an unstructured object. -/
def Unstructured.GetName (u : Unstructured) : String :=
  match GoMap.get u.Object "metadata" with
  | some (.map m) =>
    (match GoMap.get m "name" with
     | some (.str s) => s
     | _ => "")
  | _ => ""

/-- The `metadata.namespace` of an unstructured object. -/
def Unstructured.GetNamespace (u : Unstructured) : String :=
  match GoMap.get u.Object "metadata" with
  | some (.map m) =>
    (match GoMap.get m "namespace" with
     | some (.str s) => s
     | _ => "")
  | _ => ""

namespace Rke

/-- The objects that the loop of `machineDeployments` appends for pools whose machine
template and machine deployment are given: template, then deployment, pool after pool. -/
def pairObjects : List (Unstructured × MachineDeployment) → List Object
  | [] => []
  | (machineTemplate, machineDeployment) :: rest =>
    Object.unstructured machineTemplate :: Object.machineDeployment machineDeployment ::
      pairObjects rest

/-- The machine deployment that the loop of `machineDeployments` appends for a pool,
given its machine template and the annotations left by `assign`. -/
def generatedDeployment (env : Env) (cluster : Cluster) (capiCluster : CapiCluster)
    (bootstrapName : String) (nodePool : RKENodePool) (machineTemplate : Unstructured)
    (annotations : GoMap String) : MachineDeployment :=
  setAnnotations
    (withRoleLabels env
      (withStrategy
        (newMachineDeployment cluster capiCluster bootstrapName
          (nodePoolName env cluster nodePool) nodePool machineTemplate)
        nodePool)
      nodePool)
    annotations

end Rke

/-! ## Concrete inputs used to instantiate the statements -/

namespace Rke

/-- An environment in which every lookup succeeds: the infra config holds the fields
`size` and `region`, no schema is registered, and names are never shortened. -/
def sampleEnv : Env :=
  { shorten := fun s => s,
    ToLower := fun s => String.mk (s.data.map Char.toLower),
    dynamicGet := fun _ _ _ =>
      .ok (Value.map [("size", Value.str "s-2vcpu"), ("region", Value.str "nyc1")]),
    ToMap := fun v =>
      match v with
      | .map m => .ok m
      | _ => .error (.other "not an object"),
    dynamicSchemaGet := fun name => .error (.notFound name),
    EncodeToMap := fun _ => .ok [],
    jsonMarshal := fun _ => .ok "[]",
    gvkGet := fun _ => .ok { Group := "rke.cattle.io", Version := "v1", Kind := "RKECluster" },
    EtcdRoleLabel := "rke.cattle.io/etcd-role",
    ControlPlaneRoleLabel := "rke.cattle.io/control-plane-role",
    MachineControlPlaneLabelName := "cluster.x-k8s.io/control-plane",
    LabelsAnnotationKey := "rke.cattle.io/labels",
    TaintsAnnotationKey := "rke.cattle.io/taints" }

/-- The node pool `pool-a`: kind `DigitaloceanConfig`, quantity 3, control-plane only. -/
def poolA : RKENodePool :=
  { RKECommonNodeConfig := { Labels := [], Taints := [], CloudCredentialSecretName := "" },
    Paused := false,
    RollingUpdate := none,
    Name := "pool-a",
    EtcdRole := some false,
    ControlPlaneRole := some true,
    Quantity := some 3,
    NodeConfig := some
      { Kind := "DigitaloceanConfig", Namespace := "", Name := "do-config", APIVersion := "" } }

/-- A node pool without a name, which the generator passes over. -/
def unnamedPool : RKENodePool := { poolA with Name := "" }

/-- The cluster `demo` in namespace `ns1` with the given node pools. -/
def demoCluster (pools : List RKENodePool) : Cluster :=
  { Name := "demo",
    Namespace := "ns1",
    Spec := {
      CloudCredentialSecretName := "",
      KubernetesVersion := "v1.20.4",
      RKEConfig := some { NodePools := pools },
      ImportedConfig := none,
      ClusterAPIConfig := none },
    Status := { Ready := false, ClusterName := "c-demo", AgentDeployed := false } }

/-- A schema declaring the fields `a` and `c`. -/
def schemaAC : DynamicSchema := { Spec := { ResourceFields := [("a", ()), ("c", ())] } }

/-- The sample environment with `schemaAC` registered under `digitaloceanconfig`. -/
def schemaEnv : Env :=
  { sampleEnv with
    dynamicSchemaGet := fun name =>
      if name = "digitaloceanconfig" then .ok schemaAC else .error (.notFound name) }

/-- The field map with the keys `a`, `b` and `c`. -/
def fieldsABC : GoMap Value := [("a", Value.num 1), ("b", Value.num 2), ("c", Value.num 3)]

/-- The compute-cluster object of `demo`. -/
def demoCapiCluster : CapiCluster :=
  { ObjectMeta := { Name := "demo", Namespace := "ns1" },
    InfrastructureRef := some
      { Kind := "RKECluster", Namespace := "ns1", Name := "demo",
        APIVersion := "rke.cattle.io/v1" } }

end Rke

/-- Stand-ins for the library functions, used only to instantiate statements. -/
def sampleLib : Lib :=
  { sha256 := fun b => b.reverse,
    base32Std := fun b => String.mk (b.map (fun x => Char.ofNat (65 + x.toNat % 26))),
    base32Hex := fun b => String.mk (b.map (fun x => Char.ofNat (65 + x.toNat % 26))),
    base64RawStd := fun b => String.mk (b.map (fun x => Char.ofNat (97 + x.toNat % 26))),
    ToLower := fun s => String.mk (s.data.map Char.toLower),
    TrimSpace := fun s => s,
    clientcmdWrite := fun server ca token => .ok (server ++ " " ++ ca ++ " " ++ token),
    RESTConfigFromKubeConfig := fun v =>
      match v with
      | some text => .ok text
      | none => .error (.other "empty kubeconfig"),
    yamlToObjects := fun body => .ok [body],
    applyNewForConfig := fun cfg => .ok cfg }

/-- A world with empty caches and stores, no forced failure, token hashing off, and a
generator whose draws are all different. -/
def sampleWorld : World :=
  { secretCache := fun _ name => .error (.notFound name),
    secrets := fun _ name => .error (.notFound name),
    userCache := fun name => .error (.notFound name),
    users := [],
    usersCreateErr := fun _ => none,
    tokens := [],
    tokensGetErr := fun _ => none,
    tokensDeleteErr := fun _ => none,
    tokensCreateErr := fun _ => none,
    randomToken := fun n => .ok (String.mk (List.replicate (n + 1) 'k')),
    randReadErr := fun _ => none,
    randByte := fun _ i => UInt8.ofNat i,
    draws := 0,
    settingsBool := fun _ => .ok false,
    settingsServerURLAndCA := .ok ("https://rancher.example.com", "public-ca"),
    deploymentCache := fun _ name => .error (.notFound name),
    daemonsetCache := fun _ name => .error (.notFound name),
    mgmtClusterCache := fun name => .error (.notFound name),
    clusterTokenCache := fun _ => .ok [],
    clusterTokens := [],
    clusterTokensCreateErr := fun _ => none,
    httpGet := fun _ _ => .ok "manifest",
    applyObjects := fun _ _ _ => none,
    log := [] }

/-- The sample world once the managed-cluster record exists. -/
def recordWorld : World := { sampleWorld with mgmtClusterCache := fun _ => .ok () }

/-- The sample world once the registration token has a value. -/
def tokenWorld : World :=
  { recordWorld with
    clusterTokenCache := fun name =>
      .ok [{ GenerateName := "import-", Namespace := name, SpecClusterName := name,
             StatusToken := "registration-token" }] }

/-- The imported cluster `demo`, whose kubeconfig is in the secret `imported-kubeconfig`. -/
def importedDemo : Cluster :=
  { Name := "demo",
    Namespace := "ns1",
    Spec := {
      CloudCredentialSecretName := "",
      KubernetesVersion := "",
      RKEConfig := none,
      ImportedConfig := some { KubeConfigSecretName := "imported-kubeconfig" },
      ClusterAPIConfig := none },
    Status := { Ready := false, ClusterName := "c-demo", AgentDeployed := false } }

/-- The status of `demo` once its managed-cluster id is known. -/
def demoStatus : ClusterStatus :=
  { Ready := false, ClusterName := "c-demo", AgentDeployed := false }

/-- A `createCluster` that returns no object and the status unchanged. -/
def sampleCreateCluster : Import.CreateCluster :=
  fun _ status _ w => (([], status, none), w)

/-- The sample world once the cluster's kubeconfig secret and the internal CA secret are
in the secret cache. -/
def readyWorld : World :=
  { tokenWorld with
    secretCache := fun namespace_ name =>
      .ok { Namespace := namespace_, Name := name,
            Data := [("value", "kubeconfig"), ("tls.crt", "internal-ca"),
              ("token", "saved-token")] } }

/-- The sample world with the token-hashing setting on. -/
def hashingWorld : World := { sampleWorld with settingsBool := fun _ => .ok true }

/-- The imported cluster `demo` whose imported kubeconfig secret carries the computed
name `demo-kubeconfig`. -/
def selfImportedDemo : Cluster :=
  { importedDemo with
    Spec := { importedDemo.Spec with
      ImportedConfig := some { KubeConfigSecretName := "demo-kubeconfig" } } }

/-- A node pool with both role flags unset. -/
def Rke.unsetPool : RKENodePool :=
  { Rke.poolA with Name := "pool-b", EtcdRole := none, ControlPlaneRole := none }

/-- The sample environment with the shortening of the library over the digest `hex5`. -/
def Rke.digestEnv (hex5 : String → String) : Rke.Env :=
  { Rke.sampleEnv with shorten := cutWithDigest hex5 }

/-- The node pool `pool-a` under another name. -/
def Rke.namedPool (name : String) : RKENodePool := { Rke.poolA with Name := name }

/-- A pool name of 60 bytes. -/
def Rke.longName : String := "aaaaaaaaaaaaaaaaaaaaaaaaaaaaaaaaaaaaaaaaaaaaaaaaaaaaaaaaaaaa"

/-- The first 43 bytes of `longName`. -/
def Rke.cutName : String := "aaaaaaaaaaaaaaaaaaaaaaaaaaaaaaaaaaaaaaaaaaa"

/-- A cluster cache over the given clusters whose index `by-node-infra` is computed by
`byNodeInfraIndex`, as registered with `AddIndexer`; any other index is unknown. -/
def Rke.indexedCache (clusters : List Cluster) : Rke.WatchEnv :=
  { GetByIndex := fun indexName key =>
      if indexName = Rke.byNodeInfra then
        .ok (clusters.filter (fun cluster => decide (key ∈ Rke.byNodeInfraIndex cluster)))
      else .error (.other ("Index with name " ++ indexName ++ " does not exist")) }

/-- The infra config `do-config` of kind `DigitaloceanConfig` in namespace `ns1`. -/
def Rke.doConfig : Rke.RuntimeObject :=
  { TypeAccessor := .ok { Kind := "DigitaloceanConfig", APIVersion := "rancher.cattle.io/v1" },
    Accessor := .ok { Name := "do-config", Namespace := "ns1" } }

/-- The sample world with a token of the user `u-demo` stored under the name
`other-login`, and a generator that draws the same value every time. -/
def strayWorld : World :=
  { sampleWorld with
    tokens := [{ Kubeconfig.newToken "u-demo" "old" with Name := "other-login" }],
    randomToken := fun _ => .ok "same" }

/-! # Theorems -/

namespace GoMap

variable {β : Type}

theorem get_append_of_not_contains (m n : GoMap β) (k : String)
    (h : ∀ kv ∈ m, kv.1 ≠ k) : get (m ++ n) k = get n k := by
  induction m with
  | nil => rfl
  | cons kv rest ih =>
    have hk : (kv.1 == k) = false := by simpa using h kv (List.mem_cons_self _ _)
    have hr := ih (fun x hx => h x (List.mem_cons_of_mem _ hx))
    unfold get at hr ⊢
    simp only [List.cons_append, List.find?, hk]
    exact hr

theorem get_append_of_ne (m : GoMap β) (k k2 : String) (v : β) (h : k ≠ k2) :
    get (m ++ [(k, v)]) k2 = get m k2 := by
  have hk : (k == k2) = false := by simpa using h
  induction m with
  | nil => simp [get, List.find?, hk]
  | cons kv rest ih =>
    unfold get at ih ⊢
    by_cases hkv : (kv.1 == k2) = true
    · simp only [List.cons_append, List.find?, hkv]
    · simp only [Bool.not_eq_true] at hkv
      simp only [List.cons_append, List.find?, hkv]
      exact ih

theorem get_delete_of_ne (m : GoMap β) (k k2 : String) (h : k ≠ k2) :
    get (delete m k) k2 = get m k2 := by
  induction m with
  | nil => rfl
  | cons kv rest ih =>
    unfold get delete at ih ⊢
    by_cases hkv : (kv.1 == k2) = true
    · have hne : (kv.1 != k) = true := by
        have h1 : kv.1 = k2 := by simpa using hkv
        simpa [bne, h1] using Ne.symm h
      simp only [List.filter, hne, List.find?, hkv]
    · simp only [Bool.not_eq_true] at hkv
      by_cases hd : (kv.1 != k) = true
      · simp only [List.filter, hd, List.find?, hkv]
        exact ih
      · simp only [Bool.not_eq_true] at hd
        simp only [List.filter, hd, List.find?, hkv]
        exact ih

/-- After `m[k] = v` the lookup of `k` gives `v`. -/
theorem get_set_self (m : GoMap β) (k : String) (v : β) : get (set m k v) k = some v := by
  unfold set
  rw [get_append_of_not_contains]
  · simp [get, List.find?]
  · intro kv hkv
    have := (List.mem_filter.mp hkv).2
    simpa [bne] using this

/-- After `m[k] = v` the lookup of another key is as before. -/
theorem get_set_of_ne (m : GoMap β) (k k2 : String) (v : β) (h : k ≠ k2) :
    get (set m k v) k2 = get m k2 := by
  unfold set
  rw [get_append_of_ne _ _ _ _ h, get_delete_of_ne _ _ _ h]

theorem contains_filter_key (m : GoMap β) (p : String → Bool) (k : String) :
    contains (m.filter (fun kv => p kv.1)) k = (contains m k && p k) := by
  induction m with
  | nil => rfl
  | cons kv rest ih =>
    unfold contains at ih ⊢
    by_cases hp : p kv.1 = true
    · by_cases hk : (kv.1 == k) = true
      · have : kv.1 = k := by simpa using hk
        simp [List.filter, hp, this ▸ hp, this]
      · simp only [Bool.not_eq_true] at hk
        simp only [List.filter, hp, List.any_cons, hk, Bool.false_or]
        exact ih
    · simp only [Bool.not_eq_true] at hp
      by_cases hk : (kv.1 == k) = true
      · have hkk : kv.1 = k := by simpa using hk
        have hpk : p k = false := hkk ▸ hp
        simp only [List.filter, hp, List.any_cons, hk, Bool.true_or, hpk, Bool.and_false]
        rw [ih, hpk, Bool.and_false]
      · simp only [Bool.not_eq_true] at hk
        simp only [List.filter, hp, List.any_cons, hk, Bool.false_or]
        exact ih

theorem get_filter_key (m : GoMap β) (p : String → Bool) (k : String) (h : p k = true) :
    get (m.filter (fun kv => p kv.1)) k = get m k := by
  induction m with
  | nil => rfl
  | cons kv rest ih =>
    unfold get at ih ⊢
    by_cases hk : (kv.1 == k) = true
    · have hkk : kv.1 = k := by simpa using hk
      have hp : p kv.1 = true := hkk ▸ h
      simp only [List.filter, hp, List.find?, hk]
    · simp only [Bool.not_eq_true] at hk
      by_cases hp : p kv.1 = true
      · simp only [List.filter, hp, List.find?, hk]
        exact ih
      · simp only [Bool.not_eq_true] at hp
        simp only [List.filter, hp, List.find?, hk]
        exact ih

/-- Deleting, one key at a time, the keys of `ks` that fail `p` keeps exactly the
entries whose key passes `p` or is not among `ks`. -/
theorem foldl_delete_eq_filter (p : String → Bool) (ks : List String) :
    ∀ d : GoMap β,
      ks.foldl (fun d k => if p k then d else delete d k) d =
        d.filter (fun kv => p kv.1 || !(ks.contains kv.1)) := by
  induction ks with
  | nil => intro d; simp
  | cons k rest ih =>
    intro d
    rw [List.foldl_cons, ih]
    by_cases hp : p k = true
    · simp only [hp, if_true]
      apply List.filter_congr
      intro kv _
      by_cases hk : kv.1 = k
      · simp [hk, hp]
      · simp [hk]
    · simp only [Bool.not_eq_true] at hp
      simp only [hp, Bool.false_eq_true, if_false, delete, List.filter_filter]
      apply List.filter_congr
      intro kv _
      by_cases hk : kv.1 = k
      · simp [hk, hp]
      · simp [hk, bne]

/-- The pruning loop of `pruneBySchema` is a filter by the allowed keys. -/
theorem foldl_delete_keys (p : String → Bool) (d : GoMap β) :
    (keys d).foldl (fun d k => if p k then d else delete d k) d =
      d.filter (fun kv => p kv.1) := by
  rw [foldl_delete_eq_filter]
  apply List.filter_congr
  intro kv hkv
  have : kv.1 ∈ keys d := List.mem_map.mpr ⟨kv, hkv, rfl⟩
  simp [this]

end GoMap


namespace Rke

theorem skipNodePool_eq_not_isValidPool (nodePool : RKENodePool) :
    skipNodePool nodePool = !isValidPool nodePool := by
  unfold skipNodePool isValidPool
  cases nodePool.NodeConfig <;> simp [bne, Bool.not_and]

/-- The log of `pruneBySchema` grows by exactly one schema lookup. -/
theorem pruneBySchema_log (env : Env) (kind : String) (data : GoMap Value) (log : List Call) :
    (pruneBySchema env kind data log).2 = log ++ [Call.dynamicSchemaGet (env.ToLower kind)] := by
  unfold pruneBySchema
  cases env.dynamicSchemaGet (env.ToLower kind) with
  | error err => by_cases h : IsNotFound (some err) = true <;> simp [h]
  | ok ds => simp

/-- The log of `toMachineTemplate` grows by calls that are schema lookups or the
infra-config lookup of the pool. -/
theorem toMachineTemplate_log (env : Env) (name : String) (cluster : Cluster)
    (nodePool : RKENodePool) (log : List Call) :
    ∃ calls, (toMachineTemplate env name cluster nodePool log).2 = log ++ calls ∧
      ∀ c ∈ calls, (∃ k, c = Call.dynamicSchemaGet k) ∨ isLookupOf cluster nodePool c := by
  unfold toMachineTemplate
  cases hnc : nodePool.NodeConfig with
  | none => exact ⟨[], by simp⟩
  | some ref =>
    have hl : isLookupOf cluster nodePool
        (Call.dynamicGet (nodeConfigGVK ref) cluster.Namespace ref.Name) := ⟨ref, hnc, rfl⟩
    simp only []
    cases hget : env.dynamicGet
        (FromAPIVersionAndKind
          (if ref.APIVersion = "" then "rancher.cattle.io/v1" else ref.APIVersion) ref.Kind)
        cluster.Namespace ref.Name with
    | error err => exact ⟨[_], rfl, by simpa [nodeConfigGVK] using hl⟩
    | ok nodeConfig =>
      simp only []
      cases env.ToMap nodeConfig with
      | error err => exact ⟨[_], rfl, by simpa [nodeConfigGVK] using hl⟩
      | ok data =>
        simp only []
        have hp := pruneBySchema_log env
          (FromAPIVersionAndKind
            (if ref.APIVersion = "" then "rancher.cattle.io/v1" else ref.APIVersion)
            ref.Kind).Kind data
          (log ++ [Call.dynamicGet (nodeConfigGVK ref) cluster.Namespace ref.Name])
        rcases hpr : pruneBySchema env
          (FromAPIVersionAndKind
            (if ref.APIVersion = "" then "rancher.cattle.io/v1" else ref.APIVersion)
            ref.Kind).Kind data
          (log ++ [Call.dynamicGet (nodeConfigGVK ref) cluster.Namespace ref.Name])
          with ⟨⟨e, d⟩, l⟩
        rw [hpr] at hp
        simp only [nodeConfigGVK] at hp hpr
        simp only [hpr]
        refine ⟨[Call.dynamicGet (nodeConfigGVK ref) cluster.Namespace ref.Name,
          Call.dynamicSchemaGet (env.ToLower (nodeConfigGVK ref).Kind)], ?_, ?_⟩
        · cases e with
          | some err => simpa [nodeConfigGVK] using hp
          | none =>
            cases env.EncodeToMap nodePool.RKECommonNodeConfig <;>
              simpa [nodeConfigGVK] using hp
        · intro c hc
          simp only [List.mem_cons, List.mem_singleton, List.not_mem_nil, or_false] at hc
          rcases hc with rfl | rfl
          · exact Or.inr hl
          · exact Or.inl ⟨_, rfl⟩

/-- A successful `withAnnotations` changes only the template annotations. -/
theorem withAnnotations_ok (env : Env) (md md2 : MachineDeployment) (nodePool : RKENodePool)
    (h : withAnnotations env md nodePool = .ok md2) :
    ∃ annotations, md2 = setAnnotations md annotations := by
  unfold withAnnotations at h
  simp only [] at h
  split at h
  · exact absurd h (by simp)
  · split at h
    · exact absurd h (by simp)
    · rename_i annotations _
      exact ⟨annotations, by simpa using h.symm⟩

theorem withRoleLabels_objectMeta (env : Env) (md : MachineDeployment) (nodePool : RKENodePool) :
    (withRoleLabels env md nodePool).ObjectMeta = md.ObjectMeta := by
  unfold withRoleLabels
  by_cases h1 : defaultTrue nodePool.EtcdRole = true <;>
    by_cases h2 : defaultTrue nodePool.ControlPlaneRole = true <;>
    simp [h1, h2, setLabel]

theorem withStrategy_objectMeta (md : MachineDeployment) (nodePool : RKENodePool) :
    (withStrategy md nodePool).ObjectMeta = md.ObjectMeta := by
  unfold withStrategy
  cases nodePool.RollingUpdate <;> rfl

/-- Pools that the guard passes over leave the loop's result and log as they are. -/
theorem machineDeploymentsLoop_filter (env : Env) (cluster : Cluster) (capiCluster : CapiCluster)
    (bootstrapName : String) (pools : List RKENodePool) :
    ∀ (result : List Object) (log : List Call),
      machineDeploymentsLoop env cluster capiCluster bootstrapName pools result log =
        machineDeploymentsLoop env cluster capiCluster bootstrapName
          (pools.filter isValidPool) result log := by
  induction pools with
  | nil => intro result log; rfl
  | cons nodePool rest ih =>
    intro result log
    by_cases hv : isValidPool nodePool = true
    · have hs : skipNodePool nodePool = false := by
        rw [skipNodePool_eq_not_isValidPool, hv]; rfl
      rw [List.filter_cons_of_pos hv]
      simp only [machineDeploymentsLoop, hs, Bool.false_eq_true, if_false]
      rcases toMachineTemplate env
        (SafeConcatName env.shorten [cluster.Name, "nodepool", nodePool.Name]) cluster nodePool log
        with ⟨r, log2⟩
      cases r with
      | error err => rfl
      | ok machineTemplate =>
        simp only []
        cases withAnnotations env _ nodePool with
        | error err => rfl
        | ok md => exact ih _ _
    · have hs : skipNodePool nodePool = true := by
        rw [skipNodePool_eq_not_isValidPool]; simpa using hv
      rw [List.filter_cons_of_neg hv]
      simp only [machineDeploymentsLoop, hs, if_true]
      exact ih _ _

/-- The loop only adds schema lookups and infra-config lookups of valid pools to the log. -/
theorem machineDeploymentsLoop_log (env : Env) (cluster : Cluster) (capiCluster : CapiCluster)
    (bootstrapName : String) (pools : List RKENodePool) :
    ∀ (result : List Object) (log : List Call),
      ∃ calls,
        (machineDeploymentsLoop env cluster capiCluster bootstrapName pools result log).2 =
          log ++ calls ∧
        ∀ c ∈ calls, (∃ k, c = Call.dynamicSchemaGet k) ∨
          ∃ nodePool ∈ pools, isValidPool nodePool = true ∧ isLookupOf cluster nodePool c := by
  induction pools with
  | nil => intro result log; exact ⟨[], by simp [machineDeploymentsLoop]⟩
  | cons nodePool rest ih =>
    intro result log
    by_cases hv : isValidPool nodePool = true
    · have hs : skipNodePool nodePool = false := by
        rw [skipNodePool_eq_not_isValidPool, hv]; rfl
      simp only [machineDeploymentsLoop, hs, Bool.false_eq_true, if_false]
      obtain ⟨calls1, h1, hc1⟩ := toMachineTemplate_log env
        (SafeConcatName env.shorten [cluster.Name, "nodepool", nodePool.Name]) cluster nodePool log
      have hmem : ∀ c ∈ calls1, (∃ k, c = Call.dynamicSchemaGet k) ∨
          ∃ np ∈ nodePool :: rest, isValidPool np = true ∧ isLookupOf cluster np c := by
        intro c hc
        rcases hc1 c hc with h | h
        · exact Or.inl h
        · exact Or.inr ⟨nodePool, List.mem_cons_self _ _, hv, h⟩
      rcases hr : toMachineTemplate env
        (SafeConcatName env.shorten [cluster.Name, "nodepool", nodePool.Name]) cluster nodePool log
        with ⟨r, log2⟩
      rw [hr] at h1
      simp only [] at h1
      cases r with
      | error err => exact ⟨calls1, h1, hmem⟩
      | ok machineTemplate =>
        simp only []
        cases withAnnotations env _ nodePool with
        | error err => exact ⟨calls1, h1, hmem⟩
        | ok md =>
          simp only []
          obtain ⟨calls2, h2, hc2⟩ := ih
            (result ++ [Object.unstructured machineTemplate] ++ [Object.machineDeployment md]) log2
          refine ⟨calls1 ++ calls2, ?_, ?_⟩
          · rw [h2, h1, List.append_assoc]
          · intro c hc
            rcases List.mem_append.mp hc with hc | hc
            · exact hmem c hc
            · rcases hc2 c hc with h | ⟨np, hnp, hval, hl⟩
              · exact Or.inl h
              · exact Or.inr ⟨np, List.mem_cons_of_mem _ hnp, hval, hl⟩
    · have hs : skipNodePool nodePool = true := by
        rw [skipNodePool_eq_not_isValidPool]; simpa using hv
      simp only [machineDeploymentsLoop, hs, if_true]
      obtain ⟨calls, h, hc⟩ := ih result log
      refine ⟨calls, h, ?_⟩
      intro c hcm
      rcases hc c hcm with h | ⟨np, hnp, hval, hl⟩
      · exact Or.inl h
      · exact Or.inr ⟨np, List.mem_cons_of_mem _ hnp, hval, hl⟩

/-- What a successful run of the loop appends: per valid pool, in order, one machine
template and one machine deployment carrying the pool's generated name, and no
bootstrap template. -/
theorem machineDeploymentsLoop_ok (env : Env) (cluster : Cluster) (capiCluster : CapiCluster)
    (bootstrapName : String) (pools : List RKENodePool) :
    ∀ (result : List Object) (log : List Call) (objs : List Object),
      (machineDeploymentsLoop env cluster capiCluster bootstrapName pools result log).1 =
        .ok objs →
      ∃ added, objs = result ++ added ∧
        (added.filterMap Object.machineDeployment?).map (fun md => md.ObjectMeta.Name) =
          (pools.filter isValidPool).map (nodePoolName env cluster) ∧
        (added.filter Object.isMachineTemplate).length = (pools.filter isValidPool).length ∧
        ∀ o ∈ added, o.isBootstrapTemplate = false := by
  induction pools with
  | nil =>
    intro result log objs h
    simp only [machineDeploymentsLoop, Except.ok.injEq] at h
    exact ⟨[], by simp [h]⟩
  | cons nodePool rest ih =>
    intro result log objs h
    by_cases hv : isValidPool nodePool = true
    · have hs : skipNodePool nodePool = false := by
        rw [skipNodePool_eq_not_isValidPool, hv]; rfl
      simp only [machineDeploymentsLoop, hs, Bool.false_eq_true, if_false] at h
      rcases hr : toMachineTemplate env
        (SafeConcatName env.shorten [cluster.Name, "nodepool", nodePool.Name]) cluster nodePool log
        with ⟨r, log2⟩
      rw [hr] at h
      cases r with
      | error err => simp at h
      | ok machineTemplate =>
        simp only [] at h
        cases hw : withAnnotations env
            (withRoleLabels env
              (withStrategy
                (newMachineDeployment cluster capiCluster bootstrapName
                  (SafeConcatName env.shorten [cluster.Name, "nodepool", nodePool.Name])
                  nodePool machineTemplate) nodePool) nodePool) nodePool with
        | error err => rw [hw] at h; simp at h
        | ok md =>
          rw [hw] at h
          simp only [] at h
          obtain ⟨added, hobjs, hnames, hcount, hboot⟩ := ih _ _ _ h
          obtain ⟨annotations, hmd⟩ := withAnnotations_ok env _ _ _ hw
          have hname : md.ObjectMeta.Name = nodePoolName env cluster nodePool := by
            rw [hmd]
            simp [setAnnotations, withRoleLabels_objectMeta, withStrategy_objectMeta,
              newMachineDeployment, nodePoolName]
          refine ⟨[Object.unstructured machineTemplate, Object.machineDeployment md] ++ added,
            ?_, ?_, ?_, ?_⟩
          · rw [hobjs]; simp
          · rw [List.filter_cons_of_pos hv]
            simp [Object.machineDeployment?, hnames, hname]
          · rw [List.filter_cons_of_pos hv]
            simp [Object.isMachineTemplate, hcount]
          · intro o ho
            simp only [List.cons_append, List.nil_append, List.mem_cons] at ho
            rcases ho with rfl | rfl | ho
            · rfl
            · rfl
            · exact hboot o ho
    · have hs : skipNodePool nodePool = true := by
        rw [skipNodePool_eq_not_isValidPool]; simpa using hv
      simp only [machineDeploymentsLoop, hs, if_true] at h
      rw [List.filter_cons_of_neg hv]
      exact ih _ _ _ h

/-- A pool is invalid exactly when its name is empty, or its infra-config reference is
nil, or that reference has an empty name or an empty kind. -/
theorem isValidPool_eq_false_iff (nodePool : RKENodePool) :
    isValidPool nodePool = false ↔
      (nodePool.Name = "" ∨ nodePool.NodeConfig = none ∨
        ∃ ref, nodePool.NodeConfig = some ref ∧ (ref.Name = "" ∨ ref.Kind = "")) := by
  unfold isValidPool
  cases nodePool.NodeConfig with
  | none => simp
  | some ref =>
    simp only [bne, Bool.and_eq_false_iff, Bool.not_eq_false', beq_iff_eq, Option.some.injEq,
      exists_eq_left', false_or]
    tauto

/-- C1 (pool validity filter). For a cluster with a node-pool configuration:
(1) the loop of `machineDeployments` gives the same result and the same log on the pool
list as on the pool list with the invalid pools removed, so an invalid pool adds no
object, no lookup and no error; (2) every infra-config lookup that `machineDeployments`
adds to the log is the lookup of a valid pool; (3) when `machineDeployments` succeeds,
its machine deployments are, in order, those named after the valid pools, so there are
as many machine deployments, and as many machine templates, as valid pools; (4) when no
pool is valid, `machineDeployments` succeeds without any lookup, machine template or
machine deployment. -/
theorem pool_validity_filter (env : Env) (cluster : Cluster) (capiCluster : CapiCluster)
    (cfg : RKEConfig) (log : List Call) (h : cluster.Spec.RKEConfig = some cfg) :
    (∀ result : List Object,
      machineDeploymentsLoop env cluster capiCluster (bootstrapName env cluster)
          cfg.NodePools result log =
        machineDeploymentsLoop env cluster capiCluster (bootstrapName env cluster)
          (cfg.NodePools.filter isValidPool) result log) ∧
    (∃ calls, (machineDeployments env cluster capiCluster log).2 = log ++ calls ∧
      ∀ c ∈ calls, (∃ k, c = Call.dynamicSchemaGet k) ∨
        ∃ nodePool ∈ cfg.NodePools, isValidPool nodePool = true ∧
          isLookupOf cluster nodePool c) ∧
    (∀ objs, (machineDeployments env cluster capiCluster log).1 = .ok objs →
      (objs.filterMap Object.machineDeployment?).map (fun md => md.ObjectMeta.Name) =
          (cfg.NodePools.filter isValidPool).map (nodePoolName env cluster) ∧
        (objs.filterMap Object.machineDeployment?).length =
          (cfg.NodePools.filter isValidPool).length ∧
        (objs.filter Object.isMachineTemplate).length =
          (cfg.NodePools.filter isValidPool).length) ∧
    ((∀ nodePool ∈ cfg.NodePools, isValidPool nodePool = false) →
      ∃ objs, machineDeployments env cluster capiCluster log = (.ok objs, log) ∧
        objs.filterMap Object.machineDeployment? = [] ∧
        objs.filter Object.isMachineTemplate = []) := by
  refine ⟨fun result => machineDeploymentsLoop_filter env cluster capiCluster _ _ result log,
    ?_, ?_, ?_⟩
  · simp only [machineDeployments, h]
    exact machineDeploymentsLoop_log env cluster capiCluster _ cfg.NodePools _ log
  · intro objs hok
    simp only [machineDeployments, h] at hok
    obtain ⟨added, hobjs, hnames, hcount, _⟩ :=
      machineDeploymentsLoop_ok env cluster capiCluster _ cfg.NodePools _ log objs hok
    have hmd : objs.filterMap Object.machineDeployment? =
        added.filterMap Object.machineDeployment? := by
      rw [hobjs]
      by_cases hlen : cfg.NodePools.length > 0 <;>
        simp [hlen, Object.machineDeployment?]
    have hmt : objs.filter Object.isMachineTemplate =
        added.filter Object.isMachineTemplate := by
      rw [hobjs]
      by_cases hlen : cfg.NodePools.length > 0 <;>
        simp [hlen, Object.isMachineTemplate]
    refine ⟨by rw [hmd, hnames], ?_, by rw [hmt, hcount]⟩
    have := congrArg List.length hnames
    simpa [hmd] using this
  · intro hall
    have hnil : cfg.NodePools.filter isValidPool = [] := by
      rw [List.filter_eq_nil_iff]
      intro np hnp
      simp [hall np hnp]
    simp only [machineDeployments, h]
    rw [machineDeploymentsLoop_filter, hnil]
    simp only [machineDeploymentsLoop]
    refine ⟨_, rfl, ?_, ?_⟩ <;>
      by_cases hlen : cfg.NodePools.length > 0 <;>
        simp [hlen, Object.machineDeployment?, Object.isMachineTemplate]

/-- Witness of C1: the cluster `demo` with an unnamed pool followed by `pool-a`. -/
theorem pool_validity_filter_witness :
    (demoCluster [unnamedPool, poolA]).Spec.RKEConfig = some { NodePools := [unnamedPool, poolA] } ∧
    ((∀ result : List Object,
      machineDeploymentsLoop sampleEnv (demoCluster [unnamedPool, poolA]) demoCapiCluster
          (bootstrapName sampleEnv (demoCluster [unnamedPool, poolA]))
          [unnamedPool, poolA] result [] =
        machineDeploymentsLoop sampleEnv (demoCluster [unnamedPool, poolA]) demoCapiCluster
          (bootstrapName sampleEnv (demoCluster [unnamedPool, poolA]))
          ([unnamedPool, poolA].filter isValidPool) result []) ∧
    (∃ calls,
      (machineDeployments sampleEnv (demoCluster [unnamedPool, poolA]) demoCapiCluster []).2 =
        [] ++ calls ∧
      ∀ c ∈ calls, (∃ k, c = Call.dynamicSchemaGet k) ∨
        ∃ nodePool ∈ [unnamedPool, poolA], isValidPool nodePool = true ∧
          isLookupOf (demoCluster [unnamedPool, poolA]) nodePool c) ∧
    (∀ objs,
      (machineDeployments sampleEnv (demoCluster [unnamedPool, poolA]) demoCapiCluster []).1 =
        .ok objs →
      (objs.filterMap Object.machineDeployment?).map (fun md => md.ObjectMeta.Name) =
          ([unnamedPool, poolA].filter isValidPool).map
            (nodePoolName sampleEnv (demoCluster [unnamedPool, poolA])) ∧
        (objs.filterMap Object.machineDeployment?).length =
          ([unnamedPool, poolA].filter isValidPool).length ∧
        (objs.filter Object.isMachineTemplate).length =
          ([unnamedPool, poolA].filter isValidPool).length) ∧
    ((∀ nodePool ∈ [unnamedPool, poolA], isValidPool nodePool = false) →
      ∃ objs,
        machineDeployments sampleEnv (demoCluster [unnamedPool, poolA]) demoCapiCluster [] =
          (.ok objs, []) ∧
        objs.filterMap Object.machineDeployment? = [] ∧
        objs.filter Object.isMachineTemplate = [])) :=
  ⟨rfl, pool_validity_filter sampleEnv (demoCluster [unnamedPool, poolA]) demoCapiCluster
    { NodePools := [unnamedPool, poolA] } [] rfl⟩

/-- A successful `objects` is the control-plane object, the compute-cluster object and
then the result of `machineDeployments`. -/
theorem objects_ok (env : Env) (cluster : Cluster) (log : List Call) (objs : List Object)
    (h : (objects env cluster log).1 = .ok objs) :
    ∃ capi mds, capiCluster env cluster (rkeCluster cluster) = .ok capi ∧
      (machineDeployments env cluster capi log).1 = .ok mds ∧
      objs = [Object.rkeCluster (rkeCluster cluster), Object.capiCluster capi] ++ mds := by
  unfold objects at h
  simp only [] at h
  cases hc : capiCluster env cluster (rkeCluster cluster) with
  | error err => rw [hc] at h; simp at h
  | ok capi =>
    rw [hc] at h
    simp only [] at h
    rcases hm : machineDeployments env cluster capi log with ⟨r, log2⟩
    rw [hm] at h
    cases r with
    | error err => simp at h
    | ok mds =>
      simp only [Except.ok.injEq] at h
      exact ⟨capi, mds, rfl, by rw [hm], by rw [← h]; rfl⟩

/-- The bootstrap name is `<cluster>-bootstrap-template` whenever that is under 64 bytes. -/
theorem bootstrapName_short (env : Env) (cluster : Cluster)
    (h : (cluster.Name ++ "-bootstrap-template").utf8ByteSize < 64) :
    bootstrapName env cluster = cluster.Name ++ "-bootstrap-template" := by
  have e : String.intercalate "-" [cluster.Name, "bootstrap", "template"] =
      cluster.Name ++ "-bootstrap-template" := by
    simp only [String.intercalate, String.intercalate.go, String.append_assoc]
    rfl
  unfold bootstrapName SafeConcatName
  simp only [e, h, if_true]

/-- Counterexample to C2 as stated: the cluster `demo` whose only node pool has no name
has no valid pool, yet `objects` returns a bootstrap template. -/
theorem bootstrap_template_iff_valid_pool_counterexample :
    ¬ ((∃ o ∈ resultObjects (objects sampleEnv (demoCluster [unnamedPool]) []).1,
          o.isBootstrapTemplate = true) ↔
        ∃ nodePool ∈ [unnamedPool], isValidPool nodePool = true) := by
  decide

/-- C2, amended. When `objects` succeeds on a cluster with a node-pool configuration, its
result holds a bootstrap template if and only if the cluster has at least one node pool,
valid or not; it is then exactly one, in the cluster's namespace, named by the safe
concatenation of the cluster name, `bootstrap` and `template`, which is
`<cluster>-bootstrap-template` when that is under 64 bytes. In particular a cluster with
a valid pool has one. -/
theorem bootstrap_template_iff_node_pool (env : Env) (cluster : Cluster) (cfg : RKEConfig)
    (log : List Call) (objs : List Object) (h : cluster.Spec.RKEConfig = some cfg)
    (hok : (objects env cluster log).1 = .ok objs) :
    ((∃ o ∈ objs, o.isBootstrapTemplate = true) ↔ cfg.NodePools ≠ []) ∧
    objs.filterMap Object.bootstrapTemplate? =
      (if cfg.NodePools.length > 0 then
        [{ ObjectMeta := { Namespace := cluster.Namespace, Name := bootstrapName env cluster } }]
       else []) ∧
    ((cluster.Name ++ "-bootstrap-template").utf8ByteSize < 64 →
      bootstrapName env cluster = cluster.Name ++ "-bootstrap-template") ∧
    ((∃ nodePool ∈ cfg.NodePools, isValidPool nodePool = true) →
      ∃ o ∈ objs, o.isBootstrapTemplate = true) := by
  obtain ⟨capi, mds, _, hmds, hobjs⟩ := objects_ok env cluster log objs hok
  simp only [machineDeployments, h] at hmds
  obtain ⟨added, hadd, _, _, hboot⟩ :=
    machineDeploymentsLoop_ok env cluster capi _ cfg.NodePools _ log mds hmds
  have hnone : added.filterMap Object.bootstrapTemplate? = [] := by
    rw [List.filterMap_eq_nil_iff]
    intro o ho
    have := hboot o ho
    cases o <;> simp_all [Object.isBootstrapTemplate, Object.bootstrapTemplate?]
  have hiff : (∃ o ∈ objs, o.isBootstrapTemplate = true) ↔ cfg.NodePools ≠ [] := by
    rw [hobjs, hadd]
    by_cases hlen : cfg.NodePools.length > 0
    · have hne : cfg.NodePools ≠ [] := List.ne_nil_of_length_pos hlen
      simp only [hlen, if_true, hne, ne_eq, not_false_eq_true, iff_true]
      exact ⟨Object.bootstrapTemplate
        { ObjectMeta := { Name := SafeConcatName env.shorten [cluster.Name, "bootstrap", "template"],
                          Namespace := cluster.Namespace } }, by simp, rfl⟩
    · have hnil : cfg.NodePools = [] := by
        cases hp : cfg.NodePools with
        | nil => rfl
        | cons a l => rw [hp] at hlen; simp at hlen
      simp only [hlen, if_false, hnil, ne_eq, not_true_eq_false, iff_false, not_exists, not_and]
      intro o ho
      simp only [List.cons_append, List.nil_append, List.mem_cons] at ho
      rcases ho with rfl | rfl | ho
      · simp [Object.isBootstrapTemplate]
      · simp [Object.isBootstrapTemplate]
      · simp [hboot o ho]
  refine ⟨hiff, ?_, bootstrapName_short env cluster, ?_⟩
  · rw [hobjs, hadd]
    by_cases hlen : cfg.NodePools.length > 0 <;>
      simp [hlen, Object.bootstrapTemplate?, hnone, bootstrapName]
  · rintro ⟨np, hnp, _⟩
    exact hiff.mpr (List.ne_nil_of_mem hnp)

/-- Witness of C2 (amended): the cluster `demo` whose only pool has no name. -/
theorem bootstrap_template_iff_node_pool_witness :
    (demoCluster [unnamedPool]).Spec.RKEConfig = some { NodePools := [unnamedPool] } ∧
    (objects sampleEnv (demoCluster [unnamedPool]) []).1 =
      .ok [Object.rkeCluster (rkeCluster (demoCluster [unnamedPool])),
        Object.capiCluster demoCapiCluster,
        Object.bootstrapTemplate
          { ObjectMeta := { Namespace := "ns1", Name := "demo-bootstrap-template" } }] ∧
    (((∃ o ∈ [Object.rkeCluster (rkeCluster (demoCluster [unnamedPool])),
        Object.capiCluster demoCapiCluster,
        Object.bootstrapTemplate
          { ObjectMeta := { Namespace := "ns1", Name := "demo-bootstrap-template" } }],
        o.isBootstrapTemplate = true) ↔ [unnamedPool] ≠ []) ∧
    [Object.rkeCluster (rkeCluster (demoCluster [unnamedPool])),
        Object.capiCluster demoCapiCluster,
        Object.bootstrapTemplate
          { ObjectMeta := { Namespace := "ns1", Name := "demo-bootstrap-template" } }].filterMap
        Object.bootstrapTemplate? =
      (if [unnamedPool].length > 0 then
        [{ ObjectMeta := { Namespace := (demoCluster [unnamedPool]).Namespace,
                           Name := bootstrapName sampleEnv (demoCluster [unnamedPool]) } }]
       else []) ∧
    (((demoCluster [unnamedPool]).Name ++ "-bootstrap-template").utf8ByteSize < 64 →
      bootstrapName sampleEnv (demoCluster [unnamedPool]) =
        (demoCluster [unnamedPool]).Name ++ "-bootstrap-template") ∧
    ((∃ nodePool ∈ [unnamedPool], isValidPool nodePool = true) →
      ∃ o ∈ [Object.rkeCluster (rkeCluster (demoCluster [unnamedPool])),
        Object.capiCluster demoCapiCluster,
        Object.bootstrapTemplate
          { ObjectMeta := { Namespace := "ns1", Name := "demo-bootstrap-template" } }],
        o.isBootstrapTemplate = true)) :=
  ⟨rfl, rfl, bootstrap_template_iff_node_pool sampleEnv (demoCluster [unnamedPool])
    { NodePools := [unnamedPool] } [] _ rfl rfl⟩

theorem FromAPIVersionAndKind_kind (apiVersion kind : String) :
    (FromAPIVersionAndKind apiVersion kind).Kind = kind := by
  unfold FromAPIVersionAndKind
  cases ParseGroupVersion apiVersion <;> rfl

/-- The function `pruneBySchema` returns no error when the schema lookup succeeds or
reports not-found. -/
theorem pruneBySchema_no_error (env : Env) (kind : String) (data : GoMap Value)
    (log : List Call)
    (h : ∀ err, env.dynamicSchemaGet (env.ToLower kind) = .error err → err.isNotFound = true) :
    ∃ pruned, pruneBySchema env kind data log =
      ((none, pruned), log ++ [Call.dynamicSchemaGet (env.ToLower kind)]) := by
  unfold pruneBySchema
  cases hs : env.dynamicSchemaGet (env.ToLower kind) with
  | error err =>
    have := h err hs
    exact ⟨data, by simp [IsNotFound, this]⟩
  | ok ds => exact ⟨_, rfl⟩

/-- The machine template built from explicit field data. -/
theorem toMachineTemplate_ok (env : Env) (name : String) (cluster : Cluster)
    (nodePool : RKENodePool) (log : List Call) (ref : ObjectReference) (nodeConfig : Value)
    (data commonData : GoMap Value)
    (href : nodePool.NodeConfig = some ref)
    (hget : env.dynamicGet (nodeConfigGVK ref) cluster.Namespace ref.Name = .ok nodeConfig)
    (hmap : env.ToMap nodeConfig = .ok data)
    (hschema : ∀ err, env.dynamicSchemaGet (env.ToLower ref.Kind) = .error err →
      err.isNotFound = true)
    (hcommon : env.EncodeToMap nodePool.RKECommonNodeConfig = .ok commonData) :
    ∃ pruned, toMachineTemplate env name cluster nodePool log =
      (.ok { Object := [
          ("kind", Value.str (TrimSuffix ref.Kind "Config" ++ "MachineTemplate")),
          ("apiVersion", Value.str "rke-node.cattle.io/v1"),
          ("metadata", Value.map [
            ("name", Value.str name),
            ("namespace", Value.str cluster.Namespace)]),
          ("spec", Value.map [
            ("template", Value.map [("spec", Value.map
              (GoMap.set pruned "common" (Value.map commonData)))])])] },
        log ++ [Call.dynamicGet (nodeConfigGVK ref) cluster.Namespace ref.Name,
          Call.dynamicSchemaGet (env.ToLower ref.Kind)]) := by
  obtain ⟨pruned, hp⟩ := pruneBySchema_no_error env ref.Kind data
    (log ++ [Call.dynamicGet (nodeConfigGVK ref) cluster.Namespace ref.Name]) hschema
  refine ⟨pruned, ?_⟩
  unfold nodeConfigGVK at hget hp
  unfold toMachineTemplate
  simp only [href, hget, hmap, FromAPIVersionAndKind_kind, hp, hcommon, nodeConfigGVK,
    List.append_assoc, List.singleton_append]

theorem parseGroupVersion_rkeNode :
    ParseGroupVersion "rke-node.cattle.io/v1" = .ok ("rke-node.cattle.io", "v1") := by
  rfl

/-- The kind that `GetObjectKind().GroupVersionKind()` reads off a generated template. -/
theorem machineTemplate_kind (kind : String) (rest : GoMap Value) :
    (Unstructured.GroupVersionKind
      { Object := ("kind", Value.str kind) ::
          ("apiVersion", Value.str "rke-node.cattle.io/v1") :: rest }).Kind = kind := by
  have h1 : (("kind" : String) == "apiVersion") = false := by decide
  simp [Unstructured.GroupVersionKind, Unstructured.getString, GoMap.get, List.find?, h1,
    parseGroupVersion_rkeNode]

/-- The function `withAnnotations` succeeds when the JSON encoder does. -/
theorem withAnnotations_total (env : Env) (md : MachineDeployment) (nodePool : RKENodePool)
    (hmarshal : ∀ v, ∃ data, env.jsonMarshal v = .ok data) :
    ∃ annotations, withAnnotations env md nodePool = .ok (setAnnotations md annotations) := by
  obtain ⟨d1, h1⟩ := hmarshal (AssignValue.labels nodePool.RKECommonNodeConfig.Labels)
  obtain ⟨d2, h2⟩ := hmarshal (AssignValue.taints nodePool.RKECommonNodeConfig.Taints)
  unfold withAnnotations assign
  by_cases hl : nodePool.RKECommonNodeConfig.Labels.length > 0 <;>
    by_cases ht : nodePool.RKECommonNodeConfig.Taints.length > 0 <;>
    simp only [hl, ht, h1, h2, if_true, if_false] <;>
    exact ⟨_, rfl⟩

/-- C3 (end-to-end scenario). For the cluster `demo` in namespace `ns1` whose only node
pool is `pool-a` (infra kind `DigitaloceanConfig`, quantity 3, etcd role false,
control-plane role true), when the infra-config lookup and the conversions around it
succeed, `objects` returns exactly five objects in this order: the control-plane object
`demo`, the compute-cluster object `demo` referring to it, the bootstrap template
`demo-bootstrap-template`, the machine template `demo-nodepool-pool-a` of kind
`DigitaloceanMachineTemplate`, and the machine deployment `demo-nodepool-pool-a` with 3
replicas, the control-plane role label `"true"`, no etcd role label, a bootstrap
reference to `demo-bootstrap-template` and an infrastructure reference to the machine
template's kind and name. -/
theorem end_to_end_scenario (env : Env) (cluster : Cluster) (nodePool : RKENodePool)
    (ref : ObjectReference) (gvk : GroupVersionKind) (nodeConfig : Value)
    (data commonData : GoMap Value) (log : List Call)
    (hname : cluster.Name = "demo") (hns : cluster.Namespace = "ns1")
    (hpools : cluster.Spec.RKEConfig = some { NodePools := [nodePool] })
    (hpool : nodePool.Name = "pool-a") (href : nodePool.NodeConfig = some ref)
    (hkind : ref.Kind = "DigitaloceanConfig") (hrefname : ref.Name ≠ "")
    (hquantity : nodePool.Quantity = some 3)
    (hetcd : nodePool.EtcdRole = some false) (hcp : nodePool.ControlPlaneRole = some true)
    (hgvk : env.gvkGet (rkeCluster cluster) = .ok gvk)
    (hget : env.dynamicGet (nodeConfigGVK ref) "ns1" ref.Name = .ok nodeConfig)
    (hmap : env.ToMap nodeConfig = .ok data)
    (hschema : ∀ err, env.dynamicSchemaGet (env.ToLower "DigitaloceanConfig") = .error err →
      err.isNotFound = true)
    (hcommon : env.EncodeToMap nodePool.RKECommonNodeConfig = .ok commonData)
    (hmarshal : ∀ v, ∃ text, env.jsonMarshal v = .ok text)
    (hdistinct : env.EtcdRoleLabel ≠ env.ControlPlaneRoleLabel ∧
      env.EtcdRoleLabel ≠ env.MachineControlPlaneLabelName) :
    ∃ (controlPlane : RKECluster) (compute : CapiCluster) (template : Unstructured)
      (md : MachineDeployment),
      (objects env cluster log).1 =
        .ok [Object.rkeCluster controlPlane, Object.capiCluster compute,
          Object.bootstrapTemplate
            { ObjectMeta := { Name := "demo-bootstrap-template", Namespace := "ns1" } },
          Object.unstructured template, Object.machineDeployment md] ∧
      controlPlane.ObjectMeta = { Name := "demo", Namespace := "ns1" } ∧
      compute.ObjectMeta = { Name := "demo", Namespace := "ns1" } ∧
      compute.InfrastructureRef = some
        { Kind := gvk.ToAPIVersionAndKind.2, Namespace := "ns1", Name := "demo",
          APIVersion := gvk.ToAPIVersionAndKind.1 } ∧
      template.GetName = "demo-nodepool-pool-a" ∧
      template.GetNamespace = "ns1" ∧
      template.getString "kind" = "DigitaloceanMachineTemplate" ∧
      md.ObjectMeta = { Name := "demo-nodepool-pool-a", Namespace := "ns1" } ∧
      md.Spec.ClusterName = "demo" ∧
      md.Spec.Replicas = some 3 ∧
      GoMap.get md.Spec.Template.Labels env.ControlPlaneRoleLabel = some "true" ∧
      GoMap.get md.Spec.Template.Labels env.EtcdRoleLabel = none ∧
      md.Spec.Template.Spec.BootstrapConfigRef = some
        { Kind := "RKEBootstrapTemplate", Namespace := "ns1",
          Name := "demo-bootstrap-template", APIVersion := "rke.cattle.io/v1" } ∧
      md.Spec.Template.Spec.InfrastructureRef =
        { Kind := "DigitaloceanMachineTemplate", Namespace := "ns1",
          Name := "demo-nodepool-pool-a", APIVersion := "rke-node.cattle.io/v1" } := by
  have hbn : SafeConcatName env.shorten [cluster.Name, "bootstrap", "template"] =
      "demo-bootstrap-template" := by rw [hname]; rfl
  have hpn : SafeConcatName env.shorten [cluster.Name, "nodepool", nodePool.Name] =
      "demo-nodepool-pool-a" := by rw [hname, hpool]; rfl
  have hkindne : (("DigitaloceanConfig" : String) == "") = false := by decide
  have hpoolne : (("pool-a" : String) == "") = false := by decide
  have hskip : skipNodePool nodePool = false := by
    simp [skipNodePool, hpool, href, hkind, hrefname, hkindne, hpoolne]
  have hkindstr : TrimSuffix "DigitaloceanConfig" "Config" ++ "MachineTemplate" =
      "DigitaloceanMachineTemplate" := by decide
  obtain ⟨pruned, htm⟩ := toMachineTemplate_ok env "demo-nodepool-pool-a" cluster nodePool log
    ref nodeConfig data commonData href (by rw [hns]; exact hget) hmap
    (by rw [hkind]; exact hschema) hcommon
  rw [hkind, hkindstr, hns] at htm
  obtain ⟨compute, hcompute⟩ : ∃ c : CapiCluster, c =
      { ObjectMeta := { Name := cluster.Name, Namespace := cluster.Namespace },
        InfrastructureRef := some {
          Kind := gvk.ToAPIVersionAndKind.2,
          Namespace := (rkeCluster cluster).ObjectMeta.Namespace,
          Name := (rkeCluster cluster).ObjectMeta.Name,
          APIVersion := gvk.ToAPIVersionAndKind.1 } } := ⟨_, rfl⟩
  obtain ⟨template, htemplate⟩ : ∃ u : Unstructured, u =
      { Object := [
          ("kind", Value.str "DigitaloceanMachineTemplate"),
          ("apiVersion", Value.str "rke-node.cattle.io/v1"),
          ("metadata", Value.map [
            ("name", Value.str "demo-nodepool-pool-a"),
            ("namespace", Value.str "ns1")]),
          ("spec", Value.map [
            ("template", Value.map [("spec", Value.map
              (GoMap.set pruned "common" (Value.map commonData)))])])] } := ⟨_, rfl⟩
  rw [← htemplate] at htm
  obtain ⟨md0, hmd0⟩ : ∃ m : MachineDeployment, m =
      withRoleLabels env
        (withStrategy
          (newMachineDeployment cluster compute "demo-bootstrap-template"
            "demo-nodepool-pool-a" nodePool template) nodePool) nodePool := ⟨_, rfl⟩
  obtain ⟨annotations, hann⟩ := withAnnotations_total env md0 nodePool hmarshal
  have hcapi : capiCluster env cluster (rkeCluster cluster) = .ok compute := by
    simp only [capiCluster, hgvk, hcompute]
  have hobjs : (objects env cluster log).1 =
      .ok [Object.rkeCluster (rkeCluster cluster), Object.capiCluster compute,
        Object.bootstrapTemplate
          { ObjectMeta := { Name := "demo-bootstrap-template", Namespace := "ns1" } },
        Object.unstructured template,
        Object.machineDeployment (setAnnotations md0 annotations)] := by
    rw [hmd0] at hann
    simp only [objects, hcapi, machineDeployments, hpools, machineDeploymentsLoop,
      hskip, hbn, hpn, htm, hann, hns, List.length_singleton, Bool.false_eq_true, if_false]
    simp [hmd0]
  have htk : template.GroupVersionKind.Kind = "DigitaloceanMachineTemplate" := by
    rw [htemplate]; exact machineTemplate_kind _ _
  have hlabels : md0.Spec.Template.Labels =
      GoMap.set (GoMap.set [] env.ControlPlaneRoleLabel "true")
        env.MachineControlPlaneLabelName "true" := by
    rw [hmd0]
    unfold withRoleLabels withStrategy
    cases nodePool.RollingUpdate <;>
      simp [hetcd, hcp, defaultTrue, setLabel, newMachineDeployment]
  have hrest : md0.ObjectMeta = { Name := "demo-nodepool-pool-a", Namespace := "ns1" } ∧
      md0.Spec.ClusterName = "demo" ∧ md0.Spec.Replicas = some 3 ∧
      md0.Spec.Template.Spec.BootstrapConfigRef = some
        { Kind := "RKEBootstrapTemplate", Namespace := "ns1",
          Name := "demo-bootstrap-template", APIVersion := "rke.cattle.io/v1" } ∧
      md0.Spec.Template.Spec.InfrastructureRef =
        { Kind := "DigitaloceanMachineTemplate", Namespace := "ns1",
          Name := "demo-nodepool-pool-a", APIVersion := "rke-node.cattle.io/v1" } := by
    rw [hmd0]
    unfold withRoleLabels withStrategy
    cases nodePool.RollingUpdate <;>
      simp [hetcd, hcp, defaultTrue, setLabel, newMachineDeployment, hns, hname, hquantity,
        htk, hcompute]
  obtain ⟨h1, h2, h3, h4, h5⟩ := hrest
  refine ⟨rkeCluster cluster, compute, template, setAnnotations md0 annotations, hobjs,
    ?_, ?_, ?_, ?_, ?_, ?_, h1, h2, h3, ?_, ?_, h4, h5⟩
  · simp [rkeCluster, hname, hns]
  · simp [hcompute, hname, hns]
  · simp [hcompute, rkeCluster, hname, hns]
  · rw [htemplate]; rfl
  · rw [htemplate]; rfl
  · rw [htemplate]; rfl
  · show GoMap.get md0.Spec.Template.Labels env.ControlPlaneRoleLabel = some "true"
    rw [hlabels]
    by_cases hc : env.MachineControlPlaneLabelName = env.ControlPlaneRoleLabel
    · rw [hc]; exact GoMap.get_set_self _ _ _
    · rw [GoMap.get_set_of_ne _ _ _ _ hc]; exact GoMap.get_set_self _ _ _
  · show GoMap.get md0.Spec.Template.Labels env.EtcdRoleLabel = none
    rw [hlabels, GoMap.get_set_of_ne _ _ _ _ (Ne.symm hdistinct.2),
      GoMap.get_set_of_ne _ _ _ _ (Ne.symm hdistinct.1)]
    rfl

/-- Witness of C3: the scenario in the sample environment. -/
theorem end_to_end_scenario_witness :
    (demoCluster [poolA]).Name = "demo" ∧ (demoCluster [poolA]).Namespace = "ns1" ∧
    (demoCluster [poolA]).Spec.RKEConfig = some { NodePools := [poolA] } ∧
    poolA.Name = "pool-a" ∧ poolA.Quantity = some 3 ∧ poolA.EtcdRole = some false ∧
    poolA.ControlPlaneRole = some true ∧
    ∃ (controlPlane : RKECluster) (compute : CapiCluster) (template : Unstructured)
      (md : MachineDeployment),
      (objects sampleEnv (demoCluster [poolA]) []).1 =
        .ok [Object.rkeCluster controlPlane, Object.capiCluster compute,
          Object.bootstrapTemplate
            { ObjectMeta := { Name := "demo-bootstrap-template", Namespace := "ns1" } },
          Object.unstructured template, Object.machineDeployment md] ∧
      controlPlane.ObjectMeta = { Name := "demo", Namespace := "ns1" } ∧
      compute.ObjectMeta = { Name := "demo", Namespace := "ns1" } ∧
      compute.InfrastructureRef = some
        { Kind := "RKECluster", Namespace := "ns1", Name := "demo",
          APIVersion := "rke.cattle.io/v1" } ∧
      template.GetName = "demo-nodepool-pool-a" ∧
      template.GetNamespace = "ns1" ∧
      template.getString "kind" = "DigitaloceanMachineTemplate" ∧
      md.ObjectMeta = { Name := "demo-nodepool-pool-a", Namespace := "ns1" } ∧
      md.Spec.ClusterName = "demo" ∧
      md.Spec.Replicas = some 3 ∧
      GoMap.get md.Spec.Template.Labels "rke.cattle.io/control-plane-role" = some "true" ∧
      GoMap.get md.Spec.Template.Labels "rke.cattle.io/etcd-role" = none ∧
      md.Spec.Template.Spec.BootstrapConfigRef = some
        { Kind := "RKEBootstrapTemplate", Namespace := "ns1",
          Name := "demo-bootstrap-template", APIVersion := "rke.cattle.io/v1" } ∧
      md.Spec.Template.Spec.InfrastructureRef =
        { Kind := "DigitaloceanMachineTemplate", Namespace := "ns1",
          Name := "demo-nodepool-pool-a", APIVersion := "rke-node.cattle.io/v1" } :=
  ⟨rfl, rfl, rfl, rfl, rfl, rfl, rfl,
    end_to_end_scenario sampleEnv (demoCluster [poolA]) poolA
      { Kind := "DigitaloceanConfig", Namespace := "", Name := "do-config", APIVersion := "" }
      { Group := "rke.cattle.io", Version := "v1", Kind := "RKECluster" }
      (Value.map [("size", Value.str "s-2vcpu"), ("region", Value.str "nyc1")])
      [("size", Value.str "s-2vcpu"), ("region", Value.str "nyc1")] [] []
      rfl rfl rfl rfl rfl rfl (by decide) rfl rfl rfl rfl rfl rfl
      (fun err h => by cases h; rfl) rfl (fun _ => ⟨"[]", rfl⟩) (by decide)⟩

/-- C4 (sanitizer allow-list). The function `pruneBySchema` makes exactly one schema
lookup, under the lower-cased kind. If the schema exists, no error is returned and the
map is left as the input entries whose key is declared in the schema: a key is present
afterwards iff it was present and is declared, and every declared key keeps its value.
If the lookup reports not-found, no error is returned and the map is unchanged. If the
lookup fails otherwise, that error is returned and the map is unchanged. -/
theorem sanitizer_allow_list (env : Env) (kind : String) (data : GoMap Value)
    (log : List Call) :
    (pruneBySchema env kind data log).2 = log ++ [Call.dynamicSchemaGet (env.ToLower kind)] ∧
    (∀ ds, env.dynamicSchemaGet (env.ToLower kind) = .ok ds →
      ∃ pruned, (pruneBySchema env kind data log).1 = (none, pruned) ∧
        pruned = data.filter (fun kv => GoMap.contains ds.Spec.ResourceFields kv.1) ∧
        (∀ k, GoMap.contains pruned k =
          (GoMap.contains data k && GoMap.contains ds.Spec.ResourceFields k)) ∧
        (∀ k, GoMap.contains ds.Spec.ResourceFields k = true →
          GoMap.get pruned k = GoMap.get data k)) ∧
    (∀ err, env.dynamicSchemaGet (env.ToLower kind) = .error err → err.isNotFound = true →
      (pruneBySchema env kind data log).1 = (none, data)) ∧
    (∀ err, env.dynamicSchemaGet (env.ToLower kind) = .error err → err.isNotFound = false →
      (pruneBySchema env kind data log).1 = (some err, data)) := by
  refine ⟨pruneBySchema_log env kind data log, ?_, ?_, ?_⟩
  · intro ds hds
    refine ⟨_, ?_, rfl, fun k => GoMap.contains_filter_key _ _ _,
      fun k hk => GoMap.get_filter_key _ _ _ hk⟩
    unfold pruneBySchema
    simp only [hds]
    rw [GoMap.foldl_delete_keys (fun k => GoMap.contains ds.Spec.ResourceFields k)]
  · intro err herr hnf
    unfold pruneBySchema
    simp [herr, IsNotFound, hnf]
  · intro err herr hnf
    unfold pruneBySchema
    simp [herr, IsNotFound, hnf]

/-- Witness of C4: the fields `a`, `b`, `c` pruned by a schema declaring `a` and `c`
are exactly `a` and `c`, with their values; without a schema nothing is pruned. -/
theorem sanitizer_allow_list_witness :
    (pruneBySchema schemaEnv "DigitaloceanConfig" fieldsABC []).1 =
        (none, [("a", Value.num 1), ("c", Value.num 3)]) ∧
      (pruneBySchema sampleEnv "DigitaloceanConfig" fieldsABC []).1 = (none, fieldsABC) := by
  obtain ⟨pruned, h1, h2, _⟩ :=
    (sanitizer_allow_list schemaEnv "DigitaloceanConfig" fieldsABC []).2.1 schemaAC rfl
  refine ⟨?_, (sanitizer_allow_list sampleEnv "DigitaloceanConfig" fieldsABC []).2.2.1
    _ rfl rfl⟩
  rw [h1, h2]
  rfl

end Rke

/-! ## The world: log and frame lemmas -/

theorem World.record_eq_appendLog (w : World) (e : Event) : w.record e = w.appendLog [e] := rfl

theorem World.enqueueAfter_eq_appendLog (w : World) (namespace_ name : String) (n : Nat) :
    w.enqueueAfter namespace_ name n = w.appendLog [Event.enqueueAfter namespace_ name n] := rfl

theorem World.appendLog_appendLog (w : World) (a b : List Event) :
    (w.appendLog a).appendLog b = w.appendLog (a ++ b) := by
  simp [World.appendLog, List.append_assoc]

theorem World.appendLog_nil (w : World) : w.appendLog [] = w := by
  simp [World.appendLog]

theorem World.appendLog_log (w : World) (evs : List Event) :
    (w.appendLog evs).log = w.log ++ evs := rfl

theorem Frame.frame_refl (p : Event → Bool) (w : World) : Frame p w w :=
  ⟨[], (World.appendLog_nil w).symm, by simp⟩

theorem Frame.frame_trans {p : Event → Bool} {w1 w2 w3 : World} (h12 : Frame p w1 w2)
    (h23 : Frame p w2 w3) : Frame p w1 w3 := by
  obtain ⟨a, ha, hpa⟩ := h12
  obtain ⟨b, hb, hpb⟩ := h23
  refine ⟨a ++ b, by rw [hb, ha, World.appendLog_appendLog], ?_⟩
  intro e he
  rcases List.mem_append.mp he with h | h
  · exact hpa e h
  · exact hpb e h

theorem Frame.of_appendLog {p : Event → Bool} (w : World) (evs : List Event)
    (h : ∀ e ∈ evs, p e = true) : Frame p w (w.appendLog evs) :=
  ⟨evs, rfl, h⟩

theorem Frame.record_right {p : Event → Bool} {w w2 : World} (e : Event)
    (h : Frame p w w2) (he : p e = true) : Frame p w (w2.record e) :=
  Frame.frame_trans h ⟨[e], rfl, by simpa using he⟩

theorem Frame.frame_mono {p q : Event → Bool} {w w2 : World} (h : Frame p w w2)
    (hpq : ∀ e, p e = true → q e = true) : Frame q w w2 := by
  obtain ⟨evs, hw, hp⟩ := h
  exact ⟨evs, hw, fun e he => hpq e (hp e he)⟩

namespace Kubeconfig

/-- The method `GetServerURLAndCA` only reads: settings, the secret cache, the deployment
cache and the daemonset cache. -/
theorem GetServerURLAndCA_frame (w : World) :
    Frame Event.isDeployStep w (GetServerURLAndCA w).2 := by
  have h1 : Frame Event.isDeployStep w (w.record Event.settingsGetServerURLAndCA) :=
    Frame.record_right _ (Frame.frame_refl _ _) (by rfl)
  have h2 := Frame.record_right (Event.secretCacheGet systemNamespace "tls-rancher-internal-ca")
    h1 (by rfl)
  have h3 := Frame.record_right (Event.deploymentCacheGet systemNamespace "rancher") h2 (by rfl)
  have h4 := Frame.record_right (Event.daemonsetCacheGet systemNamespace "rancher") h3 (by rfl)
  unfold GetServerURLAndCA World.settingsGetServerURLAndCA World.secretCacheGet
    World.deploymentCacheGet World.daemonsetCacheGet
  cases w.settingsServerURLAndCA with
  | error err => exact h1
  | ok urlAndCA =>
    obtain ⟨serverURL, ca⟩ := urlAndCA
    simp only []
    cases (w.record Event.settingsGetServerURLAndCA).secretCache systemNamespace
        "tls-rancher-internal-ca" with
    | error err => exact h2
    | ok tlsSecret =>
      simp only []
      split
      · exact h3
      · split <;> rename_i heq <;> simp only [Prod.mk.injEq] at heq <;>
          obtain ⟨_, rfl⟩ := heq <;> exact h4

end Kubeconfig

namespace Import

theorem httpClientForCA_snd (cacert : String) : (httpClientForCA cacert).2 = none := by
  unfold httpClientForCA
  split <;> rfl

/-- The method `deploy` changes no store: it only appends reads, the fetch, the apply
and re-check requests to the log. -/
theorem deploy_frame (lib : Lib) (w : World) (cluster : Cluster)
    (secretNamespace secretName token : String) :
    Frame (fun e => !e.isClusterTokensCreate) w
      (deploy lib w cluster secretNamespace secretName token).2 := by
  have hG := Frame.frame_mono
    (Kubeconfig.GetServerURLAndCA_frame
      (w.record (Event.secretCacheGet secretNamespace secretName)))
    (q := fun e => !e.isClusterTokensCreate)
    (by intro e; cases e <;> simp [Event.isDeployStep, Event.isClusterTokensCreate])
  have h0 : Frame (fun e => !e.isClusterTokensCreate) w
      (w.record (Event.secretCacheGet secretNamespace secretName)) :=
    Frame.record_right _ (Frame.frame_refl _ _) rfl
  unfold deploy World.secretCacheGet World.enqueueAfter
  cases w.secretCache secretNamespace secretName with
  | error err =>
    simp only []
    split
    · exact Frame.record_right _ h0 rfl
    · exact h0
  | ok secret =>
    simp only []
    split
    · exact Frame.record_right _ h0 rfl
    · cases lib.RESTConfigFromKubeConfig (GoMap.get secret.Data "value") with
      | error err => exact h0
      | ok cfg =>
        simp only []
        rcases hg : Kubeconfig.GetServerURLAndCA
          (w.record (Event.secretCacheGet secretNamespace secretName)) with ⟨⟨url, ca, e⟩, w2⟩
        rw [hg] at hG
        have h2 : Frame (fun e => !e.isClusterTokensCreate) w w2 := Frame.frame_trans h0 hG
        have h3 := Frame.record_right
          (Event.httpGet (httpClientForCA ca).1 (url ++ "/v3/import/" ++ token ++ ".yaml"))
          h2 (by rfl)
        cases e with
        | some err => exact h2
        | none =>
          simp only []
          have he := httpClientForCA_snd ca
          generalize httpClientForCA ca = hc at h3 he ⊢
          obtain ⟨client, e⟩ := hc
          simp only [] at he
          subst he
          simp only [World.httpClientGet, World.applyObjectsCall]
          cases w2.httpGet client (url ++ "/v3/import/" ++ token ++ ".yaml") with
          | error err => exact h3
          | ok body =>
            simp only []
            cases lib.yamlToObjects body with
            | error err => exact h3
            | ok objs =>
              simp only []
              cases lib.applyNewForConfig cfg with
              | error err => exact h3
              | ok apply =>
                exact Frame.record_right (Event.applyObjects apply "cluster-agent-setup" objs)
                  h3 (by rfl)

/-- C5 (handshake gating in `deployAgent`), for every cluster, status and world.
(1) If the managed-cluster record is not found, it returns false with no error and the
world only gains the cache read and one re-check after 2 seconds: no token is created.
(2) If the record exists and the token list is empty, it returns false with the outcome
of one create request for a registration token of that managed cluster, followed by a
re-check; the store gains that one token when the request is accepted; nothing of
`deploy` runs. (3) If the first token's value is empty, it returns false with no error
and the world only gains the two reads and a re-check. (4) If the first token's value is
non-empty, the result is `true` paired with the outcome of `deploy`. (5) In every case
the log only grows; a step of `deploy` appears, or `true` is returned, only when the
record exists and the first token's value is non-empty; a create request appears, or
the token store changes, only when the record exists and the token list is empty. -/
theorem handshake_gating (lib : Lib) (w : World) (cluster : Cluster) (status : ClusterStatus) :
    (∀ err, w.mgmtClusterCache status.ClusterName = .error err → err.isNotFound = true →
      deployAgent lib w cluster status =
        ((false, none),
          w.appendLog [Event.mgmtClusterCacheGet status.ClusterName,
            Event.enqueueAfter cluster.Namespace cluster.Name 2])) ∧
    (w.mgmtClusterCache status.ClusterName = .ok () →
      w.clusterTokenCache status.ClusterName = .ok [] →
      (deployAgent lib w cluster status).1 =
          (false, w.clusterTokensCreateErr (importToken status.ClusterName)) ∧
        (deployAgent lib w cluster status).2.log =
          w.log ++ [Event.mgmtClusterCacheGet status.ClusterName,
            Event.clusterTokenCacheList status.ClusterName,
            Event.clusterTokensCreate (importToken status.ClusterName),
            Event.enqueueAfter cluster.Namespace cluster.Name 2] ∧
        (deployAgent lib w cluster status).2.clusterTokens =
          (if w.clusterTokensCreateErr (importToken status.ClusterName) = none then
            w.clusterTokens ++ [importToken status.ClusterName]
           else w.clusterTokens)) ∧
    (∀ first rest, w.mgmtClusterCache status.ClusterName = .ok () →
      w.clusterTokenCache status.ClusterName = .ok (first :: rest) →
      first.StatusToken = "" →
      deployAgent lib w cluster status =
        ((false, none),
          w.appendLog [Event.mgmtClusterCacheGet status.ClusterName,
            Event.clusterTokenCacheList status.ClusterName,
            Event.enqueueAfter cluster.Namespace cluster.Name 2])) ∧
    (∀ first rest importedConfig, w.mgmtClusterCache status.ClusterName = .ok () →
      w.clusterTokenCache status.ClusterName = .ok (first :: rest) →
      first.StatusToken ≠ "" →
      cluster.Spec.ImportedConfig = some importedConfig →
      deployAgent lib w cluster status =
        ((true,
          (deploy lib
            (w.appendLog [Event.mgmtClusterCacheGet status.ClusterName,
              Event.clusterTokenCacheList status.ClusterName])
            cluster cluster.Namespace importedConfig.KubeConfigSecretName
            first.StatusToken).1),
         (deploy lib
            (w.appendLog [Event.mgmtClusterCacheGet status.ClusterName,
              Event.clusterTokenCacheList status.ClusterName])
            cluster cluster.Namespace importedConfig.KubeConfigSecretName
            first.StatusToken).2)) ∧
    (∃ evs, (deployAgent lib w cluster status).2.log = w.log ++ evs ∧
      (((∃ e ∈ evs, e.isDeployStep = true) ∨ (deployAgent lib w cluster status).1.1 = true) →
        w.mgmtClusterCache status.ClusterName = .ok () ∧
          ∃ first rest, w.clusterTokenCache status.ClusterName = .ok (first :: rest) ∧
            first.StatusToken ≠ "") ∧
      (((∃ e ∈ evs, e.isClusterTokensCreate = true) ∨
          (deployAgent lib w cluster status).2.clusterTokens ≠ w.clusterTokens) →
        w.mgmtClusterCache status.ClusterName = .ok () ∧
          w.clusterTokenCache status.ClusterName = .ok [])) := by
  refine ⟨?_, ?_, ?_, ?_, ?_⟩
  · intro err h hnf
    simp [deployAgent, World.mgmtClusterCacheGet, h, IsNotFound, hnf,
      World.enqueueAfter, World.record, World.appendLog]
  · intro h1 h2
    simp only [deployAgent, World.mgmtClusterCacheGet, World.clusterTokenCacheList,
      World.clusterTokensCreate, World.enqueueAfter, World.record, h1, h2, importToken]
    cases w.clusterTokensCreateErr
      { GenerateName := "import-", Namespace := status.ClusterName,
        SpecClusterName := status.ClusterName, StatusToken := "" } <;> simp
  · intro first rest h1 h2 h3
    simp [deployAgent, World.mgmtClusterCacheGet, World.clusterTokenCacheList, h1, h2, h3,
      World.enqueueAfter, World.record, World.appendLog]
  · intro first rest importedConfig h1 h2 h3 h4
    simp [deployAgent, World.mgmtClusterCacheGet, World.clusterTokenCacheList, h1, h2, h3, h4,
      World.record, World.appendLog]
  · cases hm : w.mgmtClusterCache status.ClusterName with
    | error err =>
      by_cases hnf : err.isNotFound = true
      · refine ⟨[Event.mgmtClusterCacheGet status.ClusterName,
          Event.enqueueAfter cluster.Namespace cluster.Name 2], ?_, ?_, ?_⟩ <;>
          simp [deployAgent, World.mgmtClusterCacheGet, hm, IsNotFound, hnf,
            World.enqueueAfter, World.record, Event.isDeployStep, Event.isClusterTokensCreate]
      · refine ⟨[Event.mgmtClusterCacheGet status.ClusterName], ?_, ?_, ?_⟩ <;>
          simp [deployAgent, World.mgmtClusterCacheGet, hm, IsNotFound, hnf,
            World.enqueueAfter, World.record, Event.isDeployStep, Event.isClusterTokensCreate]
    | ok u =>
      cases hl : w.clusterTokenCache status.ClusterName with
      | error err =>
        refine ⟨[Event.mgmtClusterCacheGet status.ClusterName,
          Event.clusterTokenCacheList status.ClusterName], ?_, ?_, ?_⟩ <;>
          simp [deployAgent, World.mgmtClusterCacheGet, World.clusterTokenCacheList, hm, hl,
            World.record, Event.isDeployStep, Event.isClusterTokensCreate]
      | ok tokens =>
        cases tokens with
        | nil =>
          refine ⟨[Event.mgmtClusterCacheGet status.ClusterName,
            Event.clusterTokenCacheList status.ClusterName,
            Event.clusterTokensCreate (importToken status.ClusterName),
            Event.enqueueAfter cluster.Namespace cluster.Name 2], ?_, ?_, ?_⟩
          · simp only [deployAgent, World.mgmtClusterCacheGet, World.clusterTokenCacheList,
              World.clusterTokensCreate, World.enqueueAfter, World.record, hm, hl, importToken]
            cases w.clusterTokensCreateErr
              { GenerateName := "import-", Namespace := status.ClusterName,
                SpecClusterName := status.ClusterName, StatusToken := "" } <;> simp
          · simp [deployAgent, World.mgmtClusterCacheGet, World.clusterTokenCacheList, hm, hl,
              World.record, Event.isDeployStep, Event.isClusterTokensCreate]
          · simp
        | cons first rest =>
          by_cases ht : first.StatusToken = ""
          · refine ⟨[Event.mgmtClusterCacheGet status.ClusterName,
              Event.clusterTokenCacheList status.ClusterName,
              Event.enqueueAfter cluster.Namespace cluster.Name 2], ?_, ?_, ?_⟩ <;>
              simp [deployAgent, World.mgmtClusterCacheGet, World.clusterTokenCacheList, hm, hl,
                ht, World.enqueueAfter, World.record, Event.isDeployStep,
                Event.isClusterTokensCreate]
          · cases hi : cluster.Spec.ImportedConfig with
            | none =>
              refine ⟨[Event.mgmtClusterCacheGet status.ClusterName,
                Event.clusterTokenCacheList status.ClusterName], ?_, ?_, ?_⟩ <;>
                simp [deployAgent, World.mgmtClusterCacheGet, World.clusterTokenCacheList, hm,
                  hl, ht, hi, World.record, Event.isDeployStep, Event.isClusterTokensCreate]
            | some importedConfig =>
              obtain ⟨evs, hw, hp⟩ := deploy_frame lib
                (w.appendLog [Event.mgmtClusterCacheGet status.ClusterName,
                  Event.clusterTokenCacheList status.ClusterName])
                cluster cluster.Namespace importedConfig.KubeConfigSecretName first.StatusToken
              have hd : deployAgent lib w cluster status =
                  ((true, (deploy lib
                      (w.appendLog [Event.mgmtClusterCacheGet status.ClusterName,
                        Event.clusterTokenCacheList status.ClusterName])
                      cluster cluster.Namespace importedConfig.KubeConfigSecretName
                      first.StatusToken).1),
                    (deploy lib
                      (w.appendLog [Event.mgmtClusterCacheGet status.ClusterName,
                        Event.clusterTokenCacheList status.ClusterName])
                      cluster cluster.Namespace importedConfig.KubeConfigSecretName
                      first.StatusToken).2) := by
                simp [deployAgent, World.mgmtClusterCacheGet, World.clusterTokenCacheList, hm,
                  hl, ht, hi, World.record, World.appendLog]
              rw [hd, hw]
              refine ⟨[Event.mgmtClusterCacheGet status.ClusterName,
                Event.clusterTokenCacheList status.ClusterName] ++ evs, ?_, ?_, ?_⟩
              · simp [World.appendLog]
              · intro _
                exact ⟨rfl, first, rest, rfl, ht⟩
              · rintro (⟨e, he, hc⟩ | hc)
                · exfalso
                  simp only [List.cons_append, List.nil_append, List.mem_cons] at he
                  rcases he with rfl | rfl | he
                  · simp [Event.isClusterTokensCreate] at hc
                  · simp [Event.isClusterTokensCreate] at hc
                  · have := hp e he
                    simp [hc] at this
                · exact absurd rfl hc

/-- Witness of C5: the three stages of the handshake of `demo`. Without the record the
result is false and only the read and a re-check are logged; with the record and no
token, one registration token is created; with a token value, `true` is returned. -/
theorem handshake_gating_witness :
    deployAgent sampleLib sampleWorld importedDemo demoStatus =
        ((false, none),
          sampleWorld.appendLog [Event.mgmtClusterCacheGet "c-demo",
            Event.enqueueAfter "ns1" "demo" 2]) ∧
      (deployAgent sampleLib recordWorld importedDemo demoStatus).1 = (false, none) ∧
      (deployAgent sampleLib recordWorld importedDemo demoStatus).2.clusterTokens =
        [importToken "c-demo"] ∧
      (deployAgent sampleLib tokenWorld importedDemo demoStatus).1.1 = true :=
  ⟨(handshake_gating sampleLib sampleWorld importedDemo demoStatus).1
      (Error.notFound "c-demo") rfl rfl,
    ((handshake_gating sampleLib recordWorld importedDemo demoStatus).2.1 rfl rfl).1,
    ((handshake_gating sampleLib recordWorld importedDemo demoStatus).2.1 rfl rfl).2.2,
    congrArg (fun r => r.1.1)
      ((handshake_gating sampleLib tokenWorld importedDemo demoStatus).2.2.2.1
        _ _ _ rfl rfl (by decide) rfl)⟩

/-- The method `deployAgent` returns `true` only from its last line: the record exists,
the first token has a value, and the error is the one of `deploy`. -/
theorem deployAgent_true (lib : Lib) (w : World) (cluster : Cluster) (status : ClusterStatus)
    (h : (deployAgent lib w cluster status).1.1 = true) :
    ∃ first rest importedConfig,
      w.mgmtClusterCache status.ClusterName = .ok () ∧
      w.clusterTokenCache status.ClusterName = .ok (first :: rest) ∧
      first.StatusToken ≠ "" ∧
      cluster.Spec.ImportedConfig = some importedConfig ∧
      deployAgent lib w cluster status =
        ((true,
          (deploy lib
            (w.appendLog [Event.mgmtClusterCacheGet status.ClusterName,
              Event.clusterTokenCacheList status.ClusterName])
            cluster cluster.Namespace importedConfig.KubeConfigSecretName
            first.StatusToken).1),
         (deploy lib
            (w.appendLog [Event.mgmtClusterCacheGet status.ClusterName,
              Event.clusterTokenCacheList status.ClusterName])
            cluster cluster.Namespace importedConfig.KubeConfigSecretName
            first.StatusToken).2) := by
  cases hm : w.mgmtClusterCache status.ClusterName with
  | error err =>
    by_cases hnf : err.isNotFound = true <;>
      simp [deployAgent, World.mgmtClusterCacheGet, hm, IsNotFound, hnf] at h
  | ok u =>
    cases hl : w.clusterTokenCache status.ClusterName with
    | error err =>
      simp [deployAgent, World.mgmtClusterCacheGet, World.clusterTokenCacheList, hm, hl,
          World.record] at h
    | ok tokens =>
      cases tokens with
      | nil =>
        simp [deployAgent, World.mgmtClusterCacheGet, World.clusterTokenCacheList, hm, hl,
          World.record] at h
      | cons first rest =>
        by_cases ht : first.StatusToken = ""
        · simp [deployAgent, World.mgmtClusterCacheGet, World.clusterTokenCacheList, hm, hl,
            ht, World.record] at h
        · cases hi : cluster.Spec.ImportedConfig with
          | none =>
            simp [deployAgent, World.mgmtClusterCacheGet, World.clusterTokenCacheList, hm, hl,
              ht, hi, World.record] at h
          | some importedConfig =>
            refine ⟨first, rest, importedConfig, rfl, rfl, ht, rfl, ?_⟩
            simp [deployAgent, World.mgmtClusterCacheGet, World.clusterTokenCacheList, hm,
              hl, ht, hi, World.record, World.appendLog]

/-- C6 (deployed is terminal and only reached on success). Let `createCluster` return the
objects `objs`, the status `st`, the error `e0` and the world `w1`. (1) When it returns no
error and `st` already has `AgentDeployed = true` or an empty managed-cluster id,
`importCluster` returns `objs` and `st` as they are, with no error, and leaves the world
`w1`: `deployAgent` is not invoked, so no token is created, no re-check is scheduled and
nothing is fetched. (2) Whenever `deployAgent` returns an error, the skip signal included,
`importCluster` returns that error and `st` with `AgentDeployed` unchanged. (3) The
returned status has `AgentDeployed = true` only if `st` had it already or the record
exists, the first token has a value and `deploy` returned without error. (4) When
`deployAgent` returns no error, the returned status carries its flag. -/
theorem deployed_is_terminal (lib : Lib) (createCluster : CreateCluster) (w w1 : World)
    (cluster : Cluster) (status st : ClusterStatus) (objs : List String) (e0 : Option Error)
    (h : createCluster cluster status { ImportedConfig := some () } w = ((objs, st, e0), w1)) :
    (e0 = none → (st.AgentDeployed = true ∨ st.ClusterName = "") →
      importCluster lib createCluster w cluster status = ((objs, st, none), w1)) ∧
    (e0 = none → st.AgentDeployed = false → st.ClusterName ≠ "" →
      ∀ err, (deployAgent lib w1 cluster st).1.2 = some err →
        importCluster lib createCluster w cluster status =
          ((objs, st, some err), (deployAgent lib w1 cluster st).2)) ∧
    ((importCluster lib createCluster w cluster status).1.2.1.AgentDeployed = true →
      st.AgentDeployed = true ∨
        ∃ first rest importedConfig,
          w1.mgmtClusterCache st.ClusterName = .ok () ∧
          w1.clusterTokenCache st.ClusterName = .ok (first :: rest) ∧
          first.StatusToken ≠ "" ∧
          cluster.Spec.ImportedConfig = some importedConfig ∧
          (deploy lib
            (w1.appendLog [Event.mgmtClusterCacheGet st.ClusterName,
              Event.clusterTokenCacheList st.ClusterName])
            cluster cluster.Namespace importedConfig.KubeConfigSecretName
            first.StatusToken).1 = none) ∧
    (e0 = none → st.AgentDeployed = false → st.ClusterName ≠ "" →
      (deployAgent lib w1 cluster st).1.2 = none →
        importCluster lib createCluster w cluster status =
          ((objs, { st with AgentDeployed := (deployAgent lib w1 cluster st).1.1 }, none),
            (deployAgent lib w1 cluster st).2)) := by
  refine ⟨?_, ?_, ?_, ?_⟩
  · rintro rfl hskip
    rcases hskip with hs | hs <;> simp [importCluster, h, hs]
  · rintro rfl hd hn err herr
    rcases hda : deployAgent lib w1 cluster st with ⟨⟨ok, e⟩, w2⟩
    rw [hda] at herr
    simp only [] at herr
    subst herr
    simp [importCluster, h, hd, hn, hda]
  · intro hflag
    by_cases hd : st.AgentDeployed = true
    · exact Or.inl hd
    · right
      simp only [Bool.not_eq_true] at hd
      cases e0 with
      | some err => simp [importCluster, h, hd] at hflag
      | none =>
        by_cases hn : st.ClusterName = ""
        · simp [importCluster, h, hd, hn] at hflag
        · rcases hda : deployAgent lib w1 cluster st with ⟨⟨ok, e⟩, w2⟩
          cases e with
          | some err => simp [importCluster, h, hd, hn, hda] at hflag
          | none =>
            simp [importCluster, h, hd, hn, hda] at hflag
            subst hflag
            obtain ⟨first, rest, ic, h1, h2, h3, h4, h5⟩ :=
              deployAgent_true lib w1 cluster st (by rw [hda])
            refine ⟨first, rest, ic, h1, h2, h3, h4, ?_⟩
            rw [hda] at h5
            simp only [Prod.mk.injEq, true_and] at h5
            exact h5.1.symm
  · rintro rfl hd hn herr
    rcases hda : deployAgent lib w1 cluster st with ⟨⟨ok, e⟩, w2⟩
    rw [hda] at herr
    simp only [] at herr
    subst herr
    simp [importCluster, h, hd, hn, hda]

/-- Witness of C6: with `AgentDeployed` already set nothing happens; with the record, a
token value and the secrets in place the flag is set. -/
theorem deployed_is_terminal_witness :
    importCluster sampleLib sampleCreateCluster tokenWorld importedDemo
        { demoStatus with AgentDeployed := true } =
      (([], { demoStatus with AgentDeployed := true }, none), tokenWorld) ∧
    (importCluster sampleLib sampleCreateCluster readyWorld importedDemo
        demoStatus).1.2.1.AgentDeployed = true := by
  refine ⟨(deployed_is_terminal sampleLib sampleCreateCluster tokenWorld tokenWorld importedDemo
    { demoStatus with AgentDeployed := true } _ [] none rfl).1 rfl (Or.inl rfl), ?_⟩
  have h := (deployed_is_terminal sampleLib sampleCreateCluster readyWorld readyWorld
    importedDemo demoStatus _ [] none rfl).2.2.2 rfl rfl (by decide) rfl
  rw [h]
  rfl

end Import

/-! ## The world: steps of the token and user calls -/

theorem Steps.steps_refl (p : Event → Bool) (w : World) : Steps p w w := ⟨[], by simp, by simp⟩

theorem Steps.steps_trans {p : Event → Bool} {w1 w2 w3 : World} (h12 : Steps p w1 w2)
    (h23 : Steps p w2 w3) : Steps p w1 w3 := by
  obtain ⟨a, ha, hpa⟩ := h12
  obtain ⟨b, hb, hpb⟩ := h23
  refine ⟨a ++ b, by rw [hb, ha, List.append_assoc], ?_⟩
  intro e he
  rcases List.mem_append.mp he with h | h
  · exact hpa e h
  · exact hpb e h

theorem Steps.steps_mono {p q : Event → Bool} {w w2 : World} (h : Steps p w w2)
    (hpq : ∀ e, p e = true → q e = true) : Steps q w w2 := by
  obtain ⟨evs, hw, hp⟩ := h
  exact ⟨evs, hw, fun e he => hpq e (hp e he)⟩

theorem Steps.one {p : Event → Bool} {w w2 : World} (e : Event) (h : w2.log = w.log ++ [e])
    (he : p e = true) : Steps p w w2 :=
  ⟨[e], h, by simpa using he⟩

theorem World.tokensGet_log (w : World) (name : String) :
    (w.tokensGet name).2.log = w.log ++ [Event.tokensGet name] := by
  unfold World.tokensGet World.record
  simp only []
  cases w.tokensGetErr name with
  | some err => rfl
  | none =>
    simp only []
    cases w.tokens.find? (fun t => t.Name == name) <;> rfl

theorem World.tokensDelete_log (w : World) (name : String) :
    (w.tokensDelete name).2.log = w.log ++ [Event.tokensDelete name] := by
  unfold World.tokensDelete World.record
  simp only []
  cases w.tokensDeleteErr name with
  | some err => rfl
  | none =>
    simp only []
    split <;> rfl

theorem World.tokensCreate_log (w : World) (token : Token) :
    (w.tokensCreate token).2.log = w.log ++ [Event.tokensCreate token] := by
  unfold World.tokensCreate World.record
  simp only []
  cases w.tokensCreateErr token with
  | some err => rfl
  | none =>
    simp only []
    split <;> rfl

theorem World.usersCreate_log (w : World) (user : User) :
    (w.usersCreate user).2.log = w.log ++ [Event.usersCreate user] := by
  unfold World.usersCreate World.record
  simp only []
  cases w.usersCreateErr user with
  | some err => rfl
  | none =>
    simp only []
    split <;> rfl

theorem World.randRead_log (w : World) (n : Nat) :
    (w.randRead n).2.log = w.log ++ [Event.randRead] := by
  unfold World.randRead World.record
  simp only []
  cases w.randReadErr w.draws <;> rfl

namespace Kubeconfig

/-- The first part of `createUserToken` logs the lookup, and the deletion when the
lookup succeeds. -/
theorem revokeToken_log (w : World) (userName : String) :
    (revokeToken w userName).2.log = w.log ++ [Event.tokensGet userName] ∨
      (revokeToken w userName).2.log =
        w.log ++ [Event.tokensGet userName, Event.tokensDelete userName] := by
  unfold revokeToken
  have hg := World.tokensGet_log w userName
  rcases hget : w.tokensGet userName with ⟨r, w1⟩
  rw [hget] at hg
  simp only [] at hg
  cases r with
  | error err => exact Or.inl hg
  | ok t =>
    right
    simp only []
    rw [World.tokensDelete_log, hg]
    simp

theorem createSHA256Hash_log (lib : Lib) (w : World) (secretKey : String) :
    (createSHA256Hash lib w secretKey).2.log = w.log ++ [Event.randRead] := by
  unfold createSHA256Hash
  have hr := World.randRead_log w 8
  rcases hread : w.randRead 8 with ⟨r, w1⟩
  rw [hread] at hr
  cases r <;> exact hr

/-- The issuing part of `createUserToken` only draws randomness, reads the hashing
setting and creates a token. -/
theorem issueToken_steps (lib : Lib) (w : World) (userName : String) :
    Steps Event.isIssueStep w (issueToken lib w userName).2 := by
  unfold issueToken
  have h1 : Steps Event.isIssueStep w (w.randomtokenGenerate).2 :=
    Steps.one Event.randomtokenGenerate rfl rfl
  rcases hgen : w.randomtokenGenerate with ⟨r, w1⟩
  rw [hgen] at h1
  cases r with
  | error err => exact h1
  | ok tokenValue =>
    simp only []
    have h2 : Steps Event.isIssueStep w (w1.settingsBoolGet "token-hashing").2 :=
      Steps.steps_trans h1 (Steps.one (Event.settingsBool "token-hashing") rfl rfl)
    rcases hset : w1.settingsBoolGet "token-hashing" with ⟨r2, w2⟩
    rw [hset] at h2
    cases r2 with
    | error err => exact h2
    | ok ok =>
      simp only []
      cases ok with
      | false =>
        simp only [Bool.false_eq_true, if_false]
        exact Steps.steps_trans h2 (Steps.one _ (World.tokensCreate_log w2 _) rfl)
      | true =>
        simp only [if_true]
        have h3 : Steps Event.isIssueStep w (createSHA256Hash lib w2 tokenValue).2 :=
          Steps.steps_trans h2 (Steps.one _ (createSHA256Hash_log lib w2 tokenValue) rfl)
        rcases hhash : createSHA256Hash lib w2 tokenValue with ⟨⟨tokenHash, e⟩, w3⟩
        rw [hhash] at h3
        cases e with
        | some err => exact h3
        | none =>
          simp only []
          exact Steps.steps_trans h3 (Steps.one _ (World.tokensCreate_log w3 _) rfl)

theorem revokeToken_steps (w : World) (userName : String) :
    Steps Event.isMinting w (revokeToken w userName).2 := by
  rcases revokeToken_log w userName with h | h
  · exact ⟨_, h, by simp [Event.isMinting]⟩
  · exact ⟨_, h, by simp [Event.isMinting]⟩

theorem createUserToken_steps (lib : Lib) (w : World) (userName : String) :
    Steps Event.isMinting w (createUserToken lib w userName).2 := by
  unfold createUserToken
  have h1 := revokeToken_steps w userName
  rcases hrev : revokeToken w userName with ⟨err, w1⟩
  rw [hrev] at h1
  simp only []
  split
  · exact h1
  · exact Steps.steps_trans h1 (Steps.steps_mono (issueToken_steps lib w1 userName)
      (by intro e; cases e <;> simp [Event.isIssueStep, Event.isMinting]))

theorem EnsureUser_steps (lib : Lib) (w : World) (clusterNamespace clusterName : String) :
    Steps Event.isMinting w (EnsureUser lib w clusterNamespace clusterName).2 := by
  unfold EnsureUser createUser World.userCacheGet
  simp only []
  have h1 : Steps Event.isMinting w
      (w.record (Event.userCacheGet
        (getUserNameForPrincipal lib (getPrincipalID clusterNamespace clusterName)))) :=
    Steps.one _ rfl rfl
  cases w.userCache (getUserNameForPrincipal lib (getPrincipalID clusterNamespace clusterName)) with
  | error err =>
    simp only []
    split
    · exact Steps.steps_trans h1 (Steps.one _ (World.usersCreate_log _ _) rfl)
    · exact h1
  | ok user => exact h1

/-- A secret read yields no token, or fails otherwise, or yields a non-empty token. -/
theorem noToken_cases (r : Except Error Secret) :
    noToken r ∨ (∃ err, r = .error err ∧ err.isNotFound = false) ∨
      ∃ secret token, r = .ok secret ∧ GoMap.get secret.Data "token" = some token ∧
        token ≠ "" := by
  cases r with
  | error err =>
    by_cases h : err.isNotFound = true
    · exact Or.inl (Or.inl ⟨err, rfl, h⟩)
    · exact Or.inr (Or.inl ⟨err, rfl, by simpa using h⟩)
  | ok secret =>
    cases hg : GoMap.get secret.Data "token" with
    | none => exact Or.inl (Or.inr ⟨secret, rfl, by simp [hg]⟩)
    | some token =>
      by_cases ht : token = ""
      · exact Or.inl (Or.inr ⟨secret, rfl, by simp [hg, ht]⟩)
      · exact Or.inr (Or.inr ⟨secret, token, rfl, hg, ht⟩)

/-- C7 (three-tier lookup of `GetToken`), for every namespace, cluster and world, with
`n` the kubeconfig secret name of the cluster. (1) A non-empty token in the cached secret
is returned and the world only gains the cached read. (2) An error of the cached read
other than not-found is returned and the world only gains the cached read. (3) When the
cached read yields no token, a non-empty token in the uncached secret is returned and the
world only gains the two reads. (4) When the cached read yields no token, an error of the
uncached read other than not-found is returned and the world only gains the two reads.
(5) When both reads yield no token, the result is that of `EnsureUser` followed, when it
succeeds, by `createUserToken`. (6) In every case the log only grows, and a user or token
call appears in it, or the user or token store changes, only when both reads yield no
token without error. -/
theorem three_tier_lookup (lib : Lib) (w : World) (clusterNamespace clusterName : String) :
    (∀ secret token,
      w.secretCache clusterNamespace (GetKubeConfigSecretName clusterName) = .ok secret →
      GoMap.get secret.Data "token" = some token → token ≠ "" →
      GetToken lib w clusterNamespace clusterName =
        ((token, none),
          w.appendLog [Event.secretCacheGet clusterNamespace
            (GetKubeConfigSecretName clusterName)])) ∧
    (∀ err,
      w.secretCache clusterNamespace (GetKubeConfigSecretName clusterName) = .error err →
      err.isNotFound = false →
      GetToken lib w clusterNamespace clusterName =
        (("", some err),
          w.appendLog [Event.secretCacheGet clusterNamespace
            (GetKubeConfigSecretName clusterName)])) ∧
    (noToken (w.secretCache clusterNamespace (GetKubeConfigSecretName clusterName)) →
      ∀ secret token,
        w.secrets clusterNamespace (GetKubeConfigSecretName clusterName) = .ok secret →
        GoMap.get secret.Data "token" = some token → token ≠ "" →
        GetToken lib w clusterNamespace clusterName =
          ((token, none),
            w.appendLog [Event.secretCacheGet clusterNamespace
                (GetKubeConfigSecretName clusterName),
              Event.secretsGet clusterNamespace (GetKubeConfigSecretName clusterName)])) ∧
    (noToken (w.secretCache clusterNamespace (GetKubeConfigSecretName clusterName)) →
      ∀ err,
        w.secrets clusterNamespace (GetKubeConfigSecretName clusterName) = .error err →
        err.isNotFound = false →
        GetToken lib w clusterNamespace clusterName =
          (("", some err),
            w.appendLog [Event.secretCacheGet clusterNamespace
                (GetKubeConfigSecretName clusterName),
              Event.secretsGet clusterNamespace (GetKubeConfigSecretName clusterName)])) ∧
    (noToken (w.secretCache clusterNamespace (GetKubeConfigSecretName clusterName)) →
      noToken (w.secrets clusterNamespace (GetKubeConfigSecretName clusterName)) →
      GetToken lib w clusterNamespace clusterName =
        (match EnsureUser lib
            (w.appendLog [Event.secretCacheGet clusterNamespace
                (GetKubeConfigSecretName clusterName),
              Event.secretsGet clusterNamespace (GetKubeConfigSecretName clusterName)])
            clusterNamespace clusterName with
         | ((_, some err), w2) => (("", some err), w2)
         | ((userName, none), w2) => createUserToken lib w2 userName)) ∧
    (∃ evs, (GetToken lib w clusterNamespace clusterName).2.log = w.log ++ evs ∧
      (((∃ e ∈ evs, e.isMinting = true) ∨
          (GetToken lib w clusterNamespace clusterName).2.tokens ≠ w.tokens ∨
          (GetToken lib w clusterNamespace clusterName).2.users ≠ w.users) →
        noToken (w.secretCache clusterNamespace (GetKubeConfigSecretName clusterName)) ∧
          noToken (w.secrets clusterNamespace (GetKubeConfigSecretName clusterName)))) := by
  have p1 : ∀ secret token,
      w.secretCache clusterNamespace (GetKubeConfigSecretName clusterName) = .ok secret →
      GoMap.get secret.Data "token" = some token → token ≠ "" →
      GetToken lib w clusterNamespace clusterName =
        ((token, none),
          w.appendLog [Event.secretCacheGet clusterNamespace
            (GetKubeConfigSecretName clusterName)]) := by
    intro secret token hs hg hne
    simp [GetToken, getSavedToken, World.secretCacheGet, hs, hg, hne, World.record,
      World.appendLog]
  have p2 : ∀ err,
      w.secretCache clusterNamespace (GetKubeConfigSecretName clusterName) = .error err →
      err.isNotFound = false →
      GetToken lib w clusterNamespace clusterName =
        (("", some err),
          w.appendLog [Event.secretCacheGet clusterNamespace
            (GetKubeConfigSecretName clusterName)]) := by
    intro err hs hnf
    simp [GetToken, getSavedToken, World.secretCacheGet, hs, IsNotFound, hnf, World.record,
      World.appendLog]
  have hcache : noToken (w.secretCache clusterNamespace (GetKubeConfigSecretName clusterName)) →
      getSavedToken w clusterNamespace (GetKubeConfigSecretName clusterName) =
        (("", none), w.appendLog [Event.secretCacheGet clusterNamespace
          (GetKubeConfigSecretName clusterName)]) := by
    rintro (⟨err, hs, hnf⟩ | ⟨secret, hs, hg⟩)
    · simp [getSavedToken, World.secretCacheGet, hs, IsNotFound, hnf, World.record,
        World.appendLog]
    · simp [getSavedToken, World.secretCacheGet, hs, hg, World.record, World.appendLog]
  have p3 : noToken (w.secretCache clusterNamespace (GetKubeConfigSecretName clusterName)) →
      ∀ secret token,
        w.secrets clusterNamespace (GetKubeConfigSecretName clusterName) = .ok secret →
        GoMap.get secret.Data "token" = some token → token ≠ "" →
        GetToken lib w clusterNamespace clusterName =
          ((token, none),
            w.appendLog [Event.secretCacheGet clusterNamespace
                (GetKubeConfigSecretName clusterName),
              Event.secretsGet clusterNamespace (GetKubeConfigSecretName clusterName)]) := by
    intro hc secret token hs hg hne
    simp [GetToken, hcache hc, getSavedTokenNoCache, World.secretsGet, hs, hg, hne,
      World.record, World.appendLog]
  have p4 : noToken (w.secretCache clusterNamespace (GetKubeConfigSecretName clusterName)) →
      ∀ err,
        w.secrets clusterNamespace (GetKubeConfigSecretName clusterName) = .error err →
        err.isNotFound = false →
        GetToken lib w clusterNamespace clusterName =
          (("", some err),
            w.appendLog [Event.secretCacheGet clusterNamespace
                (GetKubeConfigSecretName clusterName),
              Event.secretsGet clusterNamespace (GetKubeConfigSecretName clusterName)]) := by
    intro hc err hs hnf
    simp [GetToken, hcache hc, getSavedTokenNoCache, World.secretsGet, hs, IsNotFound, hnf,
      World.record, World.appendLog]
  have p5 : noToken (w.secretCache clusterNamespace (GetKubeConfigSecretName clusterName)) →
      noToken (w.secrets clusterNamespace (GetKubeConfigSecretName clusterName)) →
      GetToken lib w clusterNamespace clusterName =
        (match EnsureUser lib
            (w.appendLog [Event.secretCacheGet clusterNamespace
                (GetKubeConfigSecretName clusterName),
              Event.secretsGet clusterNamespace (GetKubeConfigSecretName clusterName)])
            clusterNamespace clusterName with
         | ((_, some err), w2) => (("", some err), w2)
         | ((userName, none), w2) => createUserToken lib w2 userName) := by
    intro hc hu
    rcases hu with ⟨err, hs, hnf⟩ | ⟨secret, hs, hg⟩
    · simp [GetToken, hcache hc, getSavedTokenNoCache, World.secretsGet, hs, IsNotFound, hnf,
        World.record, World.appendLog]
    · simp [GetToken, hcache hc, getSavedTokenNoCache, World.secretsGet, hs, hg,
        World.record, World.appendLog]
  refine ⟨p1, p2, p3, p4, p5, ?_⟩
  rcases noToken_cases (w.secretCache clusterNamespace (GetKubeConfigSecretName clusterName))
    with hc | ⟨err, hs, hnf⟩ | ⟨secret, token, hs, hg, hne⟩
  · rcases noToken_cases (w.secrets clusterNamespace (GetKubeConfigSecretName clusterName))
      with hu | ⟨err, hs, hnf⟩ | ⟨secret, token, hs, hg, hne⟩
    · rw [p5 hc hu]
      have hE := EnsureUser_steps lib
        (w.appendLog [Event.secretCacheGet clusterNamespace
            (GetKubeConfigSecretName clusterName),
          Event.secretsGet clusterNamespace (GetKubeConfigSecretName clusterName)])
        clusterNamespace clusterName
      rcases hens : EnsureUser lib
        (w.appendLog [Event.secretCacheGet clusterNamespace
            (GetKubeConfigSecretName clusterName),
          Event.secretsGet clusterNamespace (GetKubeConfigSecretName clusterName)])
        clusterNamespace clusterName with ⟨⟨userName, e⟩, w2⟩
      rw [hens] at hE
      cases e with
      | some err =>
        obtain ⟨evs, hlog, _⟩ := hE
        refine ⟨[Event.secretCacheGet clusterNamespace (GetKubeConfigSecretName clusterName),
          Event.secretsGet clusterNamespace (GetKubeConfigSecretName clusterName)] ++ evs,
          ?_, fun _ => ⟨hc, hu⟩⟩
        simp only [] at hlog ⊢
        rw [hlog, World.appendLog_log, List.append_assoc]
      | none =>
        obtain ⟨evs, hlog, _⟩ := Steps.steps_trans hE (createUserToken_steps lib w2 userName)
        refine ⟨[Event.secretCacheGet clusterNamespace (GetKubeConfigSecretName clusterName),
          Event.secretsGet clusterNamespace (GetKubeConfigSecretName clusterName)] ++ evs,
          ?_, fun _ => ⟨hc, hu⟩⟩
        simp only [] at hlog ⊢
        rw [hlog, World.appendLog_log, List.append_assoc]
    · rw [p4 hc err hs hnf]
      exact ⟨_, rfl, by simp [Event.isMinting, World.appendLog]⟩
    · rw [p3 hc secret token hs hg hne]
      exact ⟨_, rfl, by simp [Event.isMinting, World.appendLog]⟩
  · rw [p2 err hs hnf]
    exact ⟨_, rfl, by simp [Event.isMinting, World.appendLog]⟩
  · rw [p1 secret token hs hg hne]
    exact ⟨_, rfl, by simp [Event.isMinting, World.appendLog]⟩

/-- Witness of C7: a saved token in the cached secret is returned after the cached read
alone; with no secret at all a user and a token are created. -/
theorem three_tier_lookup_witness :
    GetToken sampleLib readyWorld "ns1" "demo" =
        (("saved-token", none),
          readyWorld.appendLog [Event.secretCacheGet "ns1" "demo-kubeconfig"]) ∧
      (GetToken sampleLib sampleWorld "ns1" "demo").2.tokens.length = 1 ∧
      (GetToken sampleLib sampleWorld "ns1" "demo").2.users.length = 1 := by
  refine ⟨(three_tier_lookup sampleLib readyWorld "ns1" "demo").1 _ "saved-token" rfl rfl
    (by decide), ?_, ?_⟩
  · rw [(three_tier_lookup sampleLib sampleWorld "ns1" "demo").2.2.2.2.1
      (Or.inl ⟨_, rfl, rfl⟩) (Or.inl ⟨_, rfl, rfl⟩)]
    rfl
  · rw [(three_tier_lookup sampleLib sampleWorld "ns1" "demo").2.2.2.2.1
      (Or.inl ⟨_, rfl, rfl⟩) (Or.inl ⟨_, rfl, rfl⟩)]
    rfl

/-- An accepted `tokens.Create` found no token of that name and appended the new one. -/
theorem tokensCreate_ok (w : World) (token : Token) (h : (w.tokensCreate token).1 = none) :
    (∀ t ∈ w.tokens, t.Name ≠ token.Name) ∧
      (w.tokensCreate token).2.tokens = w.tokens ++ [token] ∧
      (w.tokensCreate token).2.draws = w.draws ∧
      (w.tokensCreate token).2.randomToken = w.randomToken ∧
      (w.tokensCreate token).2.settingsBool = w.settingsBool := by
  unfold World.tokensCreate World.record at h ⊢
  simp only [] at h ⊢
  cases hf : w.tokensCreateErr token with
  | some err => rw [hf] at h; simp at h
  | none =>
    rw [hf] at h
    simp only [] at h ⊢
    by_cases hany : w.tokens.any (fun t => t.Name == token.Name) = true
    · simp [hany] at h
    · refine ⟨?_, ?_⟩
      · intro t ht hname
        apply hany
        rw [List.any_eq_true]
        exact ⟨t, ht, by simp [hname]⟩
      · simp [hany]

/-- What the first part of `createUserToken` leaves: the generator untouched, and, when
it reports no error, no token of that name. -/
theorem revokeToken_spec (w : World) (userName : String) :
    (revokeToken w userName).2.draws = w.draws ∧
      (revokeToken w userName).2.randomToken = w.randomToken ∧
      (revokeToken w userName).2.settingsBool = w.settingsBool ∧
      ((revokeToken w userName).1 = none →
        (revokeToken w userName).2.tokens = w.tokens.filter (fun t => t.Name != userName)) ∧
      ((revokeToken w userName).1 ≠ none → (revokeToken w userName).2.tokens = w.tokens) := by
  unfold revokeToken World.tokensGet World.tokensDelete World.record
  simp only []
  cases w.tokensGetErr userName with
  | some err => simp
  | none =>
    simp only []
    cases w.tokens.find? (fun t => t.Name == userName) with
    | none => simp
    | some t =>
      simp only []
      cases w.tokensDeleteErr userName with
      | some err => simp
      | none =>
        simp only []
        split <;> simp

/-- A successful issuing part drew the value `v` at the current draw, returned the pair
`userName:v`, and appended one token named `userName` to a store that held none of that
name; the stored value is `v` unless the hashing setting is on. -/
theorem issueToken_ok (lib : Lib) (w : World) (userName : String)
    (h : (issueToken lib w userName).1.2 = none) :
    ∃ v token,
      w.randomToken w.draws = .ok v ∧
      (issueToken lib w userName).1.1 = userName ++ ":" ++ v ∧
      token.Name = userName ∧
      (∀ t ∈ w.tokens, t.Name ≠ userName) ∧
      (issueToken lib w userName).2.tokens = w.tokens ++ [token] ∧
      (issueToken lib w userName).2.randomToken = w.randomToken ∧
      (issueToken lib w userName).2.settingsBool = w.settingsBool ∧
      (issueToken lib w userName).2.draws > w.draws ∧
      (w.settingsBool "token-hashing" = .ok false → token.Token = v) := by
  unfold issueToken World.randomtokenGenerate World.settingsBoolGet at h ⊢
  simp only [] at h ⊢
  cases hv : w.randomToken w.draws with
  | error err => rw [hv] at h; simp at h
  | ok v =>
    rw [hv] at h
    simp only [World.record] at h ⊢
    cases hb : w.settingsBool "token-hashing" with
    | error err => rw [hb] at h; simp at h
    | ok ok =>
      rw [hb] at h
      simp only [] at h ⊢
      cases ok with
      | false =>
        simp only [Bool.false_eq_true, if_false] at h ⊢
        obtain ⟨h1, h2, h3, h4, h5⟩ := tokensCreate_ok _ _ h
        exact ⟨v, newToken userName v, rfl, rfl, rfl, h1, h2, h4, h5, by rw [h3]; simp,
          fun _ => rfl⟩
      | true =>
        simp only [if_true] at h ⊢
        unfold createSHA256Hash World.randRead at h ⊢
        simp only [World.record] at h ⊢
        cases hr : w.randReadErr (w.draws + 1) with
        | some err => rw [hr] at h; simp at h
        | none =>
          rw [hr] at h
          simp only [] at h ⊢
          obtain ⟨h1, h2, h3, h4, h5⟩ := tokensCreate_ok _ _ h
          exact ⟨v, _, rfl, rfl, rfl, h1, h2, h4, h5,
            by rw [h3]; show w.draws + 1 + 1 > w.draws; omega, fun hf => by simp at hf⟩

theorem pair_value_injective (userName v1 v2 : String)
    (h : userName ++ ":" ++ v1 = userName ++ ":" ++ v2) : v1 = v2 := by
  have hd := congrArg String.data h
  simp only [String.data_append, List.append_assoc] at hd
  have := List.append_cancel_left (List.append_cancel_left hd)
  exact String.ext this

/-- The method `createUserToken` goes on to issue exactly when the first part reports no
error or a not-found. -/
theorem createUserToken_eq (lib : Lib) (w : World) (userName : String) :
    (∀ err, (revokeToken w userName).1 = some err → err.isNotFound = false →
      createUserToken lib w userName = (("", some err), (revokeToken w userName).2)) ∧
    (((revokeToken w userName).1 = none ∨
        ∃ err, (revokeToken w userName).1 = some err ∧ err.isNotFound = true) →
      createUserToken lib w userName = issueToken lib (revokeToken w userName).2 userName) := by
  unfold createUserToken
  rcases revokeToken w userName with ⟨e, w1⟩
  constructor
  · intro err he hnf
    simp only [] at he
    subst he
    simp [IsNotFound, hnf]
  · rintro (he | ⟨err, he, hnf⟩)
    · simp only [] at he
      subst he
      simp
    · simp only [] at he
      subst he
      simp [IsNotFound, hnf]

/-- A successful `createUserToken` is a successful issuing part after the first part. -/
theorem createUserToken_ok (lib : Lib) (w : World) (userName : String)
    (h : (createUserToken lib w userName).1.2 = none) :
    createUserToken lib w userName = issueToken lib (revokeToken w userName).2 userName := by
  cases he : (revokeToken w userName).1 with
  | none => exact (createUserToken_eq lib w userName).2 (Or.inl he)
  | some err =>
    by_cases hnf : err.isNotFound = true
    · exact (createUserToken_eq lib w userName).2 (Or.inr ⟨err, he, hnf⟩)
    · simp only [Bool.not_eq_true] at hnf
      rw [(createUserToken_eq lib w userName).1 err he hnf] at h
      simp at h

/-- A successful `createUserToken` leaves the tokens stored under another name as they
are. -/
theorem createUserToken_others (lib : Lib) (w : World) (userName : String)
    (h : (createUserToken lib w userName).1.2 = none) :
    (createUserToken lib w userName).2.tokens.filter (fun t => t.Name != userName) =
      w.tokens.filter (fun t => t.Name != userName) := by
  have e := createUserToken_ok lib w userName h
  rw [e] at h ⊢
  obtain ⟨v, token, _, _, hn, _, htok, _⟩ := issueToken_ok lib _ userName h
  obtain ⟨_, _, _, hnone, hkeep⟩ := revokeToken_spec w userName
  rw [htok, List.filter_append]
  have hlast : List.filter (fun t => t.Name != userName) [token] = [] := by simp [hn]
  rw [hlast, List.append_nil]
  cases he : (revokeToken w userName).1 with
  | none =>
    rw [hnone he, List.filter_filter]
    simp
  | some err => rw [hkeep (by simp [he])]

/-- Counterexample to C8 as stated: in a world that holds a token of the user `u-demo`
under the name `other-login` and whose generator draws the value `same` every time, two
issuances in a row for `u-demo` both succeed, the second returns the value the first
returned, and the store then holds two tokens of that user: the one under the other
name, which neither call deleted, and the one the second call created. -/
theorem one_live_token_counterexample :
    (createUserToken sampleLib strayWorld "u-demo").1 = ("u-demo:same", none) ∧
    (createUserToken sampleLib (createUserToken sampleLib strayWorld "u-demo").2
      "u-demo").1 = ("u-demo:same", none) ∧
    ((createUserToken sampleLib (createUserToken sampleLib strayWorld "u-demo").2
      "u-demo").2.tokens.map (fun t => (t.Name, t.UserID, t.Token))) =
      [("other-login", "u-demo", "old"), ("u-demo", "u-demo", "same")] ∧
    ((createUserToken sampleLib (createUserToken sampleLib strayWorld "u-demo").2
      "u-demo").2.tokens.filter (fun t => t.UserID == "u-demo")).length = 2 := by
  refine ⟨rfl, rfl, rfl, rfl⟩

/-- C8, amended (token issuance replaces the token named after the user), for every user
name and world. (1) The first part of `createUserToken` logs the lookup of the token
named after the user, and its deletion when the lookup succeeds; when it reports no
error, no token of that name is left in the store. (2) When it reports an error other
than not-found, `createUserToken` returns that error, the token store is unchanged and
nothing is created. (3) When it reports no error or a not-found, `createUserToken` goes
on to issue, and every call of the issuing part comes after the lookup and deletion in
the log. (4) When a token of that name exists and the store answers, it is deleted before
the issuing part runs. (5) After two successful calls in a row the store holds exactly
one token of that name, created by the second call, and the tokens stored under any
other name are those it held before the first call; each call returns `userName:value`
for the value drawn in it, so the second returned value differs from the first exactly
when the generator's two draws differ, and with hashing off the stored value is the
second draw. -/
theorem issuance_invalidates_prior (lib : Lib) (w : World) (userName : String) :
    (((revokeToken w userName).2.log = w.log ++ [Event.tokensGet userName] ∨
        (revokeToken w userName).2.log =
          w.log ++ [Event.tokensGet userName, Event.tokensDelete userName]) ∧
      ((revokeToken w userName).1 = none →
        (revokeToken w userName).2.tokens = w.tokens.filter (fun t => t.Name != userName))) ∧
    (∀ err, (revokeToken w userName).1 = some err → err.isNotFound = false →
      createUserToken lib w userName = (("", some err), (revokeToken w userName).2) ∧
        (revokeToken w userName).2.tokens = w.tokens) ∧
    (((revokeToken w userName).1 = none ∨
        ∃ err, (revokeToken w userName).1 = some err ∧ err.isNotFound = true) →
      createUserToken lib w userName = issueToken lib (revokeToken w userName).2 userName ∧
        Steps Event.isIssueStep (revokeToken w userName).2
          (createUserToken lib w userName).2) ∧
    (w.tokensGetErr userName = none → w.tokensDeleteErr userName = none →
      (∃ t ∈ w.tokens, t.Name = userName) →
      revokeToken w userName =
        (none, { w with
          tokens := w.tokens.filter (fun t => t.Name != userName),
          log := w.log ++ [Event.tokensGet userName, Event.tokensDelete userName] })) ∧
    ((createUserToken lib w userName).1.2 = none →
      (createUserToken lib (createUserToken lib w userName).2 userName).1.2 = none →
      ∃ v1 v2 token,
        w.randomToken w.draws = .ok v1 ∧
        w.randomToken (createUserToken lib w userName).2.draws = .ok v2 ∧
        (createUserToken lib w userName).1.1 = userName ++ ":" ++ v1 ∧
        (createUserToken lib (createUserToken lib w userName).2 userName).1.1 =
          userName ++ ":" ++ v2 ∧
        (createUserToken lib (createUserToken lib w userName).2 userName).2.tokens.filter
          (fun t => t.Name == userName) = [token] ∧
        (w.settingsBool "token-hashing" = .ok false → token.Token = v2) ∧
        (createUserToken lib (createUserToken lib w userName).2 userName).2.tokens.filter
          (fun t => t.Name != userName) = w.tokens.filter (fun t => t.Name != userName) ∧
        ((createUserToken lib (createUserToken lib w userName).2 userName).1.1 ≠
            (createUserToken lib w userName).1.1 ↔ v1 ≠ v2)) := by
  obtain ⟨hdraws, hrand, hset, htok, hkeep⟩ := revokeToken_spec w userName
  refine ⟨⟨revokeToken_log w userName, htok⟩, ?_, ?_, ?_, ?_⟩
  · intro err he hnf
    exact ⟨(createUserToken_eq lib w userName).1 err he hnf, hkeep (by simp [he])⟩
  · intro hpass
    have heq := (createUserToken_eq lib w userName).2 hpass
    rw [heq]
    exact ⟨rfl, issueToken_steps lib _ userName⟩
  · rintro hg hd ⟨t, ht, hname⟩
    have hfind : ∃ t2, w.tokens.find? (fun t => t.Name == userName) = some t2 := by
      cases hf : w.tokens.find? (fun t => t.Name == userName) with
      | some t2 => exact ⟨t2, rfl⟩
      | none =>
        rw [List.find?_eq_none] at hf
        exact absurd (by simp [hname]) (hf t ht)
    obtain ⟨t2, hf⟩ := hfind
    have hany : w.tokens.any (fun t => t.Name == userName) = true := by
      rw [List.any_eq_true]
      exact ⟨t, ht, by simp [hname]⟩
    simp [revokeToken, World.tokensGet, World.tokensDelete, World.record, hg, hd, hf, hany]
  · intro h1 h2
    have hothers := (createUserToken_others lib _ userName h2).trans
      (createUserToken_others lib w userName h1)
    have e1 := createUserToken_ok lib w userName h1
    have e2 := createUserToken_ok lib _ userName h2
    rw [e1] at h1
    obtain ⟨v1, t1, hv1, hr1, _, _, _, hrand1, hset1, _, _⟩ := issueToken_ok lib _ userName h1
    rw [hrand, hdraws] at hv1
    obtain ⟨hdraws2, hrand2, hset2, _, _⟩ :=
      revokeToken_spec (createUserToken lib w userName).2 userName
    rw [e2] at h2
    obtain ⟨v2, t2, hv2, hr2, hn2, hfree2, htok2, _, _, _, hplain2⟩ :=
      issueToken_ok lib _ userName h2
    rw [hrand2, hdraws2] at hv2
    have hrw : (createUserToken lib w userName).2.randomToken = w.randomToken := by
      rw [e1, hrand1, hrand]
    have hsw : (createUserToken lib w userName).2.settingsBool = w.settingsBool := by
      rw [e1, hset1, hset]
    rw [hrw] at hv2
    rw [hset2, hsw] at hplain2
    refine ⟨v1, v2, t2, hv1, hv2, by rw [e1, hr1], by rw [e2, hr2], ?_, hplain2, hothers, ?_⟩
    · rw [e2, htok2, List.filter_append]
      have hnil : List.filter (fun t => t.Name == userName)
          (revokeToken (createUserToken lib w userName).2 userName).2.tokens = [] := by
        rw [List.filter_eq_nil_iff]
        intro t ht
        simpa using hfree2 t ht
      rw [hnil]
      simp [hn2]
    · rw [e2, hr2, e1, hr1]
      constructor
      · intro hne hv
        exact hne (by rw [hv])
      · intro hne heq
        exact hne (pair_value_injective userName v1 v2 heq.symm)

/-- Witness of C8, amended: two issuances in a row for `u-demo` in the sample world, whose
generator draws `k` and then `kk`. -/
theorem issuance_invalidates_prior_witness :
    (createUserToken sampleLib sampleWorld "u-demo").1 = ("u-demo:k", none) ∧
    (createUserToken sampleLib (createUserToken sampleLib sampleWorld "u-demo").2
      "u-demo").1 = ("u-demo:kk", none) ∧
    ∃ v1 v2 token,
      sampleWorld.randomToken sampleWorld.draws = .ok v1 ∧
      sampleWorld.randomToken (createUserToken sampleLib sampleWorld "u-demo").2.draws =
        .ok v2 ∧
      (createUserToken sampleLib sampleWorld "u-demo").1.1 = "u-demo" ++ ":" ++ v1 ∧
      (createUserToken sampleLib (createUserToken sampleLib sampleWorld "u-demo").2
        "u-demo").1.1 = "u-demo" ++ ":" ++ v2 ∧
      (createUserToken sampleLib (createUserToken sampleLib sampleWorld "u-demo").2
        "u-demo").2.tokens.filter (fun t => t.Name == "u-demo") = [token] ∧
      (sampleWorld.settingsBool "token-hashing" = .ok false → token.Token = v2) ∧
      (createUserToken sampleLib (createUserToken sampleLib sampleWorld "u-demo").2
        "u-demo").2.tokens.filter (fun t => t.Name != "u-demo") =
          sampleWorld.tokens.filter (fun t => t.Name != "u-demo") ∧
      ((createUserToken sampleLib (createUserToken sampleLib sampleWorld "u-demo").2
          "u-demo").1.1 ≠ (createUserToken sampleLib sampleWorld "u-demo").1.1 ↔ v1 ≠ v2) :=
  ⟨rfl, rfl, (issuance_invalidates_prior sampleLib sampleWorld "u-demo").2.2.2.2 rfl rfl⟩

theorem hashFormat_version (salt hash : String) :
    hashFormat Version salt hash = "$2:" ++ salt ++ ":" ++ hash := by
  have h : "$" ++ toString Version ++ ":" = "$2:" := by decide
  unfold hashFormat
  rw [h]

theorem ne_of_head_ne (v rest : String) (h : v.data.head? ≠ some '$') :
    "$2:" ++ rest ≠ v := by
  intro heq
  apply h
  rw [← heq]
  rfl

/-- C9 (hashing toggle in `createUserToken`). Let the first part of `createUserToken`
pass and leave the world `w1`, and let the generator draw the value `v`.
(1) With the `token-hashing` setting off, the returned value is `userName:v`, the only
token in a create request is the one whose value is `v` and which has no hashed
annotation, and it is the token added to the store when the request is accepted.
(2) With the setting on and the salt read succeeding, the returned value is again
`userName:v`; the token in the create request has the value
`$2:<base64 salt>:<base64 hash>` for the 8-byte salt read and the SHA-256 of the salt
followed by the bytes of `v`, it is annotated as hashed, and its value differs from `v`
for every `v` that does not begin with `$`. (3) In every case the returned value is
`userName:v` or, when an error stops the call before the create request, empty: never
the hash. -/
theorem hashing_toggle (lib : Lib) (w w1 : World) (userName v : String)
    (hpass : (revokeToken w userName).1 = none ∨
      ∃ err, (revokeToken w userName).1 = some err ∧ err.isNotFound = true)
    (hw1 : (revokeToken w userName).2 = w1)
    (hv : w1.randomToken w1.draws = .ok v) :
    (w1.settingsBool "token-hashing" = .ok false →
      (createUserToken lib w userName).1.1 = userName ++ ":" ++ v ∧
      (createUserToken lib w userName).2.log =
        w1.log ++ [Event.randomtokenGenerate, Event.settingsBool "token-hashing",
          Event.tokensCreate (newToken userName v)] ∧
      ((createUserToken lib w userName).1.2 = none →
        (createUserToken lib w userName).2.tokens = w1.tokens ++ [newToken userName v]) ∧
      (newToken userName v).Token = v ∧
      GoMap.get (newToken userName v).Annotations tokenHashedAnno = none) ∧
    (w1.settingsBool "token-hashing" = .ok true → w1.randReadErr (w1.draws + 1) = none →
      ∃ salt stored token,
        salt = (List.range 8).map (w1.randByte (w1.draws + 1)) ∧ salt.length = 8 ∧
        stored = "$2:" ++ lib.base64RawStd salt ++ ":" ++
          lib.base64RawStd (lib.sha256 (salt ++ bytesOf v)) ∧
        token = { newToken userName v with
          Token := stored, Annotations := [(tokenHashedAnno, "true")] } ∧
        (createUserToken lib w userName).1.1 = userName ++ ":" ++ v ∧
        (createUserToken lib w userName).2.log =
          w1.log ++ [Event.randomtokenGenerate, Event.settingsBool "token-hashing",
            Event.randRead, Event.tokensCreate token] ∧
        ((createUserToken lib w userName).1.2 = none →
          (createUserToken lib w userName).2.tokens = w1.tokens ++ [token]) ∧
        GoMap.get token.Annotations tokenHashedAnno = some "true" ∧
        (v.data.head? ≠ some '$' → token.Token ≠ v)) ∧
    ((createUserToken lib w userName).1.1 = userName ++ ":" ++ v ∨
      ((createUserToken lib w userName).1.1 = "" ∧
        (createUserToken lib w userName).1.2 ≠ none)) := by
  have heq := (createUserToken_eq lib w userName).2 hpass
  rw [hw1] at heq
  rw [heq]
  refine ⟨?_, ?_, ?_⟩
  · intro hb
    have hi : issueToken lib w1 userName =
        ((userName ++ ":" ++ v,
          (World.tokensCreate
            { w1.appendLog [Event.randomtokenGenerate, Event.settingsBool "token-hashing"] with
              draws := w1.draws + 1 } (newToken userName v)).1),
         (World.tokensCreate
            { w1.appendLog [Event.randomtokenGenerate, Event.settingsBool "token-hashing"] with
              draws := w1.draws + 1 } (newToken userName v)).2) := by
      simp [issueToken, World.randomtokenGenerate, World.settingsBoolGet, hv, hb,
        World.record, World.appendLog]
    rw [hi]
    refine ⟨rfl, ?_, ?_, rfl, rfl⟩
    · simp only []
      rw [World.tokensCreate_log]
      simp [World.appendLog]
    · intro hok
      exact (tokensCreate_ok _ _ hok).2.1
  · intro hb hr
    refine ⟨_, _, _, rfl, by simp, rfl, rfl, ?_⟩
    have hi : issueToken lib w1 userName =
        ((userName ++ ":" ++ v,
          (World.tokensCreate
            { w1.appendLog [Event.randomtokenGenerate, Event.settingsBool "token-hashing",
                Event.randRead] with
              draws := w1.draws + 1 + 1 }
            { newToken userName v with
              Token := "$2:" ++ lib.base64RawStd ((List.range 8).map (w1.randByte (w1.draws + 1)))
                ++ ":" ++ lib.base64RawStd (lib.sha256
                  ((List.range 8).map (w1.randByte (w1.draws + 1)) ++ bytesOf v)),
              Annotations := [(tokenHashedAnno, "true")] }).1),
         (World.tokensCreate
            { w1.appendLog [Event.randomtokenGenerate, Event.settingsBool "token-hashing",
                Event.randRead] with
              draws := w1.draws + 1 + 1 }
            { newToken userName v with
              Token := "$2:" ++ lib.base64RawStd ((List.range 8).map (w1.randByte (w1.draws + 1)))
                ++ ":" ++ lib.base64RawStd (lib.sha256
                  ((List.range 8).map (w1.randByte (w1.draws + 1)) ++ bytesOf v)),
              Annotations := [(tokenHashedAnno, "true")] }).2) := by
      simp [issueToken, World.randomtokenGenerate, World.settingsBoolGet, createSHA256Hash,
        World.randRead, hv, hb, hr, World.record, World.appendLog, hashFormat_version,
        newToken, GoMap.set, GoMap.delete]
    rw [hi]
    refine ⟨rfl, ?_, ?_, rfl, ?_⟩
    · simp only []
      rw [World.tokensCreate_log]
      simp [World.appendLog]
    · intro hok
      exact (tokensCreate_ok _ _ hok).2.1
    · intro hhead
      simp only [String.append_assoc]
      exact ne_of_head_ne v _ hhead
  · cases hb : w1.settingsBool "token-hashing" with
    | error err =>
      right
      simp [issueToken, World.randomtokenGenerate, World.settingsBoolGet, hv, hb, World.record]
    | ok ok =>
      cases ok with
      | false =>
        left
        simp [issueToken, World.randomtokenGenerate, World.settingsBoolGet, hv, hb,
          World.record]
      | true =>
        cases hr : w1.randReadErr (w1.draws + 1) with
        | some err =>
          right
          simp [issueToken, World.randomtokenGenerate, World.settingsBoolGet,
            createSHA256Hash, World.randRead, hv, hb, hr, World.record]
        | none =>
          left
          simp [issueToken, World.randomtokenGenerate, World.settingsBoolGet,
            createSHA256Hash, World.randRead, hv, hb, hr, World.record]

/-- Witness of C9: issuing for `u-demo` with hashing off stores the cleartext `k`; with
hashing on it stores an annotated value different from `k`; the caller gets `u-demo:k`. -/
theorem hashing_toggle_witness :
    ((createUserToken sampleLib hashingWorld "u-demo").1.1 = "u-demo" ++ ":" ++ "k" ∨
      ((createUserToken sampleLib hashingWorld "u-demo").1.1 = "" ∧
        (createUserToken sampleLib hashingWorld "u-demo").1.2 ≠ none)) ∧
    (createUserToken sampleLib sampleWorld "u-demo").2.tokens = [newToken "u-demo" "k"] ∧
    ∃ token, (createUserToken sampleLib hashingWorld "u-demo").2.tokens = [token] ∧
      token.Token ≠ "k" ∧ GoMap.get token.Annotations tokenHashedAnno = some "true" := by
  refine ⟨(hashing_toggle sampleLib hashingWorld _ "u-demo" "k"
      (Or.inr ⟨_, rfl, rfl⟩) rfl rfl).2.2,
    ((hashing_toggle sampleLib sampleWorld _ "u-demo" "k"
      (Or.inr ⟨_, rfl, rfl⟩) rfl rfl).1 rfl).2.2.1 rfl, ?_⟩
  obtain ⟨salt, stored, token, _, _, _, _, _, _, htok, hann, hne⟩ :=
    (hashing_toggle sampleLib hashingWorld _ "u-demo" "k"
      (Or.inr ⟨_, rfl, rfl⟩) rfl rfl).2.1 rfl rfl
  exact ⟨token, htok rfl, hne (by decide), hann⟩

/-- Counterexample to C10 as stated: in the sample world the configured URL and CA can
be read and neither a `rancher` deployment nor a `rancher` daemonset is observed, yet
`GetServerURLAndCA` does not fall back to the configured URL and CA: the internal CA
secret is missing and that error is returned. -/
theorem server_url_fallback_counterexample :
    sampleWorld.settingsServerURLAndCA = .ok ("https://rancher.example.com", "public-ca") ∧
    sampleWorld.deploymentCache systemNamespace "rancher" = .error (.notFound "rancher") ∧
    sampleWorld.daemonsetCache systemNamespace "rancher" = .error (.notFound "rancher") ∧
    (GetServerURLAndCA sampleWorld).1 ≠ ("https://rancher.example.com", "public-ca", none) ∧
    (GetServerURLAndCA sampleWorld).1 =
      ("", "", some (.notFound "tls-rancher-internal-ca")) := by
  refine ⟨rfl, rfl, rfl, by decide, rfl⟩

/-- C10, amended. In every world in which the configured server URL and CA can be read:
when the secret `tls-rancher-internal-ca` of the system namespace can be read from the
secret cache as well, `GetServerURLAndCA` returns `https://rancher.cattle-system` with
the internal CA (the `tls.crt` entry of that secret) if a `rancher` deployment of the
system namespace with a non-nil, non-zero replica count is observed or a `rancher`
daemonset of the system namespace is observed, and the configured URL and CA in every
other case; when that secret cannot be read, the read error is returned. -/
theorem server_url_and_ca (w : World) (serverURL ca : String)
    (hs : w.settingsServerURLAndCA = .ok (serverURL, ca)) :
    (∀ tlsSecret, w.secretCache systemNamespace "tls-rancher-internal-ca" = .ok tlsSecret →
      (((∃ dp replicas, w.deploymentCache systemNamespace "rancher" = .ok dp ∧
            dp.Replicas = some replicas ∧ replicas ≠ 0) ∨
          w.daemonsetCache systemNamespace "rancher" = .ok ()) →
        (GetServerURLAndCA w).1 =
          ("https://rancher.cattle-system", (GoMap.get tlsSecret.Data "tls.crt").getD "",
            none)) ∧
      (¬ ((∃ dp replicas, w.deploymentCache systemNamespace "rancher" = .ok dp ∧
            dp.Replicas = some replicas ∧ replicas ≠ 0) ∨
          w.daemonsetCache systemNamespace "rancher" = .ok ()) →
        (GetServerURLAndCA w).1 = (serverURL, ca, none))) ∧
    (∀ err, w.secretCache systemNamespace "tls-rancher-internal-ca" = .error err →
      (GetServerURLAndCA w).1 = ("", "", some err)) := by
  have hurl : "https://rancher." ++ systemNamespace = "https://rancher.cattle-system" := by
    decide
  constructor
  · intro tlsSecret ht
    cases hd : w.deploymentCache systemNamespace "rancher" with
    | error err =>
      cases hds : w.daemonsetCache systemNamespace "rancher" with
      | error err2 =>
        simp [GetServerURLAndCA, World.settingsGetServerURLAndCA, World.secretCacheGet,
          World.deploymentCacheGet, World.daemonsetCacheGet, World.record, hs, ht, hd, hds]
      | ok u =>
        simp [GetServerURLAndCA, World.settingsGetServerURLAndCA, World.secretCacheGet,
          World.deploymentCacheGet, World.daemonsetCacheGet, World.record, hs, ht, hd, hds,
          hurl]
    | ok dp =>
      cases hr : dp.Replicas with
      | none =>
        cases hds : w.daemonsetCache systemNamespace "rancher" with
        | error err2 =>
          simp [GetServerURLAndCA, World.settingsGetServerURLAndCA, World.secretCacheGet,
            World.deploymentCacheGet, World.daemonsetCacheGet, World.record, hs, ht, hd, hds,
            hr]
        | ok u =>
          simp [GetServerURLAndCA, World.settingsGetServerURLAndCA, World.secretCacheGet,
            World.deploymentCacheGet, World.daemonsetCacheGet, World.record, hs, ht, hd, hds,
            hr, hurl]
      | some replicas =>
        by_cases h0 : replicas = 0
        · cases hds : w.daemonsetCache systemNamespace "rancher" with
          | error err2 =>
            simp [GetServerURLAndCA, World.settingsGetServerURLAndCA, World.secretCacheGet,
              World.deploymentCacheGet, World.daemonsetCacheGet, World.record, hs, ht, hd,
              hds, hr, h0]
          | ok u =>
            simp [GetServerURLAndCA, World.settingsGetServerURLAndCA, World.secretCacheGet,
              World.deploymentCacheGet, World.daemonsetCacheGet, World.record, hs, ht, hd,
              hds, hr, h0, hurl]
        · simp [GetServerURLAndCA, World.settingsGetServerURLAndCA, World.secretCacheGet,
            World.deploymentCacheGet, World.daemonsetCacheGet, World.record, hs, ht, hd,
            hr, h0, hurl]
  · intro err ht
    simp [GetServerURLAndCA, World.settingsGetServerURLAndCA, World.secretCacheGet,
      World.record, hs, ht]

/-- Witness of C10 (amended): with the internal CA secret in the cache and neither
workload observed the configured URL and CA are returned; with a scaled `rancher`
deployment the internal URL and CA are. -/
theorem server_url_and_ca_witness :
    (GetServerURLAndCA readyWorld).1 = ("https://rancher.example.com", "public-ca", none) ∧
    (GetServerURLAndCA
      { readyWorld with deploymentCache := fun _ _ => .ok { Replicas := some 3 } }).1 =
      ("https://rancher.cattle-system", "internal-ca", none) :=
  ⟨((server_url_and_ca readyWorld _ _ rfl).1 _ rfl).2
      (by
        rintro (⟨dp, replicas, h, _⟩ | h)
        · exact Except.noConfusion h
        · exact Except.noConfusion h),
    ((server_url_and_ca
      { readyWorld with deploymentCache := fun _ _ => .ok { Replicas := some 3 } }
      _ _ rfl).1 _ rfl).1 (Or.inl ⟨_, 3, rfl, rfl, by decide⟩)⟩

/-- C11 (import short-circuit in `GetKubeConfig`). (1) For a cluster whose imported
config names the kubeconfig secret `<cluster name>-kubeconfig`, `GetKubeConfig` returns
no secret and no error and leaves the world as it is: no token is looked up or issued
and the server URL is not resolved. (2) For every other cluster, when `GetToken` returns
the token `token` without error, `GetServerURLAndCA` then resolves `serverURL` and
`cacert` without error and the connection profile serializes to `data`, it returns,
without error, the secret of the cluster's namespace named `<cluster name>-kubeconfig`
whose `token` entry is `token` and whose `value` entry is `data`, the profile built from
`<serverURL>/k8s/clusters/<managed-cluster id>`, the trimmed CA and the token. (3) An
error of `GetToken` or of `GetServerURLAndCA` is returned with no secret. -/
theorem import_short_circuit (lib : Lib) (w : World) (cluster : Cluster)
    (status : ClusterStatus) :
    (∀ importedConfig, cluster.Spec.ImportedConfig = some importedConfig →
      importedConfig.KubeConfigSecretName = cluster.Name ++ "-kubeconfig" →
      GetKubeConfig lib w cluster status = ((none, none), w)) ∧
    ((cluster.Spec.ImportedConfig = none ∨
        ∃ importedConfig, cluster.Spec.ImportedConfig = some importedConfig ∧
          importedConfig.KubeConfigSecretName ≠ cluster.Name ++ "-kubeconfig") →
      (∀ token w1 serverURL cacert w2 data,
        GetToken lib w cluster.Namespace cluster.Name = ((token, none), w1) →
        GetServerURLAndCA w1 = ((serverURL, cacert, none), w2) →
        lib.clientcmdWrite (serverURL ++ "/k8s/clusters/" ++ status.ClusterName)
          (lib.TrimSpace cacert) token = .ok data →
        ∃ secret, GetKubeConfig lib w cluster status = ((some secret, none), w2) ∧
          secret.Namespace = cluster.Namespace ∧
          secret.Name = cluster.Name ++ "-kubeconfig" ∧
          GoMap.get secret.Data "token" = some token ∧
          GoMap.get secret.Data "value" = some data ∧
          GoMap.keys secret.Data = ["value", "token"]) ∧
      (∀ token err w1,
        GetToken lib w cluster.Namespace cluster.Name = ((token, some err), w1) →
        GetKubeConfig lib w cluster status = ((none, some err), w1)) ∧
      (∀ token w1 serverURL cacert err w2,
        GetToken lib w cluster.Namespace cluster.Name = ((token, none), w1) →
        GetServerURLAndCA w1 = ((serverURL, cacert, some err), w2) →
        GetKubeConfig lib w cluster status = ((none, some err), w2))) := by
  constructor
  · intro importedConfig hi hname
    simp [GetKubeConfig, hi, hname, GetKubeConfigSecretName]
  · intro hother
    have himp : (match cluster.Spec.ImportedConfig with
        | some importedConfig =>
          importedConfig.KubeConfigSecretName == cluster.Name ++ "-kubeconfig"
        | none => false) = false := by
      rcases hother with hnone | ⟨importedConfig, hi, hne⟩
      · simp [hnone]
      · simp [hi, GetKubeConfigSecretName, hne]
    refine ⟨?_, ?_, ?_⟩
    · intro token w1 serverURL cacert w2 data ht hu hd
      refine ⟨Secret.mk cluster.Namespace (cluster.Name ++ "-kubeconfig")
        [("value", data), ("token", token)], ?_, rfl, rfl, ?_, ?_, rfl⟩
      · simp only [GetKubeConfig, GetKubeConfigSecretName, himp, ht, hu, hd]
        simp
      · have : (("value" : String) == "token") = false := by decide
        simp [GoMap.get, List.find?, this]
      · simp [GoMap.get, List.find?]
    · intro token err w1 ht
      simp only [GetKubeConfig, GetKubeConfigSecretName, himp, ht]
      simp
    · intro token w1 serverURL cacert err w2 ht hu
      simp only [GetKubeConfig, GetKubeConfigSecretName, himp, ht, hu]
      simp

/-- Witness of C11: the self-imported `demo` gets nothing and the world is untouched;
the plainly imported `demo` gets a secret carrying the saved token. -/
theorem import_short_circuit_witness :
    GetKubeConfig sampleLib readyWorld selfImportedDemo demoStatus = ((none, none), readyWorld) ∧
    ∃ secret w2,
      GetKubeConfig sampleLib readyWorld importedDemo demoStatus = ((some secret, none), w2) ∧
      secret.Namespace = "ns1" ∧ secret.Name = "demo-kubeconfig" ∧
      GoMap.get secret.Data "token" = some "saved-token" := by
  refine ⟨(import_short_circuit sampleLib readyWorld selfImportedDemo demoStatus).1 _ rfl rfl,
    ?_⟩
  obtain ⟨secret, h, hns, hn, ht, _, _⟩ :=
    ((import_short_circuit sampleLib readyWorld importedDemo demoStatus).2
      (Or.inr ⟨_, rfl, by decide⟩)).1 "saved-token" _ _ _ _ _ rfl rfl rfl
  exact ⟨secret, _, h, hns, hn, ht⟩

end Kubeconfig

namespace Import

/-- The method `deploy` on a kubeconfig secret that is not found or has no data. -/
theorem deploy_not_ready (lib : Lib) (w : World) (cluster : Cluster)
    (secretNamespace secretName token : String)
    (h : (∃ err, w.secretCache secretNamespace secretName = .error err ∧
        err.isNotFound = true) ∨
      ∃ secret, w.secretCache secretNamespace secretName = .ok secret ∧ secret.Data = []) :
    deploy lib w cluster secretNamespace secretName token =
      (some Error.errSkip,
        w.appendLog [Event.secretCacheGet secretNamespace secretName,
          Event.enqueueAfter cluster.Namespace cluster.Name 2]) := by
  rcases h with ⟨err, hs, hnf⟩ | ⟨secret, hs, hd⟩
  · simp [deploy, World.secretCacheGet, hs, IsNotFound, hnf, World.enqueueAfter, World.record,
      World.appendLog]
  · simp [deploy, World.secretCacheGet, hs, hd, World.enqueueAfter, World.record,
      World.appendLog]

/-- C14 (a missing kubeconfig secret is not-yet-ready, not a failure). (1) When the
kubeconfig secret is not found in the secret cache, or is found with empty data, `deploy`
returns the skip signal `generic.ErrSkip` and the world only gains the secret read and
one re-check after 2 seconds: the server URL is not resolved, nothing is fetched and
nothing is applied. (2) The skip signal is neither a not-found nor any other error
value. (3) When `importCluster` reaches `deploy` in that situation (no error from
`createCluster`, `AgentDeployed` false, a managed-cluster id, the record, a token value
and an imported config), it returns the skip signal and the status with `AgentDeployed`
still false, and the world only gains the two handshake reads, the secret read and the
re-check. -/
theorem missing_kubeconfig_secret (lib : Lib) (w : World) (cluster : Cluster) :
    (∀ secretNamespace secretName token,
      ((∃ err, w.secretCache secretNamespace secretName = .error err ∧
          err.isNotFound = true) ∨
        ∃ secret, w.secretCache secretNamespace secretName = .ok secret ∧ secret.Data = []) →
      deploy lib w cluster secretNamespace secretName token =
        (some Error.errSkip,
          w.appendLog [Event.secretCacheGet secretNamespace secretName,
            Event.enqueueAfter cluster.Namespace cluster.Name 2])) ∧
    (Error.errSkip.isNotFound = false ∧ (∀ msg, Error.errSkip ≠ Error.other msg) ∧
      (∀ msg, Error.errSkip ≠ Error.goPanic msg)) ∧
    (∀ (createCluster : CreateCluster) (w0 : World) (status st : ClusterStatus)
      (objs : List String) first rest importedConfig,
      createCluster cluster status { ImportedConfig := some () } w0 = ((objs, st, none), w) →
      st.AgentDeployed = false → st.ClusterName ≠ "" →
      w.mgmtClusterCache st.ClusterName = .ok () →
      w.clusterTokenCache st.ClusterName = .ok (first :: rest) →
      first.StatusToken ≠ "" →
      cluster.Spec.ImportedConfig = some importedConfig →
      ((∃ err, w.secretCache cluster.Namespace importedConfig.KubeConfigSecretName =
            .error err ∧ err.isNotFound = true) ∨
        ∃ secret, w.secretCache cluster.Namespace importedConfig.KubeConfigSecretName =
            .ok secret ∧ secret.Data = []) →
      importCluster lib createCluster w0 cluster status =
          ((objs, st, some Error.errSkip),
            w.appendLog [Event.mgmtClusterCacheGet st.ClusterName,
              Event.clusterTokenCacheList st.ClusterName,
              Event.secretCacheGet cluster.Namespace importedConfig.KubeConfigSecretName,
              Event.enqueueAfter cluster.Namespace cluster.Name 2]) ∧
        (importCluster lib createCluster w0 cluster status).1.2.1.AgentDeployed = false) := by
  refine ⟨fun ns n token h => deploy_not_ready lib w cluster ns n token h,
    ⟨rfl, fun msg h => Error.noConfusion h, fun msg h => Error.noConfusion h⟩, ?_⟩
  intro createCluster w0 status st objs first rest importedConfig hc hd hn hm hl ht hi hs
  have hdep := deploy_not_ready lib
    (w.appendLog [Event.mgmtClusterCacheGet st.ClusterName,
      Event.clusterTokenCacheList st.ClusterName])
    cluster cluster.Namespace importedConfig.KubeConfigSecretName first.StatusToken hs
  have hda : deployAgent lib w cluster st =
      ((true, some Error.errSkip),
        w.appendLog [Event.mgmtClusterCacheGet st.ClusterName,
          Event.clusterTokenCacheList st.ClusterName,
          Event.secretCacheGet cluster.Namespace importedConfig.KubeConfigSecretName,
          Event.enqueueAfter cluster.Namespace cluster.Name 2]) := by
    have h1 : deployAgent lib w cluster st =
        ((true, (deploy lib
            (w.appendLog [Event.mgmtClusterCacheGet st.ClusterName,
              Event.clusterTokenCacheList st.ClusterName])
            cluster cluster.Namespace importedConfig.KubeConfigSecretName
            first.StatusToken).1),
          (deploy lib
            (w.appendLog [Event.mgmtClusterCacheGet st.ClusterName,
              Event.clusterTokenCacheList st.ClusterName])
            cluster cluster.Namespace importedConfig.KubeConfigSecretName
            first.StatusToken).2) := by
      simp [deployAgent, World.mgmtClusterCacheGet, World.clusterTokenCacheList, hm, hl, ht,
        hi, World.record, World.appendLog]
    rw [h1, hdep, World.appendLog_appendLog]
    rfl
  have himp : importCluster lib createCluster w0 cluster status =
      ((objs, st, some Error.errSkip),
        w.appendLog [Event.mgmtClusterCacheGet st.ClusterName,
          Event.clusterTokenCacheList st.ClusterName,
          Event.secretCacheGet cluster.Namespace importedConfig.KubeConfigSecretName,
          Event.enqueueAfter cluster.Namespace cluster.Name 2]) := by
    simp [importCluster, hc, hd, hn, hda]
  exact ⟨himp, by rw [himp]; exact hd⟩

/-- Witness of C14: in the sample world with the record and a token value the kubeconfig
secret of `demo` is missing, so the handshake is skipped and retried. -/
theorem missing_kubeconfig_secret_witness :
    deploy sampleLib tokenWorld importedDemo "ns1" "imported-kubeconfig" "registration-token" =
        (some Error.errSkip,
          tokenWorld.appendLog [Event.secretCacheGet "ns1" "imported-kubeconfig",
            Event.enqueueAfter "ns1" "demo" 2]) ∧
      (importCluster sampleLib sampleCreateCluster tokenWorld importedDemo demoStatus).1 =
        ([], demoStatus, some Error.errSkip) :=
  ⟨(missing_kubeconfig_secret sampleLib tokenWorld importedDemo).1 _ _ _
      (Or.inl ⟨_, rfl, rfl⟩),
    congrArg Prod.fst
      ((missing_kubeconfig_secret sampleLib tokenWorld importedDemo).2.2
        sampleCreateCluster tokenWorld demoStatus demoStatus [] _ _ _ rfl rfl (by decide)
        rfl rfl (by decide) rfl (Or.inl ⟨_, rfl, rfl⟩)).1⟩

end Import

namespace Kubeconfig

/-- What `users.Create` leaves: the lookups untouched; the store unchanged when the
request is refused, and extended by the user, whose name was free, when it is accepted. -/
theorem usersCreate_spec (w : World) (user : User) :
    (w.usersCreate user).2.userCache = w.userCache ∧
      (w.usersCreate user).2.usersCreateErr = w.usersCreateErr ∧
      ((w.usersCreate user).1 ≠ none → (w.usersCreate user).2.users = w.users) ∧
      ((w.usersCreate user).1 = none →
        (w.usersCreate user).2.users = w.users ++ [user] ∧
          ∀ u ∈ w.users, u.Name ≠ user.Name) ∧
      ((∃ u ∈ w.users, u.Name = user.Name) → (w.usersCreate user).2.users = w.users) := by
  unfold World.usersCreate World.record
  simp only []
  cases w.usersCreateErr user with
  | some err => simp
  | none =>
    simp only []
    by_cases hany : w.users.any (fun u => u.Name == user.Name) = true
    · simp [hany]
    · have hfree : ∀ u ∈ w.users, u.Name ≠ user.Name := by
        intro u hu hname
        apply hany
        rw [List.any_eq_true]
        exact ⟨u, hu, by simp [hname]⟩
      simp only [hany, Bool.false_eq_true, if_false]
      refine ⟨trivial, trivial, by simp, fun _ => ⟨trivial, hfree⟩, ?_⟩
      rintro ⟨u, hu, hname⟩
      exact absurd hname (hfree u hu)

/-- The three outcomes of `EnsureUser`, by what the user lookup reports. -/
theorem EnsureUser_eq (lib : Lib) (w : World) (clusterNamespace clusterName : String) :
    (∀ user,
      w.userCache (getUserNameForPrincipal lib (getPrincipalID clusterNamespace clusterName)) =
        .ok user →
      EnsureUser lib w clusterNamespace clusterName =
        ((getUserNameForPrincipal lib (getPrincipalID clusterNamespace clusterName), none),
          w.appendLog [Event.userCacheGet
            (getUserNameForPrincipal lib (getPrincipalID clusterNamespace clusterName))])) ∧
    (∀ err,
      w.userCache (getUserNameForPrincipal lib (getPrincipalID clusterNamespace clusterName)) =
        .error err → err.isNotFound = false →
      EnsureUser lib w clusterNamespace clusterName =
        ((getUserNameForPrincipal lib (getPrincipalID clusterNamespace clusterName), some err),
          w.appendLog [Event.userCacheGet
            (getUserNameForPrincipal lib (getPrincipalID clusterNamespace clusterName))])) ∧
    (∀ err,
      w.userCache (getUserNameForPrincipal lib (getPrincipalID clusterNamespace clusterName)) =
        .error err → err.isNotFound = true →
      EnsureUser lib w clusterNamespace clusterName =
        ((getUserNameForPrincipal lib (getPrincipalID clusterNamespace clusterName),
          (World.usersCreate
            (w.appendLog [Event.userCacheGet
              (getUserNameForPrincipal lib (getPrincipalID clusterNamespace clusterName))])
            { Name := getUserNameForPrincipal lib
                (getPrincipalID clusterNamespace clusterName),
              Labels := labelsForUser lib (getPrincipalID clusterNamespace clusterName),
              PrincipalIDs := [getPrincipalID clusterNamespace clusterName] }).1),
          (World.usersCreate
            (w.appendLog [Event.userCacheGet
              (getUserNameForPrincipal lib (getPrincipalID clusterNamespace clusterName))])
            { Name := getUserNameForPrincipal lib
                (getPrincipalID clusterNamespace clusterName),
              Labels := labelsForUser lib (getPrincipalID clusterNamespace clusterName),
              PrincipalIDs := [getPrincipalID clusterNamespace clusterName] }).2)) := by
  refine ⟨?_, ?_, ?_⟩
  · intro user h
    simp [EnsureUser, createUser, World.userCacheGet, h, World.record, World.appendLog]
  · intro err h hnf
    simp [EnsureUser, createUser, World.userCacheGet, h, IsNotFound, hnf, World.record,
      World.appendLog]
  · intro err h hnf
    simp [EnsureUser, createUser, World.userCacheGet, h, IsNotFound, hnf, World.record,
      World.appendLog]

/-- A create request for a name that is taken is refused: with the error forced on the
store, or else with already-exists. -/
theorem usersCreate_taken (w : World) (user : User)
    (h : ∃ u ∈ w.users, u.Name = user.Name) :
    (w.usersCreate user).1 ≠ none ∧
      (w.usersCreateErr user = none →
        (w.usersCreate user).1 = some (.alreadyExists user.Name)) := by
  obtain ⟨u, hu, hname⟩ := h
  have hany : w.users.any (fun u => u.Name == user.Name) = true := by
    rw [List.any_eq_true]
    exact ⟨u, hu, by simp [hname]⟩
  unfold World.usersCreate World.record
  simp only []
  cases w.usersCreateErr user with
  | some err => simp
  | none => simp [hany]

/-- The call `EnsureUser` on a user that is in the store while the lookup reports
not-found: the create request is refused, the error is returned, the store is left. -/
theorem EnsureUser_stale (lib : Lib) (w : World) (clusterNamespace clusterName : String)
    (err : Error)
    (hc : w.userCache (getUserNameForPrincipal lib (getPrincipalID clusterNamespace clusterName)) = .error err)
    (hn : err.isNotFound = true)
    (hex : ∃ u ∈ w.users, u.Name = (getUserNameForPrincipal lib (getPrincipalID clusterNamespace clusterName))) :
    (EnsureUser lib w clusterNamespace clusterName).1.2 ≠ none ∧
    (w.usersCreateErr { Name := (getUserNameForPrincipal lib (getPrincipalID clusterNamespace clusterName)), Labels := labelsForUser lib (getPrincipalID clusterNamespace clusterName), PrincipalIDs := [(getPrincipalID clusterNamespace clusterName)] } = none →
      (EnsureUser lib w clusterNamespace clusterName).1.2 = some (.alreadyExists (getUserNameForPrincipal lib (getPrincipalID clusterNamespace clusterName)))) ∧
    (EnsureUser lib w clusterNamespace clusterName).2.users = w.users := by
  rw [(EnsureUser_eq lib w clusterNamespace clusterName).2.2 err hc hn]
  have htaken := usersCreate_taken (w.appendLog [Event.userCacheGet (getUserNameForPrincipal lib (getPrincipalID clusterNamespace clusterName))]) { Name := (getUserNameForPrincipal lib (getPrincipalID clusterNamespace clusterName)), Labels := labelsForUser lib (getPrincipalID clusterNamespace clusterName), PrincipalIDs := [(getPrincipalID clusterNamespace clusterName)] } hex
  obtain ⟨_, _, _, _, hdup⟩ := usersCreate_spec (w.appendLog [Event.userCacheGet (getUserNameForPrincipal lib (getPrincipalID clusterNamespace clusterName))]) { Name := (getUserNameForPrincipal lib (getPrincipalID clusterNamespace clusterName)), Labels := labelsForUser lib (getPrincipalID clusterNamespace clusterName), PrincipalIDs := [(getPrincipalID clusterNamespace clusterName)] }
  exact ⟨htaken.1, htaken.2, hdup hex⟩

/-- Counterexample to C15 as stated: in the sample world, whose user lookup keeps
reporting not-found, the first call for the cluster `demo` of namespace `ns1` succeeds
and stores the user `u-hfxwvxlgvz`; the second call, made when the user already exists,
makes a second create request and returns the already-exists error of the store. -/
theorem ensure_user_second_call_counterexample :
    (EnsureUser sampleLib sampleWorld "ns1" "demo").1 = ("u-hfxwvxlgvz", none) ∧
    (EnsureUser sampleLib sampleWorld "ns1" "demo").2.users.map (fun u => u.Name) =
      ["u-hfxwvxlgvz"] ∧
    (EnsureUser sampleLib (EnsureUser sampleLib sampleWorld "ns1" "demo").2 "ns1" "demo").1 =
      ("u-hfxwvxlgvz", some (.alreadyExists "u-hfxwvxlgvz")) ∧
    (EnsureUser sampleLib (EnsureUser sampleLib sampleWorld "ns1" "demo").2 "ns1"
        "demo").2.log =
      (EnsureUser sampleLib sampleWorld "ns1" "demo").2.log ++
        [Event.userCacheGet "u-hfxwvxlgvz",
          Event.usersCreate
            { Name := "u-hfxwvxlgvz",
              Labels := labelsForUser sampleLib "system://provisioning/ns1/demo",
              PrincipalIDs := ["system://provisioning/ns1/demo"] }] := by
  refine ⟨rfl, rfl, rfl, rfl⟩

/-- C15, amended (`EnsureUser` creates the user when the lookup reports not-found).
(1) The principal id is `system://provisioning/<namespace>/<cluster>`. (2) In every world
`EnsureUser` returns the same user name: `u-` followed by the lower-cased first ten
characters of the unpadded base-32 encoding of the SHA-256 of the principal id; it has 12
characters when the encoded digest has at least ten and lower-casing keeps the length.
(3) When the user lookup finds the user, nothing is created: the name is returned without
error and the world only gains the lookup. (4) When the lookup reports not-found, one
create request is made, for the user with that name and that single principal id, and the
store gains exactly that user when the request is accepted. (5) Any other lookup error is
returned and nothing is created. (6) A create request appears, or the user store changes,
only when the lookup reports not-found. (7) After a successful first call, a second call
returns the same name and leaves the user store as the first call left it; it returns an
error when the lookup of the first call did not find the user. (8) When the user is in
the store and the lookup reports not-found, the create request is refused: an error is
returned, already-exists unless another is forced, and the store is left as it is. -/
theorem ensure_user_idempotent (lib : Lib) (w : World) (clusterNamespace clusterName : String) :
    getPrincipalID clusterNamespace clusterName =
      "system://provisioning/" ++ clusterNamespace ++ "/" ++ clusterName ∧
    (∀ w2 : World, (EnsureUser lib w2 clusterNamespace clusterName).1.1 =
      "u-" ++ lib.ToLower (String.mk ((lib.base32Std (lib.sha256 (bytesOf
        ("system://provisioning/" ++ clusterNamespace ++ "/" ++ clusterName)))).data.take
          10))) ∧
    ((∀ b, 10 ≤ (lib.base32Std (lib.sha256 b)).length) →
      (∀ t, (lib.ToLower t).length = t.length) →
      (EnsureUser lib w clusterNamespace clusterName).1.1.length = 12) ∧
    (∀ user, w.userCache (getUserNameForPrincipal lib (getPrincipalID clusterNamespace clusterName)) = .ok user →
      EnsureUser lib w clusterNamespace clusterName =
        (((getUserNameForPrincipal lib (getPrincipalID clusterNamespace clusterName)), none), w.appendLog [Event.userCacheGet (getUserNameForPrincipal lib (getPrincipalID clusterNamespace clusterName))])) ∧
    (∀ err, w.userCache (getUserNameForPrincipal lib (getPrincipalID clusterNamespace clusterName)) = .error err → err.isNotFound = true →
      (EnsureUser lib w clusterNamespace clusterName).2.log =
          w.log ++ [Event.userCacheGet (getUserNameForPrincipal lib (getPrincipalID clusterNamespace clusterName)),
            Event.usersCreate
              { Name := (getUserNameForPrincipal lib (getPrincipalID clusterNamespace clusterName)), Labels := labelsForUser lib (getPrincipalID clusterNamespace clusterName),
                PrincipalIDs := [(getPrincipalID clusterNamespace clusterName)] }] ∧
        ((EnsureUser lib w clusterNamespace clusterName).1.2 = none →
          (EnsureUser lib w clusterNamespace clusterName).2.users =
            w.users ++ [{ Name := (getUserNameForPrincipal lib (getPrincipalID clusterNamespace clusterName)), Labels := labelsForUser lib (getPrincipalID clusterNamespace clusterName),
                          PrincipalIDs := [(getPrincipalID clusterNamespace clusterName)] }]) ∧
        ((EnsureUser lib w clusterNamespace clusterName).1.2 ≠ none →
          (EnsureUser lib w clusterNamespace clusterName).2.users = w.users)) ∧
    (∀ err, w.userCache (getUserNameForPrincipal lib (getPrincipalID clusterNamespace clusterName)) = .error err → err.isNotFound = false →
      EnsureUser lib w clusterNamespace clusterName =
        (((getUserNameForPrincipal lib (getPrincipalID clusterNamespace clusterName)), some err), w.appendLog [Event.userCacheGet (getUserNameForPrincipal lib (getPrincipalID clusterNamespace clusterName))])) ∧
    (∃ evs, (EnsureUser lib w clusterNamespace clusterName).2.log = w.log ++ evs ∧
      (((∃ user, Event.usersCreate user ∈ evs) ∨
          (EnsureUser lib w clusterNamespace clusterName).2.users ≠ w.users) →
        ∃ err, w.userCache (getUserNameForPrincipal lib (getPrincipalID clusterNamespace clusterName)) = .error err ∧ err.isNotFound = true)) ∧
    ((EnsureUser lib w clusterNamespace clusterName).1.2 = none →
      (EnsureUser lib (EnsureUser lib w clusterNamespace clusterName).2
          clusterNamespace clusterName).1.1 =
        (EnsureUser lib w clusterNamespace clusterName).1.1 ∧
      (EnsureUser lib (EnsureUser lib w clusterNamespace clusterName).2
          clusterNamespace clusterName).2.users =
        (EnsureUser lib w clusterNamespace clusterName).2.users ∧
      (∀ err, w.userCache (getUserNameForPrincipal lib (getPrincipalID clusterNamespace clusterName)) = .error err →
        (EnsureUser lib (EnsureUser lib w clusterNamespace clusterName).2
          clusterNamespace clusterName).1.2 ≠ none)) ∧
    (∀ err, w.userCache (getUserNameForPrincipal lib (getPrincipalID clusterNamespace clusterName)) = .error err → err.isNotFound = true →
      (∃ u ∈ w.users, u.Name = (getUserNameForPrincipal lib (getPrincipalID clusterNamespace clusterName))) →
      (EnsureUser lib w clusterNamespace clusterName).1.2 ≠ none ∧
      (w.usersCreateErr { Name := (getUserNameForPrincipal lib (getPrincipalID clusterNamespace clusterName)), Labels := labelsForUser lib (getPrincipalID clusterNamespace clusterName), PrincipalIDs := [(getPrincipalID clusterNamespace clusterName)] } = none →
        (EnsureUser lib w clusterNamespace clusterName).1.2 = some (.alreadyExists (getUserNameForPrincipal lib (getPrincipalID clusterNamespace clusterName)))) ∧
      (EnsureUser lib w clusterNamespace clusterName).2.users = w.users) := by
  obtain ⟨hfound, hother, hnf⟩ := EnsureUser_eq lib w clusterNamespace clusterName
  have hname : ∀ w2 : World, (EnsureUser lib w2 clusterNamespace clusterName).1.1 = (getUserNameForPrincipal lib (getPrincipalID clusterNamespace clusterName)) := by
    intro w2
    simp only [EnsureUser]
  refine ⟨rfl, fun w2 => hname w2, ?_, hfound, ?_, hother, ?_, ?_,
    fun err hc hn hex => EnsureUser_stale lib w clusterNamespace clusterName err hc hn hex⟩
  · intro hlen hlower
    rw [hname w]
    simp only [getUserNameForPrincipal, String.length_append, hlower]
    have h10 := hlen (bytesOf (getPrincipalID clusterNamespace clusterName))
    have hu : ("u-" : String).length = 2 := by decide
    have htake : (String.mk ((lib.base32Std (lib.sha256 (bytesOf (getPrincipalID clusterNamespace clusterName)))).data.take
        10)).length = 10 := by
      show (List.take 10 _).length = 10
      rw [List.length_take]
      exact Nat.min_eq_left h10
    rw [hu, htake]
  · intro err herr hn
    rw [hnf err herr hn]
    obtain ⟨_, _, hrefused, haccepted, _⟩ := usersCreate_spec
      (w.appendLog [Event.userCacheGet (getUserNameForPrincipal lib (getPrincipalID clusterNamespace clusterName))])
      { Name := (getUserNameForPrincipal lib (getPrincipalID clusterNamespace clusterName)), Labels := labelsForUser lib (getPrincipalID clusterNamespace clusterName), PrincipalIDs := [(getPrincipalID clusterNamespace clusterName)] }
    refine ⟨?_, fun h => (haccepted h).1, fun h => hrefused h⟩
    simp only []
    rw [World.usersCreate_log, World.appendLog_log]
    simp
  · cases hc : w.userCache (getUserNameForPrincipal lib (getPrincipalID clusterNamespace clusterName)) with
    | ok user =>
      rw [hfound user hc]
      exact ⟨_, rfl, by simp [World.appendLog]⟩
    | error err =>
      by_cases hn : err.isNotFound = true
      · rw [hnf err hc hn]
        refine ⟨[Event.userCacheGet (getUserNameForPrincipal lib (getPrincipalID clusterNamespace clusterName)), Event.usersCreate
          { Name := (getUserNameForPrincipal lib (getPrincipalID clusterNamespace clusterName)), Labels := labelsForUser lib (getPrincipalID clusterNamespace clusterName),
            PrincipalIDs := [(getPrincipalID clusterNamespace clusterName)] }], ?_, fun _ => ⟨err, rfl, hn⟩⟩
        simp only []
        rw [World.usersCreate_log, World.appendLog_log]
        simp
      · simp only [Bool.not_eq_true] at hn
        rw [hother err hc hn]
        exact ⟨_, rfl, by simp [World.appendLog]⟩
  · intro hok
    refine ⟨by rw [hname, hname], ?_⟩
    cases hc : w.userCache (getUserNameForPrincipal lib (getPrincipalID clusterNamespace clusterName)) with
    | ok user =>
      have h2 := (EnsureUser_eq lib (EnsureUser lib w clusterNamespace clusterName).2
        clusterNamespace clusterName).1 user (by rw [hfound user hc]; exact hc)
      refine ⟨?_, ?_⟩
      · rw [h2]
        rfl
      · intro err2 herr2
        exact Except.noConfusion herr2
    | error err =>
      by_cases hn : err.isNotFound = true
      · obtain ⟨hcache, _, _, haccepted, _⟩ := usersCreate_spec
          (w.appendLog [Event.userCacheGet (getUserNameForPrincipal lib (getPrincipalID clusterNamespace clusterName))])
          { Name := (getUserNameForPrincipal lib (getPrincipalID clusterNamespace clusterName)), Labels := labelsForUser lib (getPrincipalID clusterNamespace clusterName), PrincipalIDs := [(getPrincipalID clusterNamespace clusterName)] }
        have e1 := hnf err hc hn
        rw [e1] at hok
        have husers := (haccepted hok).1
        have hc2 : (EnsureUser lib w clusterNamespace clusterName).2.userCache (getUserNameForPrincipal lib (getPrincipalID clusterNamespace clusterName)) =
            .error err := by
          rw [e1]
          simp only []
          rw [hcache]
          exact hc
        have hex : ∃ u ∈ (EnsureUser lib w clusterNamespace clusterName).2.users,
            u.Name = (getUserNameForPrincipal lib (getPrincipalID clusterNamespace clusterName)) := by
          refine ⟨{ Name := (getUserNameForPrincipal lib (getPrincipalID clusterNamespace clusterName)), Labels := labelsForUser lib (getPrincipalID clusterNamespace clusterName), PrincipalIDs := [(getPrincipalID clusterNamespace clusterName)] }, ?_, rfl⟩
          rw [e1]
          simp only []
          rw [husers]
          simp
        obtain ⟨hne, _, hsame⟩ := EnsureUser_stale lib
          (EnsureUser lib w clusterNamespace clusterName).2 clusterNamespace clusterName err
          hc2 hn hex
        exact ⟨hsame, fun _ _ => hne⟩
      · simp only [Bool.not_eq_true] at hn
        rw [hother err hc hn] at hok
        simp at hok

end Kubeconfig

namespace Rke

/-- A machine template returned by `toMachineTemplate` carries the given name and the
cluster's namespace. -/
theorem toMachineTemplate_shape (env : Env) (name : String) (cluster : Cluster)
    (nodePool : RKENodePool) (log log2 : List Call) (machineTemplate : Unstructured)
    (h : toMachineTemplate env name cluster nodePool log = (.ok machineTemplate, log2)) :
    machineTemplate.GetName = name ∧ machineTemplate.GetNamespace = cluster.Namespace := by
  unfold toMachineTemplate at h
  cases hnc : nodePool.NodeConfig with
  | none => rw [hnc] at h; simp at h
  | some ref =>
    rw [hnc] at h
    simp only [] at h
    cases hget : env.dynamicGet
        (FromAPIVersionAndKind
          (if ref.APIVersion = "" then "rancher.cattle.io/v1" else ref.APIVersion) ref.Kind)
        cluster.Namespace ref.Name with
    | error err => rw [hget] at h; simp at h
    | ok nodeConfig =>
      rw [hget] at h
      simp only [] at h
      cases hmap : env.ToMap nodeConfig with
      | error err => rw [hmap] at h; simp at h
      | ok data =>
        rw [hmap] at h
        simp only [] at h
        rcases hpr : pruneBySchema env
          (FromAPIVersionAndKind
            (if ref.APIVersion = "" then "rancher.cattle.io/v1" else ref.APIVersion)
            ref.Kind).Kind data
          (log ++ [Call.dynamicGet
            (FromAPIVersionAndKind
              (if ref.APIVersion = "" then "rancher.cattle.io/v1" else ref.APIVersion)
              ref.Kind) cluster.Namespace ref.Name]) with ⟨⟨e, d⟩, l⟩
        rw [hpr] at h
        cases e with
        | some err => simp at h
        | none =>
          simp only [] at h
          cases hcommon : env.EncodeToMap nodePool.RKECommonNodeConfig with
          | error err => rw [hcommon] at h; simp at h
          | ok commonData =>
            rw [hcommon] at h
            simp only [Prod.mk.injEq, Except.ok.injEq] at h
            rw [← h.1]
            constructor <;> rfl

/-- What a successful run of the loop appends, pool by pool: for each valid pool, in
order, a machine template with the pool's generated name in the cluster's namespace and
the machine deployment built from the pool and that template. -/
theorem machineDeploymentsLoop_pairs (env : Env) (cluster : Cluster)
    (capiCluster : CapiCluster) (bootstrapName : String) (pools : List RKENodePool) :
    ∀ (result : List Object) (log : List Call) (objs : List Object),
      (machineDeploymentsLoop env cluster capiCluster bootstrapName pools result log).1 =
        .ok objs →
      ∃ pairs, objs = result ++ pairObjects pairs ∧
        List.Forall₂
          (fun nodePool (pair : Unstructured × MachineDeployment) =>
            pair.1.GetName = nodePoolName env cluster nodePool ∧
            pair.1.GetNamespace = cluster.Namespace ∧
            ∃ annotations, pair.2 =
              generatedDeployment env cluster capiCluster bootstrapName nodePool pair.1
                annotations)
          (pools.filter isValidPool) pairs := by
  induction pools with
  | nil =>
    intro result log objs h
    simp only [machineDeploymentsLoop, Except.ok.injEq] at h
    exact ⟨[], by simp [h, pairObjects], by simp⟩
  | cons nodePool rest ih =>
    intro result log objs h
    by_cases hv : isValidPool nodePool = true
    · have hs : skipNodePool nodePool = false := by
        rw [skipNodePool_eq_not_isValidPool, hv]; rfl
      simp only [machineDeploymentsLoop, hs, Bool.false_eq_true, if_false] at h
      rcases hr : toMachineTemplate env
        (SafeConcatName env.shorten [cluster.Name, "nodepool", nodePool.Name]) cluster nodePool log
        with ⟨r, log2⟩
      rw [hr] at h
      cases r with
      | error err => simp at h
      | ok machineTemplate =>
        simp only [] at h
        cases hw : withAnnotations env
            (withRoleLabels env
              (withStrategy
                (newMachineDeployment cluster capiCluster bootstrapName
                  (SafeConcatName env.shorten [cluster.Name, "nodepool", nodePool.Name])
                  nodePool machineTemplate) nodePool) nodePool) nodePool with
        | error err => rw [hw] at h; simp at h
        | ok md =>
          rw [hw] at h
          simp only [] at h
          obtain ⟨pairs, hobjs, hall⟩ := ih _ _ _ h
          obtain ⟨annotations, hmd⟩ := withAnnotations_ok env _ _ _ hw
          obtain ⟨hn, hns⟩ := toMachineTemplate_shape env _ cluster nodePool log log2
            machineTemplate hr
          refine ⟨(machineTemplate, md) :: pairs, ?_, ?_⟩
          · rw [hobjs]; simp [pairObjects]
          · rw [List.filter_cons_of_pos hv]
            exact List.Forall₂.cons ⟨hn, hns, annotations, hmd⟩ hall
    · have hs : skipNodePool nodePool = true := by
        rw [skipNodePool_eq_not_isValidPool]; simpa using hv
      simp only [machineDeploymentsLoop, hs, if_true] at h
      rw [List.filter_cons_of_neg hv]
      exact ih _ _ _ h

theorem pairObjects_machineDeployments (pairs : List (Unstructured × MachineDeployment)) :
    (pairObjects pairs).filterMap Object.machineDeployment? = pairs.map (fun pair => pair.2) := by
  induction pairs with
  | nil => rfl
  | cons pair rest ih =>
    obtain ⟨t, md⟩ := pair
    simp [pairObjects, Object.machineDeployment?, ih]

theorem get_set_ite (m : GoMap String) (k k2 v : String) :
    GoMap.get (GoMap.set m k v) k2 = if k = k2 then some v else GoMap.get m k2 := by
  by_cases h : k = k2
  · rw [if_pos h, ← h]; exact GoMap.get_set_self m k v
  · rw [if_neg h]; exact GoMap.get_set_of_ne m k k2 v h

/-- The template labels of a generated machine deployment are those that the two
role-label statements put into the empty map. -/
theorem generatedDeployment_labels (env : Env) (cluster : Cluster) (capiCluster : CapiCluster)
    (bootstrapName : String) (nodePool : RKENodePool) (machineTemplate : Unstructured)
    (annotations : GoMap String) :
    (generatedDeployment env cluster capiCluster bootstrapName nodePool machineTemplate
      annotations).Spec.Template.Labels =
      (if defaultTrue nodePool.ControlPlaneRole then
        GoMap.set
          (GoMap.set
            (if defaultTrue nodePool.EtcdRole then GoMap.set [] env.EtcdRoleLabel "true"
             else [])
            env.ControlPlaneRoleLabel "true")
          env.MachineControlPlaneLabelName "true"
       else
        (if defaultTrue nodePool.EtcdRole then GoMap.set [] env.EtcdRoleLabel "true"
         else [])) := by
  unfold generatedDeployment setAnnotations withRoleLabels withStrategy
  cases nodePool.RollingUpdate <;>
    by_cases h1 : defaultTrue nodePool.EtcdRole = true <;>
    by_cases h2 : defaultTrue nodePool.ControlPlaneRole = true <;>
    simp [h1, h2, setLabel, newMachineDeployment]

theorem defaultTrue_iff (b : Option Bool) : defaultTrue b = true ↔ (b = none ∨ b = some true) := by
  cases b with
  | none => simp [defaultTrue]
  | some v => cases v <;> simp [defaultTrue]

/-- The role labels of a generated machine deployment, flag by flag. -/
theorem generatedDeployment_role_labels (env : Env) (cluster : Cluster)
    (capiCluster : CapiCluster) (bootstrapName : String) (nodePool : RKENodePool)
    (machineTemplate : Unstructured) (annotations : GoMap String)
    (hdistinct : env.EtcdRoleLabel ≠ env.ControlPlaneRoleLabel ∧
      env.EtcdRoleLabel ≠ env.MachineControlPlaneLabelName) :
    (GoMap.get (generatedDeployment env cluster capiCluster bootstrapName nodePool
        machineTemplate annotations).Spec.Template.Labels env.EtcdRoleLabel = some "true" ↔
      (nodePool.EtcdRole = none ∨ nodePool.EtcdRole = some true)) ∧
    (nodePool.EtcdRole = some false →
      GoMap.get (generatedDeployment env cluster capiCluster bootstrapName nodePool
        machineTemplate annotations).Spec.Template.Labels env.EtcdRoleLabel = none) ∧
    (GoMap.get (generatedDeployment env cluster capiCluster bootstrapName nodePool
        machineTemplate annotations).Spec.Template.Labels env.ControlPlaneRoleLabel =
        some "true" ↔
      (nodePool.ControlPlaneRole = none ∨ nodePool.ControlPlaneRole = some true)) ∧
    (GoMap.get (generatedDeployment env cluster capiCluster bootstrapName nodePool
        machineTemplate annotations).Spec.Template.Labels env.MachineControlPlaneLabelName =
        some "true" ↔
      (nodePool.ControlPlaneRole = none ∨ nodePool.ControlPlaneRole = some true)) ∧
    (nodePool.ControlPlaneRole = some false →
      GoMap.get (generatedDeployment env cluster capiCluster bootstrapName nodePool
          machineTemplate annotations).Spec.Template.Labels env.ControlPlaneRoleLabel = none ∧
        GoMap.get (generatedDeployment env cluster capiCluster bootstrapName nodePool
          machineTemplate annotations).Spec.Template.Labels
          env.MachineControlPlaneLabelName = none) := by
  obtain ⟨hd1, hd2⟩ := hdistinct
  have hnil : ∀ k, GoMap.get ([] : GoMap String) k = none := fun _ => rfl
  rw [generatedDeployment_labels]
  simp only [← defaultTrue_iff]
  have hf1 : nodePool.EtcdRole = some false → defaultTrue nodePool.EtcdRole = false := by
    intro h; rw [h]; rfl
  have hf2 : nodePool.ControlPlaneRole = some false →
      defaultTrue nodePool.ControlPlaneRole = false := by
    intro h; rw [h]; rfl
  by_cases h1 : defaultTrue nodePool.EtcdRole = true <;>
    by_cases h2 : defaultTrue nodePool.ControlPlaneRole = true
  all_goals
    refine ⟨?_, ?_, ?_, ?_, ?_⟩ <;>
      simp_all [get_set_ite, Ne.symm hd1, Ne.symm hd2]

/-- C13 (default role labels). When `machineDeployments` succeeds on a cluster with a
node-pool configuration, its machine deployments are, in order, those of the valid
pools, and for each valid pool and its machine deployment: the template labels hold the
etcd role label with value `"true"` iff the pool's etcd flag is unset or true, and hold
the control-plane role label, and the cluster-API control-plane label, with value
`"true"` iff the pool's control-plane flag is unset or true; an explicit false leaves
the corresponding label out altogether. The etcd label constant is taken to differ from
the two control-plane label constants. -/
theorem default_role_labels (env : Env) (cluster : Cluster) (capiCluster : CapiCluster)
    (cfg : RKEConfig) (log : List Call) (objs : List Object)
    (h : cluster.Spec.RKEConfig = some cfg)
    (hok : (machineDeployments env cluster capiCluster log).1 = .ok objs)
    (hdistinct : env.EtcdRoleLabel ≠ env.ControlPlaneRoleLabel ∧
      env.EtcdRoleLabel ≠ env.MachineControlPlaneLabelName) :
    List.Forall₂
      (fun nodePool (md : MachineDeployment) =>
        md.ObjectMeta.Name = nodePoolName env cluster nodePool ∧
        (GoMap.get md.Spec.Template.Labels env.EtcdRoleLabel = some "true" ↔
          (nodePool.EtcdRole = none ∨ nodePool.EtcdRole = some true)) ∧
        (nodePool.EtcdRole = some false →
          GoMap.get md.Spec.Template.Labels env.EtcdRoleLabel = none) ∧
        (GoMap.get md.Spec.Template.Labels env.ControlPlaneRoleLabel = some "true" ↔
          (nodePool.ControlPlaneRole = none ∨ nodePool.ControlPlaneRole = some true)) ∧
        (GoMap.get md.Spec.Template.Labels env.MachineControlPlaneLabelName = some "true" ↔
          (nodePool.ControlPlaneRole = none ∨ nodePool.ControlPlaneRole = some true)) ∧
        (nodePool.ControlPlaneRole = some false →
          GoMap.get md.Spec.Template.Labels env.ControlPlaneRoleLabel = none ∧
            GoMap.get md.Spec.Template.Labels env.MachineControlPlaneLabelName = none))
      (cfg.NodePools.filter isValidPool) (objs.filterMap Object.machineDeployment?) := by
  simp only [machineDeployments, h] at hok
  obtain ⟨pairs, hobjs, hall⟩ :=
    machineDeploymentsLoop_pairs env cluster capiCluster _ cfg.NodePools _ log objs hok
  have hmd : objs.filterMap Object.machineDeployment? = pairs.map (fun pair => pair.2) := by
    rw [hobjs, List.filterMap_append, pairObjects_machineDeployments]
    by_cases hlen : cfg.NodePools.length > 0 <;> simp [hlen, Object.machineDeployment?]
  rw [hmd, List.forall₂_map_right_iff]
  refine List.Forall₂.imp ?_ hall
  rintro nodePool ⟨t, md⟩ ⟨_, _, annotations, hgen⟩
  simp only [] at hgen ⊢
  rw [hgen]
  refine ⟨?_, generatedDeployment_role_labels env cluster capiCluster _ nodePool t annotations
    hdistinct⟩
  simp [generatedDeployment, setAnnotations, withRoleLabels_objectMeta,
    withStrategy_objectMeta, newMachineDeployment]

/-- Witness of C13: the cluster `demo` with `pool-b`, whose flags are unset, and `pool-a`,
whose etcd flag is false. -/
theorem default_role_labels_witness :
    ∃ mdB mdA,
      (resultObjects
        (machineDeployments sampleEnv (demoCluster [unsetPool, poolA]) demoCapiCluster
          []).1).filterMap Object.machineDeployment? = [mdB, mdA] ∧
      GoMap.get mdB.Spec.Template.Labels "rke.cattle.io/etcd-role" = some "true" ∧
      GoMap.get mdB.Spec.Template.Labels "rke.cattle.io/control-plane-role" = some "true" ∧
      GoMap.get mdB.Spec.Template.Labels "cluster.x-k8s.io/control-plane" = some "true" ∧
      GoMap.get mdA.Spec.Template.Labels "rke.cattle.io/etcd-role" = none ∧
      GoMap.get mdA.Spec.Template.Labels "rke.cattle.io/control-plane-role" = some "true" := by
  have h := default_role_labels sampleEnv (demoCluster [unsetPool, poolA]) demoCapiCluster
    { NodePools := [unsetPool, poolA] } []
    (resultObjects
      (machineDeployments sampleEnv (demoCluster [unsetPool, poolA]) demoCapiCluster []).1)
    rfl (by rfl) (by decide)
  have hfilter : List.filter isValidPool [unsetPool, poolA] = [unsetPool, poolA] := by decide
  rw [hfilter] at h
  rcases List.forall₂_cons_left_iff.mp h with ⟨mdB, restB, hB, hrest, heq⟩
  rcases List.forall₂_cons_left_iff.mp hrest with ⟨mdA, restA, hA, hnil, heq2⟩
  have hnil2 : restA = [] := by cases hnil; rfl
  subst hnil2
  subst heq2
  refine ⟨mdB, mdA, heq, hB.2.1.2 (Or.inl rfl), hB.2.2.2.1.2 (Or.inl rfl),
    hB.2.2.2.2.1.2 (Or.inl rfl), hA.2.2.1 rfl, hA.2.2.2.1.2 (Or.inr rfl)⟩

/-! ## Generated names -/

theorem utf8ByteSize_append (s t : String) :
    (s ++ t).utf8ByteSize = s.utf8ByteSize + t.utf8ByteSize := by
  obtain ⟨a⟩ := s
  obtain ⟨b⟩ := t
  exact String.utf8Len_append a b

theorem intercalate_three (a b c : String) :
    String.intercalate "-" [a, b, c] = a ++ "-" ++ b ++ "-" ++ c := by
  simp [String.intercalate, String.intercalate.go]

theorem append_left_cancel (a c1 c2 : String) (h : a ++ c1 = a ++ c2) : c1 = c2 := by
  have hdata := congrArg String.data h
  simp only [String.data_append] at hdata
  exact String.ext (List.append_cancel_left hdata)

/-- A joined name under 64 bytes is the generated name. -/
theorem nodePoolName_short (env : Env) (cluster : Cluster) (nodePool : RKENodePool)
    (h : (cluster.Name ++ "-nodepool-" ++ nodePool.Name).utf8ByteSize < 64) :
    nodePoolName env cluster nodePool = cluster.Name ++ "-nodepool-" ++ nodePool.Name := by
  have hjoin : String.intercalate "-" [cluster.Name, "nodepool", nodePool.Name] =
      cluster.Name ++ "-nodepool-" ++ nodePool.Name := by
    rw [intercalate_three]
    have hlit : ("-nodepool-" : String) = "-" ++ "nodepool" ++ "-" := by decide
    rw [hlit]
    simp only [String.append_assoc]
  simp only [nodePoolName, SafeConcatName, hjoin, h, if_true]

/-- The generated name of the 60-byte pool name of cluster `demo`: the joined name has 74
bytes and is cut to its first 57 bytes and the digest. -/
theorem nodePoolName_long (hex5 : String → String) (pools : List RKENodePool) :
    nodePoolName (digestEnv hex5) (demoCluster pools) (namedPool longName) =
      "demo-nodepool-" ++ cutName ++ "-" ++ hex5 ("demo-nodepool-" ++ longName) := by
  have h1 : String.intercalate "-" ["demo", "nodepool", longName] =
      "demo-nodepool-" ++ longName := by decide
  have h2 : ¬ ("demo-nodepool-" ++ longName).utf8ByteSize < 64 := by decide
  have h3 : (("demo-nodepool-" ++ longName).data.getD 56 ' ') = 'a' := by decide
  have h4 : String.mk (("demo-nodepool-" ++ longName).data.take 57) =
      "demo-nodepool-" ++ cutName := by decide
  simp only [nodePoolName, digestEnv, demoCluster, namedPool, SafeConcatName, h1, h2, if_false,
    cutWithDigest, h3, h4]
  simp

/-- The generated name of a pool named after a cut name and a digest of five bytes: the
joined name has 63 bytes and is kept. -/
theorem nodePoolName_digest (hex5 : String → String)
    (hlen : ∀ s, (hex5 s).utf8ByteSize = 5) (s : String) (pools : List RKENodePool) :
    nodePoolName (digestEnv hex5) (demoCluster pools) (namedPool (cutName ++ "-" ++ hex5 s)) =
      "demo-nodepool-" ++ cutName ++ "-" ++ hex5 s := by
  have hsize : ("demo" ++ "-nodepool-" ++ (cutName ++ "-" ++ hex5 s)).utf8ByteSize < 64 := by
    rw [utf8ByteSize_append, utf8ByteSize_append _ (hex5 s), hlen]
    decide
  have h := nodePoolName_short (digestEnv hex5) (demoCluster pools)
    (namedPool (cutName ++ "-" ++ hex5 s)) hsize
  rw [h]
  simp only [demoCluster, namedPool, String.append_assoc]
  rfl

theorem longName_ne (t : String) : longName ≠ cutName ++ "-" ++ t := by
  intro h
  have h2 := congrArg (fun s => s.data.getD 43 ' ') h
  simp [longName, cutName] at h2

theorem namedPool_valid (name : String) (h : name ≠ "") : isValidPool (namedPool name) = true := by
  simp [isValidPool, namedPool, poolA, h]

/-- C12 (counterexample to the distinctness of generated names). Whatever the digest
`hex5` of five bytes, the generated names of the valid pools of cluster `demo` are not
pairwise distinct: the pool whose name is sixty times `a` has a joined name of 74 bytes,
which is cut to `demo-nodepool-`, 43 times `a`, a dash and the digest; the pool named 43
times `a`, a dash and that digest has this very name as its joined name of 63 bytes. -/
theorem distinct_pool_names_counterexample :
    ¬ ∃ hex5 : String → String, (∀ s, (hex5 s).utf8ByteSize = 5) ∧
      ∀ p1 p2 : RKENodePool, isValidPool p1 = true → isValidPool p2 = true →
        p1.Name ≠ p2.Name →
        nodePoolName (digestEnv hex5) (demoCluster [p1, p2]) p1 ≠
          nodePoolName (digestEnv hex5) (demoCluster [p1, p2]) p2 := by
  rintro ⟨hex5, hlen, hinj⟩
  have hne : longName ≠ cutName ++ "-" ++ hex5 ("demo-nodepool-" ++ longName) := longName_ne _
  have hne2 : cutName ++ "-" ++ hex5 ("demo-nodepool-" ++ longName) ≠ "" := by
    intro h
    have h2 := congrArg (fun s => s.data.getD 0 ' ') h
    simp [cutName] at h2
  refine hinj (namedPool longName)
    (namedPool (cutName ++ "-" ++ hex5 ("demo-nodepool-" ++ longName)))
    (namedPool_valid _ (by decide)) (namedPool_valid _ hne2) hne ?_
  rw [nodePoolName_long, nodePoolName_digest hex5 hlen]

/-- C12 (generated names, as the code has them). Let `machineDeployments` succeed on a
cluster with a node-pool configuration. (1) Its result is the bootstrap template, if
any, followed for each valid pool, in order, by a machine template and a machine
deployment that both carry the generated name of the pool. (2) The generated name is the
same for any cluster of the same name and any pool of the same name. (3) When the joined
name `<cluster>-nodepool-<pool>` is under 64 bytes, it is the generated name. (4) Two
pools with distinct names whose joined names are both under 64 bytes have distinct
generated names. -/
theorem generated_names_deterministic (env : Env) (cluster : Cluster)
    (capiCluster : CapiCluster) (cfg : RKEConfig) (log : List Call) (objs : List Object)
    (h : cluster.Spec.RKEConfig = some cfg)
    (hok : (machineDeployments env cluster capiCluster log).1 = .ok objs) :
    (∃ pairs : List (Unstructured × MachineDeployment),
      objs = objs.filter Object.isBootstrapTemplate ++ pairObjects pairs ∧
      List.Forall₂
        (fun nodePool (pair : Unstructured × MachineDeployment) =>
          pair.1.GetName = nodePoolName env cluster nodePool ∧
          pair.2.ObjectMeta.Name = nodePoolName env cluster nodePool)
        (cfg.NodePools.filter isValidPool) pairs) ∧
    (∀ (cluster2 : Cluster) (p1 p2 : RKENodePool),
      cluster2.Name = cluster.Name → p1.Name = p2.Name →
      nodePoolName env cluster2 p1 = nodePoolName env cluster p2) ∧
    (∀ p : RKENodePool, (cluster.Name ++ "-nodepool-" ++ p.Name).utf8ByteSize < 64 →
      nodePoolName env cluster p = cluster.Name ++ "-nodepool-" ++ p.Name) ∧
    (∀ p1 p2 : RKENodePool, p1.Name ≠ p2.Name →
      (cluster.Name ++ "-nodepool-" ++ p1.Name).utf8ByteSize < 64 →
      (cluster.Name ++ "-nodepool-" ++ p2.Name).utf8ByteSize < 64 →
      nodePoolName env cluster p1 ≠ nodePoolName env cluster p2) := by
  refine ⟨?_, ?_, ?_, ?_⟩
  · simp only [machineDeployments, h] at hok
    obtain ⟨pairs, hobjs, hall⟩ :=
      machineDeploymentsLoop_pairs env cluster capiCluster _ cfg.NodePools _ log objs hok
    have hpairs : ∀ ps : List (Unstructured × MachineDeployment),
        (pairObjects ps).filter Object.isBootstrapTemplate = [] := by
      intro ps
      induction ps with
      | nil => rfl
      | cons pair rest ih =>
        obtain ⟨t, md⟩ := pair
        simp [pairObjects, Object.isBootstrapTemplate, ih]
    refine ⟨pairs, ?_, ?_⟩
    · rw [hobjs, List.filter_append, hpairs, List.append_nil]
      by_cases hlen : cfg.NodePools.length > 0 <;>
        simp [hlen, Object.isBootstrapTemplate]
    · refine List.Forall₂.imp ?_ hall
      rintro nodePool ⟨t, md⟩ ⟨hname, _, annotations, hgen⟩
      simp only [] at hgen hname ⊢
      refine ⟨hname, ?_⟩
      rw [hgen]
      simp [generatedDeployment, setAnnotations, withRoleLabels_objectMeta,
        withStrategy_objectMeta, newMachineDeployment]
  · intro cluster2 p1 p2 hc hp
    simp only [nodePoolName, hc, hp]
  · intro p hp
    exact nodePoolName_short env cluster p hp
  · intro p1 p2 hne h1 h2 heq
    rw [nodePoolName_short env cluster p1 h1, nodePoolName_short env cluster p2 h2] at heq
    exact hne (append_left_cancel _ _ _ heq)

/-- Witness of C12: cluster `demo` with `pool-b` and `pool-a`. -/
theorem generated_names_deterministic_witness :
    nodePoolName sampleEnv (demoCluster [unsetPool, poolA]) unsetPool =
      "demo-nodepool-pool-b" ∧
    nodePoolName sampleEnv (demoCluster [unsetPool, poolA]) unsetPool ≠
      nodePoolName sampleEnv (demoCluster [unsetPool, poolA]) poolA :=
  have h := generated_names_deterministic sampleEnv (demoCluster [unsetPool, poolA])
    demoCapiCluster { NodePools := [unsetPool, poolA] } []
    (resultObjects
      (machineDeployments sampleEnv (demoCluster [unsetPool, poolA]) demoCapiCluster []).1)
    rfl (by rfl)
  ⟨h.2.2.1 unsetPool (by decide),
    h.2.2.2 unsetPool poolA (by decide) (by decide) (by decide)⟩

/-! ## The reverse index of infra configs -/

/-- C16 (reverse-index key consistency). (1) Let the cluster have a non-empty
managed-cluster id and a node-pool configuration, and let one of its node pools refer to
an infra config. For the referenced object, that is the object of the reference's kind
and name in the cluster's namespace whose API version is the reference's, or
`rancher.cattle.io/v1` when the reference has none, the key
`apiVersion/kind/namespace/name` is one of the keys `byNodeInfraIndex` gives for the
cluster, and it is the key under which `infraWatch` reads the index `by-node-infra`: when
the read succeeds, `infraWatch` returns the object and enqueues each cluster read, by
namespace and name, and when the read fails it returns the error. (2) A cluster with an
empty managed-cluster id or without node-pool configuration has no key. -/
theorem reverse_index_consistent (h : WatchEnv) (cluster : Cluster) (log : List WatchCall) :
    (∀ (cfg : RKEConfig) (nodePool : RKENodePool) (ref : ObjectReference)
        (obj : RuntimeObject),
      cluster.Status.ClusterName ≠ "" →
      cluster.Spec.RKEConfig = some cfg →
      nodePool ∈ cfg.NodePools →
      nodePool.NodeConfig = some ref →
      obj.TypeAccessor = .ok
        { Kind := ref.Kind,
          APIVersion :=
            if ref.APIVersion = "" then "rancher.cattle.io/v1" else ref.APIVersion } →
      obj.Accessor = .ok { Name := ref.Name, Namespace := cluster.Namespace } →
      ∃ key : String,
        key = (if ref.APIVersion = "" then "rancher.cattle.io/v1" else ref.APIVersion) ++
          "/" ++ ref.Kind ++ "/" ++ cluster.Namespace ++ "/" ++ ref.Name ∧
        key ∈ byNodeInfraIndex cluster ∧
        (∀ clusters, h.GetByIndex "by-node-infra" key = .ok clusters →
          infraWatch h (some obj) log =
            ((some obj, none),
              log ++ [WatchCall.getByIndex "by-node-infra" key] ++
                clusters.map (fun c => WatchCall.enqueue c.Namespace c.Name))) ∧
        (∀ err, h.GetByIndex "by-node-infra" key = .error err →
          infraWatch h (some obj) log =
            ((none, some err), log ++ [WatchCall.getByIndex "by-node-infra" key]))) ∧
    (cluster.Status.ClusterName = "" ∨ cluster.Spec.RKEConfig = none →
      byNodeInfraIndex cluster = []) := by
  refine ⟨?_, ?_⟩
  · intro cfg nodePool ref obj hid hcfg hmem hrefd htype hmeta
    refine ⟨_, rfl, ?_, ?_, ?_⟩
    · simp only [byNodeInfraIndex, hid, if_false, hcfg, List.mem_filterMap]
      exact ⟨nodePool, hmem, by simp [hrefd, toInfraRefKey]⟩
    · intro clusters hget
      by_cases hv : ref.APIVersion = "" <;>
        simp [infraWatch, htype, hmeta, toInfraRefKey, byNodeInfra, hv] at hget ⊢ <;>
        simp [hget]
    · intro err hget
      by_cases hv : ref.APIVersion = "" <;>
        simp [infraWatch, htype, hmeta, toInfraRefKey, byNodeInfra, hv] at hget ⊢ <;>
        simp [hget]
  · rintro (hid | hcfg)
    · simp [byNodeInfraIndex, hid]
    · simp [byNodeInfraIndex, hcfg]

/-- Witness of C16: the cluster `demo` with `pool-a`, whose reference has no API version,
and the infra config `do-config`; the cluster is enqueued. -/
theorem reverse_index_consistent_witness :
    byNodeInfraIndex (demoCluster [poolA]) =
      ["rancher.cattle.io/v1/DigitaloceanConfig/ns1/do-config"] ∧
    infraWatch (indexedCache [demoCluster [poolA]]) (some doConfig) [] =
      ((some doConfig, none),
        [WatchCall.getByIndex "by-node-infra"
            "rancher.cattle.io/v1/DigitaloceanConfig/ns1/do-config",
          WatchCall.enqueue "ns1" "demo"]) ∧
    byNodeInfraIndex
      { demoCluster [poolA] with
        Status := { Ready := false, ClusterName := "", AgentDeployed := false } } = [] := by
  have h := reverse_index_consistent (indexedCache [demoCluster [poolA]])
    (demoCluster [poolA]) []
  obtain ⟨key, hkey, _, hok, _⟩ := h.1 { NodePools := [poolA] } poolA
    { Kind := "DigitaloceanConfig", Namespace := "", Name := "do-config", APIVersion := "" }
    doConfig (by decide) rfl (by simp) rfl rfl rfl
  have hkey2 : key = "rancher.cattle.io/v1/DigitaloceanConfig/ns1/do-config" := by
    rw [hkey]; decide
  subst hkey2
  refine ⟨by decide, ?_, by decide⟩
  exact hok [demoCluster [poolA]] (by rfl)

end Rke

namespace Kubeconfig

/-- Witness of C15, amended: in the sample world, where the lookup reports not-found, the
first call for the cluster `demo` of namespace `ns1` creates the user; the second call
returns the same name and leaves the user store as it is, and returns an error. -/
theorem ensure_user_idempotent_witness :
    (EnsureUser sampleLib sampleWorld "ns1" "demo").1.2 = none ∧
    (EnsureUser sampleLib sampleWorld "ns1" "demo").2.users.length = 1 ∧
    (EnsureUser sampleLib (EnsureUser sampleLib sampleWorld "ns1" "demo").2 "ns1" "demo").1.1 =
      (EnsureUser sampleLib sampleWorld "ns1" "demo").1.1 ∧
    (EnsureUser sampleLib (EnsureUser sampleLib sampleWorld "ns1" "demo").2 "ns1" "demo").2.users =
      (EnsureUser sampleLib sampleWorld "ns1" "demo").2.users ∧
    (EnsureUser sampleLib (EnsureUser sampleLib sampleWorld "ns1" "demo").2 "ns1" "demo").1.2 ≠
      none :=
  have h := (ensure_user_idempotent sampleLib sampleWorld "ns1" "demo").2.2.2.2.2.2.2.1 (by rfl)
  ⟨by rfl, by rfl, h.1, h.2.1, h.2.2 (.notFound "u-hfxwvxlgvz") (by rfl)⟩

end Kubeconfig

end RancherOperator
